import Mathlib

/-!
GNSS-SDR time library and observables block: durations, clock identifiers, instants, the
time converter, the frequency table and the block `rx_synch_observables_gs`.

A shallow embedding of

* `src/algorithms/libs/time_interval_impl.cc`  (class `TimeIntervalImpl`, wrapper `TimeInterval`)
* `src/algorithms/libs/clock_id.cc`            (class `ClockID`)
* `src/algorithms/libs/time_point_impl.cc`     (class `TimePointImpl`, wrapper `TimePoint`)
* `src/algorithms/libs/gnss_time_converter.cc` (class `TimeConverterImpl`)
* `src/core/system_parameters/gnss_frequencies.cc` (function `GetFrequency`)
* `src/algorithms/observables/gnuradio_blocks/rx_synch_observables_gs.cc`
  (class `rx_synch_observables_gs`)

Machine integers: an `int64_t` is an `Int` in `[-2^63, 2^63)`; every arithmetic
operation of the source that can leave that range is followed by `wrap64`
(two's complement wrap-around).  The pimpl wrappers `TimeInterval`, `TimePoint`
and `TimeConverter` only forward to their `...Impl` classes and are identified
with them.  A `double` whose value enters a duration does so through the two integers
the constructor takes from it; in the observables block the type of `double` values is a
parameter `R` with the operations the source applies to them.
-/

namespace GnssSdr

/-! ## 64-bit machine integers -/

/-- Two's complement reduction of an integer to the range of `int64_t`. -/
def wrap64 (x : Int) : Int :=
  (x + 9223372036854775808) % 18446744073709551616 - 9223372036854775808

/-- The range of `int64_t`. -/
def InInt64 (x : Int) : Prop :=
  -9223372036854775808 ≤ x ∧ x < 9223372036854775808

instance (x : Int) : Decidable (InInt64 x) := by
  unfold InInt64; exact inferInstance

/-- Two's complement reduction of an integer to the range of `int` (32 bits): the conversion
of an `int64_t` value to the return type `int`. -/
def wrap32 (x : Int) : Int :=
  (x + 2147483648) % 4294967296 - 2147483648

/-- The range of `int` (32 bits). -/
def InInt32 (x : Int) : Prop :=
  -2147483648 ≤ x ∧ x < 2147483648

instance (x : Int) : Decidable (InInt32 x) := by
  unfold InInt32; exact inferInstance

/-! ## `namespace Constants` of time_interval_impl.cc -/

namespace Constants

def kSecondsPerHour : Int := 3600
def kSecondsPerDay : Int := 24 * kSecondsPerHour
def kSecondsPerWeek : Int := 7 * kSecondsPerDay

def kOneFemtoSecondInternal : Int := 1
def kOnePicoSecondInternal : Int := kOneFemtoSecondInternal * 1000
def kOneNanoSecondInternal : Int := kOnePicoSecondInternal * 1000
def kOneMicroSecondInternal : Int := kOneNanoSecondInternal * 1000
def kOneMilliSecondInternal : Int := kOneMicroSecondInternal * 1000
def kOneSecondInternal : Int := kOneMilliSecondInternal * 1000
def kResolution : Int := kOneFemtoSecondInternal

end Constants

/-! ## `TimeIntervalImpl` -/

/-- The two private members of `TimeIntervalImpl`. -/
structure TimeIntervalImpl where
  mSeconds : Int
  mFractionalSeconds : Int
  deriving DecidableEq, Repr

/-- `TimeInterval` holds a `TimeIntervalImpl` and forwards every operation. -/
abbrev TimeInterval := TimeIntervalImpl

namespace TimeIntervalImpl

/-- `TimeIntervalImpl::Normalise`: C++ `/` on `int64_t` truncates toward zero. -/
def Normalise (t : TimeIntervalImpl) : TimeIntervalImpl :=
  let extraSeconds := Int.tdiv t.mFractionalSeconds Constants.kOneSecondInternal
  { mSeconds := wrap64 (t.mSeconds + extraSeconds)
    mFractionalSeconds :=
      wrap64 (t.mFractionalSeconds - wrap64 (extraSeconds * Constants.kOneSecondInternal)) }

/-- The constructor `TimeIntervalImpl(int32_t weeks, int64_t seconds, double fractionalSeconds)`.
The `double` argument enters the result only through `std::floor(fractionalSeconds)` and
through `static_cast<int64_t>((fractionalSeconds - floor) * 1e15)`; these two integers are
the arguments `fl` and `fr` here (so `0 ≤ fr ≤ 10^15` for every finite `double`).  The
statement `mSeconds += std::floor(fractionalSeconds)` adds in `double`; in every factory one
of the two summands is zero and the other is below `2^53` in magnitude, so the sum is exact. -/
def ctor (weeks seconds fl fr : Int) : TimeIntervalImpl :=
  Normalise
    { mSeconds := wrap64 (wrap64 (seconds + weeks * Constants.kSecondsPerWeek) + fl)
      mFractionalSeconds := fr }

/-- `TimeIntervalImpl::AsWeeks`: the truncating `int64_t` quotient, returned as `int`. -/
def AsWeeks (t : TimeIntervalImpl) : Int :=
  wrap32 (Int.tdiv t.mSeconds Constants.kSecondsPerWeek)

/-- `TimeIntervalImpl::operator+=`. -/
def add (lhs rhs : TimeIntervalImpl) : TimeIntervalImpl :=
  Normalise
    { mSeconds := wrap64 (lhs.mSeconds + rhs.mSeconds)
      mFractionalSeconds := wrap64 (lhs.mFractionalSeconds + rhs.mFractionalSeconds) }

/-- `TimeIntervalImpl::operator-=`. -/
def sub (lhs rhs : TimeIntervalImpl) : TimeIntervalImpl :=
  Normalise
    { mSeconds := wrap64 (lhs.mSeconds - rhs.mSeconds)
      mFractionalSeconds := wrap64 (lhs.mFractionalSeconds - rhs.mFractionalSeconds) }

/-- `TimeIntervalImpl::operator*=`.  `x >> 32` on `int64_t` is the floor quotient by `2^32`,
`x & 0xFFFFFFFF` the non-negative remainder, and `1LL << 63` wraps to `-2^63`. -/
def mul (t : TimeIntervalImpl) (n : Int) : TimeIntervalImpl :=
  let mSeconds := wrap64 (t.mSeconds * n)
  let afU := t.mFractionalSeconds / 4294967296
  let afL := t.mFractionalSeconds % 4294967296
  let NU := n / 4294967296
  let NL := n % 4294967296
  let c := wrap64 (afU * NU)
  let d := wrap64 (wrap64 (afL * NU) + wrap64 (afU * NL))
  let e := wrap64 (afL * NL)
  let dU := d / 4294967296
  let dL := d % 4294967296
  let mSeconds := wrap64 (mSeconds +
    wrap64 (wrap64 (wrap64 (c + dU) * 2) *
      Int.tdiv (wrap64 (1 * 9223372036854775808)) Constants.kOneSecondInternal))
  Normalise
    { mSeconds := mSeconds
      mFractionalSeconds := wrap64 (wrap64 (dL * 4294967296) + e) }

instance : Add TimeIntervalImpl := ⟨add⟩
instance : Sub TimeIntervalImpl := ⟨sub⟩
instance : HMul TimeIntervalImpl Int TimeIntervalImpl := ⟨mul⟩

/-- `operator<` on `TimeIntervalImpl`. -/
def lt (lhs rhs : TimeIntervalImpl) : Bool :=
  if lhs.mSeconds < rhs.mSeconds then true
  else if lhs.mSeconds > rhs.mSeconds then false
  else decide (lhs.mFractionalSeconds < rhs.mFractionalSeconds)

/-- `operator==` on `TimeIntervalImpl`. -/
def eq (lhs rhs : TimeIntervalImpl) : Bool :=
  decide (lhs.mSeconds = rhs.mSeconds) &&
    decide (lhs.mFractionalSeconds = rhs.mFractionalSeconds)

/-- `operator!=` on `TimeIntervalImpl`. -/
def ne (lhs rhs : TimeIntervalImpl) : Bool := !(eq lhs rhs)

/-- `operator>`. -/
def gt (lhs rhs : TimeIntervalImpl) : Bool := lt rhs lhs

/-- `operator<=`. -/
def le (lhs rhs : TimeIntervalImpl) : Bool := !(gt lhs rhs)

/-- `operator>=`. -/
def ge (lhs rhs : TimeIntervalImpl) : Bool := !(lt lhs rhs)

/-- The representation range of a stored duration: both members are `int64_t` values and
the sub-second member is strictly between `-10^15` and `10^15`. -/
def Valid (t : TimeIntervalImpl) : Prop :=
  InInt64 t.mSeconds ∧
    -Constants.kOneSecondInternal < t.mFractionalSeconds ∧
    t.mFractionalSeconds < Constants.kOneSecondInternal

instance (t : TimeIntervalImpl) : Decidable (Valid t) := by
  unfold Valid; exact inferInstance

/-- The duration a pair stands for, in femtoseconds: `AsSeconds` returns
`mSeconds + mFractionalSeconds / kOneSecondInternal`. -/
def femtoseconds (t : TimeIntervalImpl) : Int :=
  t.mSeconds * Constants.kOneSecondInternal + t.mFractionalSeconds

/-- Modelled from the spec: `TimeIntervalImpl::RemainderMod` is declared in
`time_interval_impl.h` and called by the tests and the observables block, but its body is not
among the sources.  The spec gives its semantics as "result + k·m = self for some integer k,
and 0 ≤ result < m (when m > 0)": the remainder of the represented femtoseconds, stored with
the sub-second member in `[0, 10^15)`. -/
def RemainderMod (t modulus : TimeIntervalImpl) : TimeIntervalImpl :=
  let r := femtoseconds t % femtoseconds modulus
  { mSeconds := r / Constants.kOneSecondInternal
    mFractionalSeconds := r % Constants.kOneSecondInternal }

end TimeIntervalImpl

/-! ## Factories of `TimeInterval` -/

namespace TimeInterval

/-- `TimeInterval::Weeks`. -/
def Weeks (numWeeks : Int) : TimeInterval :=
  TimeIntervalImpl.ctor numWeeks 0 0 0

/-- `TimeInterval::Days(int numDays)`. The parameter is a C++ `int`: the value passed is
converted to 32 bits (`wrap32`) before it is multiplied by the 64-bit `kSecondsPerDay`. -/
def Days (numDays : Int) : TimeInterval :=
  TimeIntervalImpl.ctor 0 (wrap64 (wrap32 numDays * Constants.kSecondsPerDay)) 0 0

/-- `TimeInterval::Hours(int numHours)`. The parameter is a C++ `int`: the value passed is
converted to 32 bits (`wrap32`) before it is multiplied by the 64-bit `kSecondsPerHour`. -/
def Hours (numHours : Int) : TimeInterval :=
  TimeIntervalImpl.ctor 0 (wrap64 (wrap32 numHours * Constants.kSecondsPerHour)) 0 0

/-- `TimeInterval::Seconds(double numSeconds)` at a whole number of seconds: the
`double` is integer-valued, its floor is `numSeconds` and its fractional part is `0.0`. -/
def Seconds (numSeconds : Int) : TimeInterval :=
  TimeIntervalImpl.ctor 0 0 numSeconds 0

/-- `TimeInterval::MilliSeconds(double numMS)` at `numMS = 1.0`: the product `1.0 * 1e-3` is
the `double` nearest to 0.001, its floor is 0 and `0.001 * 1e15` rounds to `1e12`. -/
def MilliSeconds_1 : TimeInterval :=
  TimeIntervalImpl.ctor 0 0 0 1000000000000

/-- `TimeInterval::Seconds(double numSeconds)` at `numSeconds = 0.5`: the floor is 0 and
`0.5 * 1e15` is exactly `5e14`. -/
def Seconds_half : TimeInterval :=
  TimeIntervalImpl.ctor 0 0 0 500000000000000

/-- `TimeInterval::MilliSeconds(double numMS)` at `numMS = 23.0`: `23.0 * 1e-3` has floor 0 and
its product with `1e15` rounds to `2.3e13`. -/
def MilliSeconds_23 : TimeInterval :=
  TimeIntervalImpl.ctor 0 0 0 23000000000000

/-- `TimeInterval::MilliSeconds(double numMS)` at `numMS = 1001.0`: `1001.0 * 1e-3` rounds to
the `double` just above 1.001, its floor is 1 and the remaining fraction times `1e15` is
`1000000000000.11...`, which the cast truncates to `10^12`. -/
def MilliSeconds_1001 : TimeInterval :=
  TimeIntervalImpl.ctor 0 0 1 1000000000000

/-- `TimeInterval::NanoSeconds(double numNS)` at `numNS = 1.0`: `1.0 * 1e-9` has floor 0 and
its product with `1e15` rounds to `1e6`. -/
def NanoSeconds_1 : TimeInterval :=
  TimeIntervalImpl.ctor 0 0 0 1000000

/-- `TimeInterval::NanoSeconds(double numNS)` at `numNS = 100.0`: `100.0 * 1e-9` has floor 0
and its product with `1e15` rounds to `1e8`. -/
def NanoSeconds_100 : TimeInterval :=
  TimeIntervalImpl.ctor 0 0 0 100000000

/-- `TimeInterval::Ticks(int64_t num_ticks, double tick_rate)` for an integer-valued rate:
`integer_ticks_per_second` is the rate as `int64_t`, the whole seconds are the truncating
quotient (passed to `Seconds` as a `double`, exact below `2^53`), and the remainder
`num_ticks % integer_ticks_per_second` enters through the `double` quotient
`remainder / rate`, given here by its floor `res_fl` and its scaled fraction `res_fr` (both 0
when the remainder is 0). -/
def Ticks (num_ticks integer_ticks_per_second res_fl res_fr : Int) : TimeInterval :=
  let T_seconds := Seconds (Int.tdiv num_ticks integer_ticks_per_second)
  let T_fractional_seconds := TimeIntervalImpl.ctor 0 0 res_fl res_fr
  T_seconds + T_fractional_seconds

/-- The sum `d + d + ... + d` of `n` copies of `d`, formed with `operator+` one copy at a time
from the zero duration. -/
def repeated_sum (d : TimeInterval) : Nat → TimeInterval
  | 0 => Seconds 0
  | k + 1 => repeated_sum d k + d

/-- Modelled from the spec: `TimeInterval::Years(int)` is declared in `gnss_time.h` and used by
the converter's constructor, but its body is not among the sources.  The spec's epoch table
derives the Unix epoch as "70 years + 17 leap-year days", so a year is 365 days. -/
def Years (numYears : Int) : TimeInterval :=
  TimeIntervalImpl.ctor 0 (wrap64 (numYears * (365 * Constants.kSecondsPerDay))) 0 0

end TimeInterval

/-! ## `ClockID` -/

/-- The clock systems of `ClockID::eClockSystem`.  The enumeration also declares the range
markers `kGnssStart`, `kGnssEnd`, `kUniStart`, `kUniEnd`; the constructor of `ClockID` is
private and no factory stores a marker, so the markers are not systems of a `ClockID`. -/
inductive eClockSystem where
  | kReceiver | kGps | kGalileo | kGlonass | kBeiDou | kIrnss | kQzss | kSbas
  | kUTC | kUnix | kNTP | kTAI
  deriving DecidableEq, Repr

namespace eClockSystem

/-- The `uint32_t` value of each enumerator of `ClockID::eClockSystem`. -/
def toUInt32 : eClockSystem → Nat
  | kReceiver => 0
  | kGps => 1025
  | kGalileo => 1026
  | kGlonass => 1027
  | kBeiDou => 1028
  | kIrnss => 1029
  | kQzss => 1030
  | kSbas => 1031
  | kUTC => 2049
  | kUnix => 2050
  | kNTP => 2051
  | kTAI => 2052

/-- The range marker `kGnssStart = 1024`. -/
def kGnssStart : Nat := 1024

/-- The range marker `kGnssEnd`, the enumerator after `kSbas`. -/
def kGnssEnd : Nat := 1032

/-- The range marker `kUniStart = 2048`. -/
def kUniStart : Nat := 2048

/-- The range marker `kUniEnd = 4096`. -/
def kUniEnd : Nat := 4096

end eClockSystem

/-- The systems of `enum class GnssSystem`. -/
inductive GnssSystem where
  | kBeiDou | kGalileo | kGps | kIrnss | kQzss | kGlonass | kSbas
  deriving DecidableEq, Repr

/-- A `ClockID`: the system and the `uint32_t` instance identifier. -/
structure ClockID where
  d_sys : eClockSystem
  d_id : Nat
  deriving DecidableEq, Repr

namespace ClockID

/-- `ClockID::kSystemClockID = std::numeric_limits<uint32_t>::max()`. -/
def kSystemClockID : Nat := 4294967295

/-- `ClockID::MakeGnss`. -/
def MakeGnss (sys : GnssSystem) (id : Nat) : ClockID :=
  let clk_sys :=
    match sys with
    | .kGalileo => eClockSystem.kGalileo
    | .kGps => eClockSystem.kGps
    | .kBeiDou => eClockSystem.kBeiDou
    | .kGlonass => eClockSystem.kGlonass
    | .kIrnss => eClockSystem.kIrnss
    | .kQzss => eClockSystem.kQzss
    | .kSbas => eClockSystem.kSbas
  ⟨clk_sys, id⟩

def MakeUTC (id : Nat) : ClockID := ⟨eClockSystem.kUTC, id⟩
def MakeUnix (id : Nat) : ClockID := ⟨eClockSystem.kUnix, id⟩
def MakeNTP (id : Nat) : ClockID := ⟨eClockSystem.kNTP, id⟩
def MakeTAI (id : Nat) : ClockID := ⟨eClockSystem.kTAI, id⟩
def MakeReceiver (id : Nat) : ClockID := ⟨eClockSystem.kReceiver, id⟩

/-- `ClockID::IsCompatibleWith`. -/
def IsCompatibleWith (c rhs : ClockID) : Bool := decide (c.d_sys = rhs.d_sys)

/-- `ClockID::IsGnss`. -/
def IsGnss (c : ClockID) : Bool :=
  decide (c.d_sys.toUInt32 > eClockSystem.kGnssStart) &&
    decide (c.d_sys.toUInt32 < eClockSystem.kGnssEnd)

/-- `ClockID::IsSystemClock`. -/
def IsSystemClock (c : ClockID) : Bool := decide (c.d_id = kSystemClockID)

/-- `ClockID::GetSystem`. -/
def GetSystem (c : ClockID) : eClockSystem := c.d_sys

/-- `ClockID::GetId`. -/
def GetId (c : ClockID) : Nat := c.d_id

/-- `ClockID::KeepsLeapSeconds`. -/
def KeepsLeapSeconds (c : ClockID) : Bool :=
  match c.d_sys with
  | .kReceiver | .kGps | .kGalileo | .kBeiDou | .kQzss | .kIrnss | .kSbas | .kTAI => false
  | .kGlonass | .kUTC | .kUnix | .kNTP => true

end ClockID

/-! ## `TimePoint` -/

/-- The two private members of `TimePointImpl`. -/
structure TimePoint where
  mTimeSinceEpoch : TimeInterval
  mClockID : ClockID
  deriving DecidableEq, Repr

namespace TimePoint

/-- `TimePoint(ClockID const &)`: the duration is `TimeInterval::Weeks(0)`. -/
def ofClock (clock_id : ClockID) : TimePoint :=
  ⟨TimeInterval.Weeks 0, clock_id⟩

def GetClockID (t : TimePoint) : ClockID := t.mClockID
def TimeSinceEpoch (t : TimePoint) : TimeInterval := t.mTimeSinceEpoch

/-- `TimePointImpl::Week`. -/
def Week (t : TimePoint) : Int := t.mTimeSinceEpoch.AsWeeks

/-- `TimePointImpl::TOW`. -/
def TOW (t : TimePoint) : TimeInterval :=
  t.mTimeSinceEpoch - TimeInterval.Weeks t.Week

/-- `operator-(TimePointImpl const &, TimePointImpl const &)`: throws the string
"Incompatible clock_idtems" when the clocks differ. -/
def sub (lhs rhs : TimePoint) : Except String TimeInterval :=
  if lhs.mClockID ≠ rhs.mClockID then Except.error "Incompatible clock_idtems"
  else Except.ok (lhs.mTimeSinceEpoch - rhs.mTimeSinceEpoch)

/-- `TimePoint::MakeGnss(GnssSystem, TimeInterval)`: the system clock of the constellation. -/
def MakeGnss (sys : GnssSystem) (time_interval : TimeInterval) : TimePoint :=
  ⟨time_interval, ClockID.MakeGnss sys ClockID.kSystemClockID⟩

/-- `TimePoint::MakeReceiver(TimeInterval, uint32_t)`. -/
def MakeReceiver (time_interval : TimeInterval) (r_id : Nat) : TimePoint :=
  ⟨time_interval, ClockID.MakeReceiver r_id⟩

/-- `operator+(TimePoint, TimeInterval)`. -/
def addInterval (lhs : TimePoint) (rhs : TimeInterval) : TimePoint :=
  { lhs with mTimeSinceEpoch := lhs.mTimeSinceEpoch + rhs }

/-- `operator-(TimePoint, TimeInterval)`. -/
def subInterval (lhs : TimePoint) (rhs : TimeInterval) : TimePoint :=
  { lhs with mTimeSinceEpoch := lhs.mTimeSinceEpoch - rhs }

/-- `operator<(TimePointImpl const &, TimePointImpl const &)`. -/
def lt (lhs rhs : TimePoint) : Bool :=
  decide (lhs.mClockID = rhs.mClockID) &&
    TimeIntervalImpl.lt lhs.mTimeSinceEpoch rhs.mTimeSinceEpoch

/-- `operator>` on instants. -/
def gt (lhs rhs : TimePoint) : Bool := lt rhs lhs

/-- `operator<=` on instants. -/
def le (lhs rhs : TimePoint) : Bool := !(gt lhs rhs)

/-- `operator>=` on instants. -/
def ge (lhs rhs : TimePoint) : Bool := !(gt rhs lhs)

instance : HAdd TimePoint TimeInterval TimePoint := ⟨addInterval⟩
instance : HSub TimePoint TimeInterval TimePoint := ⟨subInterval⟩

end TimePoint

/-! ## `TimeConverterImpl` -/

/-- `TimeConverterImpl::leap_second_entry_t`. -/
structure leap_second_entry_t where
  ntp_epoch : TimeInterval
  num_leap_seconds : Int
  deriving DecidableEq, Repr

/-- `TimeConverterImpl::epoch_offset_entry_t`. -/
structure epoch_offset_entry_t where
  sys : ClockID
  offset : TimeInterval
  deriving DecidableEq, Repr

/-- The two tables of `TimeConverterImpl`. -/
structure TimeConverterImpl where
  d_leap_second_table : List leap_second_entry_t
  d_epoch_offset_table : List epoch_offset_entry_t
  deriving DecidableEq, Repr

namespace TimeConverterImpl

/-- The `std::find_if` over `d_epoch_offset_table` with the predicate `v.sys == sys`. -/
def find_offset (c : TimeConverterImpl) (sys : ClockID) : Option epoch_offset_entry_t :=
  c.d_epoch_offset_table.find? (fun v => decide (v.sys = sys))

/-- The `std::find_if` over `d_leap_second_table` with the predicate
`v.ntp_epoch < seconds_since_ntp_epoch`. -/
def find_leap (c : TimeConverterImpl) (seconds_since_ntp_epoch : TimeInterval) :
    Option leap_second_entry_t :=
  c.d_leap_second_table.find? (fun v => TimeIntervalImpl.lt v.ntp_epoch seconds_since_ntp_epoch)

/-- `TimeConverterImpl::ConvertNoLeaps`. -/
def ConvertNoLeaps (c : TimeConverterImpl) (inp : TimePoint) (out_sys : ClockID) :
    Bool × TimePoint :=
  let ret : TimePoint := ⟨inp.TimeSinceEpoch, out_sys⟩
  let in_sys := inp.GetClockID
  if in_sys = out_sys then (true, inp)
  else
    match c.find_offset in_sys, c.find_offset out_sys with
    | some ip_offset, some op_offset =>
        let epoch_delta := ip_offset.offset - op_offset.offset
        (true, ret + epoch_delta)
    | _, _ => (false, ret)

/-- `TimeConverterImpl::Convert`. -/
def Convert (c : TimeConverterImpl) (inp : TimePoint) (out_sys : ClockID) :
    Bool × TimePoint :=
  let ret_pair := c.ConvertNoLeaps inp out_sys
  let in_sys := inp.GetClockID
  if ret_pair.1 = false ∨ in_sys.KeepsLeapSeconds = out_sys.KeepsLeapSeconds then ret_pair
  else
    let ntp_pair := c.ConvertNoLeaps inp (ClockID.MakeNTP ClockID.kSystemClockID)
    if ntp_pair.1 = false then (false, ret_pair.2)
    else
      let seconds_since_ntp_epoch := ntp_pair.2.TimeSinceEpoch
      match c.find_leap seconds_since_ntp_epoch with
      | none => ret_pair
      | some leap =>
          let leaps_at_epoch := TimeInterval.Seconds leap.num_leap_seconds
          if out_sys.KeepsLeapSeconds then (ret_pair.1, ret_pair.2 - leaps_at_epoch)
          else (ret_pair.1, ret_pair.2 + leaps_at_epoch)

/-- `TimeConverterImpl::AddLeapSecondsAt`: the returned flag and the converter afterwards. -/
def AddLeapSecondsAt (c : TimeConverterImpl) (leap_epoch : TimePoint) (num_leaps : Int) :
    Bool × TimeConverterImpl :=
  let ntp_pair := c.Convert leap_epoch (ClockID.MakeNTP ClockID.kSystemClockID)
  if ntp_pair.1 = false then (false, c)
  else
    let ntp_epoch := ntp_pair.2.TimeSinceEpoch
    match c.d_leap_second_table with
    | front :: _ =>
        if TimeIntervalImpl.le ntp_epoch front.ntp_epoch then (false, c)
        else (true, { c with d_leap_second_table := ⟨ntp_epoch, num_leaps⟩ :: c.d_leap_second_table })
    | [] => (true, { c with d_leap_second_table := [⟨ntp_epoch, num_leaps⟩] })

/-- The assignment `*epoch_offset_iter = offset_entry` at the first entry of the clock `sys`. -/
def assign_first (sys : ClockID) (offset_entry : epoch_offset_entry_t) :
    List epoch_offset_entry_t → List epoch_offset_entry_t
  | [] => []
  | v :: rest =>
      if v.sys = sys then offset_entry :: rest else v :: assign_first sys offset_entry rest

/-- `TimeConverterImpl::SetReceiverEpoch`: the converter afterwards. -/
def SetReceiverEpoch (c : TimeConverterImpl) (rx_id : Nat) (epoch : TimePoint) :
    TimeConverterImpl :=
  let rx_sys := ClockID.MakeReceiver rx_id
  let tai_epoch_pair := c.Convert epoch (ClockID.MakeTAI ClockID.kSystemClockID)
  if tai_epoch_pair.1 then
    let offset_entry : epoch_offset_entry_t := ⟨rx_sys, tai_epoch_pair.2.TimeSinceEpoch⟩
    match c.find_offset rx_sys with
    | none => { c with d_epoch_offset_table := c.d_epoch_offset_table ++ [offset_entry] }
    | some _ =>
        { c with d_epoch_offset_table := assign_first rx_sys offset_entry c.d_epoch_offset_table }
  else c

/-- The array `leap_epochs` of the constructor. -/
def leap_epochs : List Int :=
  [2272060800, 2287785600, 2303683200, 2335219200, 2366755200, 2398291200, 2429913600,
   2461449600, 2492985600, 2524521600, 2571782400, 2603318400, 2634854400, 2698012800,
   2776982400, 2840140800, 2871676800, 2918937600, 2950473600, 2982009600, 3029443200,
   3076704000, 3124137600, 3345062400, 3439756800, 3550089600, 3644697600, 3692217600]

def unix_epoch_offset : TimeInterval :=
  TimeInterval.Years 70 + TimeInterval.Days 17

def gps_epoch_offset : TimeInterval :=
  unix_epoch_offset + TimeInterval.Years 10 + TimeInterval.Days 2
    + TimeInterval.Days 5 + TimeInterval.Seconds 19

def gal_epoch_offset : TimeInterval :=
  gps_epoch_offset + TimeInterval.Weeks 1024

def beidou_epoch_offset : TimeInterval :=
  gps_epoch_offset + TimeInterval.Years 26
    + TimeInterval.Days 7 - TimeInterval.Days 5 + TimeInterval.Seconds 14

/-- The eight `push_back` calls of the constructor. -/
def initial_epoch_offset_table : List epoch_offset_entry_t :=
  [ ⟨ClockID.MakeGnss GnssSystem.kGps ClockID.kSystemClockID, gps_epoch_offset⟩,
    ⟨ClockID.MakeGnss GnssSystem.kGalileo ClockID.kSystemClockID, gal_epoch_offset⟩,
    ⟨ClockID.MakeGnss GnssSystem.kGlonass ClockID.kSystemClockID, gps_epoch_offset⟩,
    ⟨ClockID.MakeGnss GnssSystem.kBeiDou ClockID.kSystemClockID, beidou_epoch_offset⟩,
    ⟨ClockID.MakeUnix ClockID.kSystemClockID, unix_epoch_offset⟩,
    ⟨ClockID.MakeUTC ClockID.kSystemClockID, unix_epoch_offset⟩,
    ⟨ClockID.MakeNTP ClockID.kSystemClockID, TimeInterval.Seconds 0⟩,
    ⟨ClockID.MakeTAI ClockID.kSystemClockID, TimeInterval.Seconds 0⟩ ]

/-- The loop of the constructor over `leap_epochs`, with the running `num_leaps++`. -/
def add_leap_epochs (c : TimeConverterImpl) : List Int → Int → TimeConverterImpl
  | [], _ => c
  | e :: rest, num_leaps =>
      add_leap_epochs
        (c.AddLeapSecondsAt ⟨TimeInterval.Seconds e, ClockID.MakeNTP ClockID.kSystemClockID⟩
          num_leaps).2
        rest (num_leaps + 1)

/-- `TimeConverterImpl::TimeConverterImpl()`. -/
def new : TimeConverterImpl :=
  add_leap_epochs ⟨[], initial_epoch_offset_table⟩ leap_epochs 10

end TimeConverterImpl

/-- The converter states that the public interface can produce: the constructor, then any
sequence of `AddLeapSecondsAt` and `SetReceiverEpoch` calls (`Convert` does not modify the
converter) on instants whose stored duration is in the representation range. -/
inductive Reachable : TimeConverterImpl → Prop where
  | ctor : Reachable TimeConverterImpl.new
  | addLeap (c : TimeConverterImpl) (leap_epoch : TimePoint) (num_leaps : Int) :
      Reachable c → leap_epoch.mTimeSinceEpoch.Valid →
      Reachable (c.AddLeapSecondsAt leap_epoch num_leaps).2
  | setEpoch (c : TimeConverterImpl) (rx_id : Nat) (epoch : TimePoint) :
      Reachable c → epoch.mTimeSinceEpoch.Valid →
      Reachable (c.SetReceiverEpoch rx_id epoch)

/-- The shape of the epoch-offset table in every reachable converter: the eight entries of the
constructor followed by receiver entries. -/
def OffsetsInv (c : TimeConverterImpl) : Prop :=
  ∃ rx : List epoch_offset_entry_t,
    c.d_epoch_offset_table = TimeConverterImpl.initial_epoch_offset_table ++ rx ∧
    ∀ v ∈ rx, v.sys.d_sys = eClockSystem.kReceiver ∧ v.offset.Valid

/-- No two entries of the epoch-offset table are for the same clock. -/
def KeysNodup (c : TimeConverterImpl) : Prop :=
  (c.d_epoch_offset_table.map (fun v => v.sys)).Nodup

/-- The leap table is strictly descending for `operator<` of the durations. -/
def LeapsDescending (c : TimeConverterImpl) : Prop :=
  c.d_leap_second_table.Pairwise
    (fun a b => TimeIntervalImpl.lt b.ntp_epoch a.ntp_epoch = true)

/-! ## `Gnss_Synchro` and the block `rx_synch_observables_gs` -/

/-- Modelled from the spec: `gnss_synchro.h` is not among the sources.  The members are the
ones that `rx_synch_observables_gs.cc` reads and writes, typed as the spec types the fields of
a channel measurement; `R` stands for `double`. -/
structure Gnss_Synchro (R : Type) where
  System : Char
  Signal : List Char
  PRN : Nat
  Channel_ID : Int
  Flag_valid_acquisition : Bool
  fs : Int
  Carrier_Doppler_hz : R
  Carrier_phase_rads : R
  Code_phase_samples : R
  Tracking_sample_counter : Nat
  correlation_length_ms : Int
  Flag_valid_word : Bool
  TOW_at_current_symbol_ms : Nat
  Week_at_current_symbol : Int
  Pseudorange_m : R
  RX_time : R
  Flag_valid_pseudorange : Bool
  deriving DecidableEq, Repr

/-- The conversions to `double` that `general_work` applies outside the computation of an
observable: of an unsigned member and of a flag (for the dump), the division of a phase by
`GPS_TWO_PI` (a constant of `GPS_L1_CA.h`, not among the sources), and, for
`TimeInterval::Ticks`, the `double` quotient of a remainder by the rate, as its floor and its
scaled fraction. -/
structure DoubleOps (R : Type) where
  ofNat : Nat → R
  ofBool : Bool → R
  cycles : R → R
  tick_fraction : Int → Int → Int × Int

/-- The members of `rx_synch_observables_gs` that the work function and the message handler
use.  `d_dump_file` is the sequence of `double`s written to the dump so far, and `converter`
is the process-wide `TimePoint::GetConverter()`, carried with the state of the block. -/
structure rx_synch_observables_gs (R : Type) where
  d_dump : Bool
  d_dump_mat : Bool
  d_rx_id : Nat
  d_nchannels_in : Nat
  d_nchannels_out : Nat
  d_rate_hz : R
  d_ninput_items_required : List Int
  d_current_measurements : List (Gnss_Synchro R)
  d_rx_epoch_offset : TimeInterval
  d_receiver_time : TimePoint
  d_dump_file : List R
  converter : TimeConverterImpl

/-- What `general_work` hands back: the returned `n_outputs`, the first slot `out[i][0]` of
every output buffer, and the block afterwards. -/
structure work_result (R : Type) where
  n_outputs : Int
  output_items : List (Gnss_Synchro R)
  self : rx_synch_observables_gs R

namespace rx_synch_observables_gs

variable {R : Type}

/-- The local `empty_obs` of `empty_current_measurements`: a `Gnss_Synchro()` with the three
flags cleared and `PRN` and `fs` set to zero. -/
def empty_obs (default_obs : Gnss_Synchro R) : Gnss_Synchro R :=
  { default_obs with
    Flag_valid_pseudorange := false
    Flag_valid_word := false
    Flag_valid_acquisition := false
    PRN := 0
    fs := 0 }

/-- The loop of `empty_current_measurements`, with the running `int ch` (`ch++`). -/
def empty_loop (empty_obs : Gnss_Synchro R) : Int → List (Gnss_Synchro R) →
    List (Gnss_Synchro R)
  | _, [] => []
  | ch, _ :: rest =>
      { empty_obs with Channel_ID := ch } :: empty_loop empty_obs (wrap32 (ch + 1)) rest

/-- `rx_synch_observables_gs::empty_current_measurements`; `default_obs` is the value of
`Gnss_Synchro()`. -/
def empty_current_measurements (default_obs : Gnss_Synchro R)
    (self : rx_synch_observables_gs R) : rx_synch_observables_gs R :=
  { self with
    d_current_measurements :=
      empty_loop (empty_obs default_obs) 0 self.d_current_measurements }

/-- The index `d_nchannels_in - 1` of the epoch channel, in `uint32_t` arithmetic. -/
def epoch_channel (self : rx_synch_observables_gs R) : Nat :=
  (self.d_nchannels_in + 4294967295) % 4294967296

/-- The constructor of the block, for a given state of the process-wide converter: the
measurements are `nchannels_out` copies of `Gnss_Synchro()`, then emptied; `d_receiver_time`
is a default `TimePoint()`, the zero instant of the receiver clock 0. -/
def ctor (default_obs : Gnss_Synchro R) (converter : TimeConverterImpl)
    (nchannels_in nchannels_out : Nat) (dump dump_mat : Bool) (rate_hz : R) :
    rx_synch_observables_gs R :=
  empty_current_measurements default_obs
    { d_dump := dump
      d_dump_mat := dump_mat
      d_rx_id := 0
      d_nchannels_in := nchannels_in
      d_nchannels_out := nchannels_out
      d_rate_hz := rate_hz
      d_ninput_items_required :=
        (List.replicate nchannels_in 0).set ((nchannels_in + 4294967295) % 4294967296) 1
      d_current_measurements := List.replicate nchannels_out default_obs
      d_rx_epoch_offset := TimeInterval.Seconds 0
      d_receiver_time := TimePoint.ofClock (ClockID.MakeReceiver 0)
      d_dump_file := []
      converter := converter }

/-- The first loop of `general_work`: for each `i < d_nchannels_out` with at least one input
item, `d_current_measurements[i]` becomes the most recent item `in[i][ninput_items[i] - 1]`.
The items available on input `i` are the list `input_items[i]` (none when the list is
missing), so `ninput_items[i]` is its length. -/
def read_channels (input_items : List (List (Gnss_Synchro R))) (nchannels_out : Nat)
    (current : List (Gnss_Synchro R)) : List (Gnss_Synchro R) :=
  (List.range nchannels_out).foldl
    (fun cur i =>
      match (input_items.getD i []).getLast? with
      | none => cur
      | some m => cur.set i m)
    current

/-- The assignment `out[the_measurement.Channel_ID][0] = the_measurement`.  An index outside
the output buffers is undefined in the source; the buffers are then left as they are. -/
def write_output (out : List (Gnss_Synchro R)) (the_measurement : Gnss_Synchro R) :
    List (Gnss_Synchro R) :=
  if 0 ≤ the_measurement.Channel_ID then
    out.set the_measurement.Channel_ID.toNat the_measurement
  else out

/-- The loop of `general_work` over `d_current_measurements`.  A measurement with `PRN == 0`
is skipped by `continue`, nothing being written for it.  For the others the computation of
the observable (transmit and receive time, conversion, bootstrap of the receiver epoch,
pseudorange, propagation to the epoch), which works in `double`, is the parameter `observe`:
it is given `d_rx_id`, `d_rate_hz`, `d_receiver_time`, the converter and `d_rx_epoch_offset`,
it may update the last two, and the measurement it returns is stored and written to the
output buffer.  The result is the converter and offset, the output slots, and the
measurements after the loop. -/
def measurement_loop
    (observe : Nat → R → TimePoint → TimeConverterImpl × TimeInterval → Gnss_Synchro R →
      (TimeConverterImpl × TimeInterval) × Gnss_Synchro R)
    (d_rx_id : Nat) (d_rate_hz : R) (d_receiver_time : TimePoint) :
    List (Gnss_Synchro R) → TimeConverterImpl × TimeInterval → List (Gnss_Synchro R) →
      ((TimeConverterImpl × TimeInterval) × List (Gnss_Synchro R)) × List (Gnss_Synchro R)
  | [], st, out => ((st, out), [])
  | the_measurement :: rest, st, out =>
      if the_measurement.PRN = 0 then
        let r := measurement_loop observe d_rx_id d_rate_hz d_receiver_time rest st out
        (r.1, the_measurement :: r.2)
      else
        let o := observe d_rx_id d_rate_hz d_receiver_time st the_measurement
        let r := measurement_loop observe d_rx_id d_rate_hz d_receiver_time rest o.1
          (write_output out o.2)
        (r.1, o.2 :: r.2)

/-- The eight `double`s that the dump writes for one output slot. -/
def dump_record (ops : DoubleOps R) (o : Gnss_Synchro R) : List R :=
  [o.RX_time, ops.ofNat o.TOW_at_current_symbol_ms, o.Carrier_Doppler_hz,
   ops.cycles o.Carrier_phase_rads, o.Pseudorange_m, ops.ofNat o.PRN,
   ops.ofBool o.Flag_valid_pseudorange, ops.ofNat o.Tracking_sample_counter]

/-- The dump loop over `i < d_nchannels_out`, reading `out[i][0]`. -/
def dump_epoch (ops : DoubleOps R) (nchannels_out : Nat) (out : List (Gnss_Synchro R)) :
    List R :=
  (List.range nchannels_out).flatMap
    (fun i =>
      match out[i]? with
      | some o => dump_record ops o
      | none => [])

/-- `TimeInterval::Ticks(Tracking_sample_counter, fs)`: the counter converted to `int64_t`, the
rate passed as a `double` and cast back to `int64_t`. -/
def sample_time (ops : DoubleOps R) (m : Gnss_Synchro R) : TimeInterval :=
  let num_ticks := wrap64 m.Tracking_sample_counter
  let q := ops.tick_fraction (Int.tmod num_ticks m.fs) m.fs
  TimeInterval.Ticks num_ticks m.fs q.1 q.2

/-- `rx_synch_observables_gs::general_work`.  `input_items[i]` are the items available on
input `i` and `output_items[i]` is what the slot `out[i][0]` holds on entry.  The `consume`
calls and the log messages are left out, and the dump is taken to be written without an
exception. -/
def general_work (ops : DoubleOps R) (default_obs : Gnss_Synchro R)
    (observe : Nat → R → TimePoint → TimeConverterImpl × TimeInterval → Gnss_Synchro R →
      (TimeConverterImpl × TimeInterval) × Gnss_Synchro R)
    (self : rx_synch_observables_gs R) (input_items : List (List (Gnss_Synchro R)))
    (output_items : List (Gnss_Synchro R)) : work_result R :=
  let self1 : rx_synch_observables_gs R :=
    { self with
      d_current_measurements :=
        read_channels input_items self.d_nchannels_out self.d_current_measurements }
  match (input_items.getD self.epoch_channel []).head? with
  | none => ⟨0, output_items, self1⟩
  | some epoch_synchro =>
      let d_receiver_time :=
        TimePoint.MakeReceiver (sample_time ops epoch_synchro) self1.d_rx_id
      let r := measurement_loop observe self1.d_rx_id self1.d_rate_hz d_receiver_time
        self1.d_current_measurements (self1.converter, self1.d_rx_epoch_offset) output_items
      let self2 : rx_synch_observables_gs R :=
        empty_current_measurements default_obs
          { self1 with
            d_receiver_time := d_receiver_time
            converter := r.1.1.1
            d_rx_epoch_offset := r.1.1.2
            d_current_measurements := r.2 }
      let self3 : rx_synch_observables_gs R :=
        if self2.d_dump = true then
          { self2 with
            d_dump_file := self2.d_dump_file ++ dump_epoch ops self2.d_nchannels_out r.1.2 }
        else self2
      ⟨1, r.1.2, self3⟩

end rx_synch_observables_gs

/-! ## `GetFrequency` -/

/-- The `double` constants of `gnss_frequencies.h` (not among the sources) that `GetFrequency`
returns, with the `double` values and the one operation of its body: the literals `-1.0` and
`0.0`, and `add_scaled ret freq_num df` for `ret + freq_num*df`. -/
structure FrequencyConstants (R : Type) where
  FREQ1 : R
  FREQ2 : R
  FREQ5 : R
  FREQ6 : R
  FREQ7 : R
  FREQ8 : R
  FREQ9 : R
  FREQ1_GLO : R
  DFRQ1_GLO : R
  FREQ2_GLO : R
  DFRQ2_GLO : R
  FREQ3_GLO : R
  FREQ1_BDS : R
  FREQ2_BDS : R
  FREQ3_BDS : R
  minus_one : R
  zero : R
  add_scaled : R → Int → R → R

/-- `GetFrequency(char System, char Signal[3], int freq_num)`.  `Signal[0]` is the head of the
list `Signal` (the NUL character for an empty list). -/
def GetFrequency {R : Type} (K : FrequencyConstants R) (System : Char) (Signal : List Char)
    (freq_num : Int) : R :=
  let ret := K.minus_one
  let df := K.zero
  let s0 := Signal.headD (Char.ofNat 0)
  if System = 'R' then
    let p : R × R :=
      if s0 = '1' then (K.FREQ1_GLO, K.DFRQ1_GLO)
      else if s0 = '2' then (K.FREQ2_GLO, K.DFRQ2_GLO)
      else if s0 = '3' then (K.FREQ3_GLO, df)
      else (ret, df)
    K.add_scaled p.1 freq_num p.2
  else if System = 'C' then
    if s0 = '2' then K.FREQ1_BDS
    else if s0 = '7' then K.FREQ2_BDS
    else if s0 = '6' then K.FREQ3_BDS
    else ret
  else if System = 'G' then
    if s0 = '1' then K.FREQ1
    else if s0 = '2' then K.FREQ2
    else if s0 = '5' then K.FREQ5
    else ret
  else if System = 'E' then
    if s0 = '1' then K.FREQ1
    else if s0 = '5' then K.FREQ5
    else if s0 = '7' then K.FREQ7
    else if s0 = '8' then K.FREQ8
    else if s0 = '6' then K.FREQ6
    else ret
  else if System = 'S' then
    if s0 = '1' then K.FREQ1
    else if s0 = '5' then K.FREQ5
    else ret
  else if System = 'J' then
    if s0 = '1' then K.FREQ1
    else if s0 = '5' then K.FREQ5
    else if s0 = '2' then K.FREQ2
    else if s0 = '6' then K.FREQ6
    else ret
  else if System = 'I' then
    if s0 = '5' then K.FREQ5
    else if s0 = '9' then K.FREQ9
    else ret
  else ret

/-! ## The computation of an observable and the message handler -/

/-- The `double` arithmetic of the observable computation and of the message handler:
the four operations, the conversion `ofInt` of an `int64_t`, the literals `1.0` and `1e-3`
(`milli`), the two integers the constructor of a duration takes from a `double`
(`std::floor(x)` and `static_cast<int64_t>((x - std::floor(x)) * 1e15)`), the conversion
`trunc` of a `double` to the `int64_t` argument of `Ticks`, `round_samples x` for
`static_cast<uint64_t>(x + 0.5)`, and the constants `GPS_C_M_S`, `GPS_C_M_MS`, `GPS_TWO_PI` of
`GPS_L1_CA.h` (not among the sources). -/
structure ObservableOps (R : Type) where
  add : R → R → R
  sub : R → R → R
  mul : R → R → R
  div : R → R → R
  ofInt : Int → R
  one : R
  milli : R
  floor_seconds : R → Int
  scaled_fraction : R → Int
  trunc : R → Int
  round_samples : R → Nat
  GPS_C_M_S : R
  GPS_C_M_MS : R
  GPS_TWO_PI : R

/-- `TimeIntervalImpl::AsSeconds`. -/
def TimeIntervalImpl.AsSeconds {R : Type} (obs : ObservableOps R) (t : TimeIntervalImpl) : R :=
  obs.add (obs.ofInt t.mSeconds)
    (obs.div (obs.ofInt t.mFractionalSeconds) (obs.ofInt Constants.kOneSecondInternal))

/-- `TimeInterval::Seconds(double numSeconds)` at any `double`. -/
def TimeInterval.Seconds_double {R : Type} (obs : ObservableOps R) (numSeconds : R) :
    TimeInterval :=
  TimeIntervalImpl.ctor 0 0 (obs.floor_seconds numSeconds) (obs.scaled_fraction numSeconds)

/-- `TimeInterval::MilliSeconds(double numMS)` at any `double`. -/
def TimeInterval.MilliSeconds_double {R : Type} (obs : ObservableOps R) (numMS : R) :
    TimeInterval :=
  TimeIntervalImpl.ctor 0 0 (obs.floor_seconds (obs.mul numMS obs.milli))
    (obs.scaled_fraction (obs.mul numMS obs.milli))

/-- `TimeInterval::MilliSeconds(double numMS)` at `numMS = 70.0`: `70.0 * 1e-3` is the `double`
nearest to 0.07, its floor is 0 and its product with `1e15` is `70000000000000.0078125`, which
the cast truncates to `7 * 10^13`. -/
def TimeInterval.MilliSeconds_70 : TimeInterval :=
  TimeIntervalImpl.ctor 0 0 0 70000000000000

/-- `ClockID::MakeGnss(static_cast<GnssSystem>(System), id)`: a character that is none of the
seven enumerators matches no case of the switch and leaves `clk_sys` at `kReceiver`. -/
def ClockID.MakeGnss_cast (System : Char) (id : Nat) : ClockID :=
  if System = 'C' then ClockID.MakeGnss GnssSystem.kBeiDou id
  else if System = 'E' then ClockID.MakeGnss GnssSystem.kGalileo id
  else if System = 'G' then ClockID.MakeGnss GnssSystem.kGps id
  else if System = 'I' then ClockID.MakeGnss GnssSystem.kIrnss id
  else if System = 'J' then ClockID.MakeGnss GnssSystem.kQzss id
  else if System = 'R' then ClockID.MakeGnss GnssSystem.kGlonass id
  else if System = 'S' then ClockID.MakeGnss GnssSystem.kSbas id
  else ⟨eClockSystem.kReceiver, id⟩

namespace rx_synch_observables_gs

variable {R : Type}

/-- `TimeInterval::Ticks(Code_phase_samples, fs)`: the `double` code phase converted to the
`int64_t` argument `num_ticks`. -/
def code_phase_time (ops : DoubleOps R) (obs : ObservableOps R) (m : Gnss_Synchro R) :
    TimeInterval :=
  let num_ticks := obs.trunc m.Code_phase_samples
  let q := ops.tick_fraction (Int.tmod num_ticks m.fs) m.fs
  TimeInterval.Ticks num_ticks m.fs q.1 q.2

/-- The duration of `t_tx`: `Weeks(Week_at_current_symbol) +
MilliSeconds(TOW_at_current_symbol_ms) - Ticks(Code_phase_samples, fs)`. -/
def transmit_time (ops : DoubleOps R) (obs : ObservableOps R) (m : Gnss_Synchro R) :
    TimeInterval :=
  TimeInterval.Weeks m.Week_at_current_symbol
    + TimeInterval.MilliSeconds_double obs (ops.ofNat m.TOW_at_current_symbol_ms)
    - code_phase_time ops obs m

/-- The body of the loop of `general_work` for a measurement with `PRN != 0`, up to and
including "Compute the PR if possible": transmit and receive time, the conversion of the
receive time to the clock of the constellation, the bootstrap of the receiver epoch when the
conversion fails and the transmit time is valid, `RX_time` and the pseudorange.  The state is
the converter with `d_rx_epoch_offset`.  The two subtractions of instants are between instants
of one clock (`Convert` returns its result on the requested clock), so `operator-` does not
throw and they are written on the durations. -/
def measure (ops : DoubleOps R) (obs : ObservableOps R) (d_rx_id : Nat) (d_rate_hz : R)
    (st : TimeConverterImpl × TimeInterval) (the_measurement : Gnss_Synchro R) :
    (TimeConverterImpl × TimeInterval) × Gnss_Synchro R :=
  let gnss_clock_id := ClockID.MakeGnss_cast the_measurement.System ClockID.kSystemClockID
  let t_tx_valid := the_measurement.Flag_valid_word
  let t_tx : TimePoint :=
    if t_tx_valid = true then ⟨transmit_time ops obs the_measurement, gnss_clock_id⟩
    else TimePoint.ofClock (ClockID.MakeReceiver 0)
  let t_rx := TimePoint.MakeReceiver (sample_time ops the_measurement) d_rx_id
  let first := st.1.Convert t_rx gnss_clock_id
  let boot : (TimeConverterImpl × TimeInterval) × (Bool × TimePoint) :=
    if first.1 = false ∧ t_tx_valid = true then
      let t_rx_nominal := t_tx + TimeInterval.MilliSeconds_70
      let t_rx_epoch_nominal := t_rx_nominal - t_rx.TimeSinceEpoch
      let converter := st.1.SetReceiverEpoch t_rx.GetClockID.GetId t_rx_epoch_nominal
      let retry := converter.Convert t_rx gnss_clock_id
      if retry.1 = true then
        let update_interval := TimeInterval.Seconds_double obs (obs.div obs.one d_rate_hz)
        let dt1 := t_rx.TimeSinceEpoch.RemainderMod update_interval
        let dt2 := t_rx_nominal.TimeSinceEpoch.RemainderMod update_interval
        ((converter, dt2 - dt1), retry)
      else ((converter, st.2), retry)
    else (st, first)
  let t_rx_conv_pair := boot.2
  let t_rx_gnss := if t_rx_conv_pair.1 = true then t_rx_conv_pair.2 else t_rx
  let m1 : Gnss_Synchro R :=
    { the_measurement with RX_time := TimeIntervalImpl.AsSeconds obs t_rx_gnss.TOW }
  let m2 : Gnss_Synchro R :=
    if the_measurement.Flag_valid_word = true ∧ t_rx_conv_pair.1 = true then
      { m1 with
        Pseudorange_m :=
          obs.mul
            (TimeIntervalImpl.AsSeconds obs
              ((t_rx_gnss.mTimeSinceEpoch - t_tx.mTimeSinceEpoch).RemainderMod
                (TimeInterval.Weeks 1)))
            obs.GPS_C_M_S
        Flag_valid_pseudorange := true }
    else m1
  (boot.1, m2)

/-- The rest of the body, "Now propagate to the epoch"; `GetFrequency` is called with its
default `freq_num`, taken as 0.  Both instants of `d_receiver_time - (t_rx +
d_rx_epoch_offset)` are on the receiver clock `d_rx_id`. -/
def propagate (ops : DoubleOps R) (obs : ObservableOps R) (K : FrequencyConstants R)
    (d_rx_id : Nat) (d_receiver_time : TimePoint) (d_rx_epoch_offset : TimeInterval)
    (the_measurement : Gnss_Synchro R) : Gnss_Synchro R :=
  let t_rx := TimePoint.MakeReceiver (sample_time ops the_measurement) d_rx_id
  let dt := d_receiver_time.mTimeSinceEpoch - (t_rx + d_rx_epoch_offset).mTimeSinceEpoch
  let dt_secs := TimeIntervalImpl.AsSeconds obs dt
  let wavelength :=
    obs.div obs.GPS_C_M_MS (GetFrequency K the_measurement.System the_measurement.Signal 0)
  let dcp := obs.mul the_measurement.Carrier_Doppler_hz dt_secs
  { the_measurement with
    RX_time := obs.add the_measurement.RX_time dt_secs
    Carrier_phase_rads := obs.sub the_measurement.Carrier_phase_rads (obs.mul obs.GPS_TWO_PI dcp)
    Pseudorange_m := obs.sub the_measurement.Pseudorange_m (obs.mul dcp wavelength)
    Tracking_sample_counter :=
      (the_measurement.Tracking_sample_counter
        + obs.round_samples (obs.mul dt_secs (obs.ofInt the_measurement.fs)))
        % 18446744073709551616 }

/-- The whole body of the loop for a measurement with `PRN != 0`: the argument `observe` of
`measurement_loop` and `general_work`. -/
def compute_observable (ops : DoubleOps R) (obs : ObservableOps R) (K : FrequencyConstants R)
    (d_rx_id : Nat) (d_rate_hz : R) (d_receiver_time : TimePoint)
    (st : TimeConverterImpl × TimeInterval) (the_measurement : Gnss_Synchro R) :
    (TimeConverterImpl × TimeInterval) × Gnss_Synchro R :=
  let r := measure ops obs d_rx_id d_rate_hz st the_measurement
  (r.1, propagate ops obs K d_rx_id d_receiver_time r.1.2 r.2)

/-- `rx_synch_observables_gs::msg_handler_pvt_to_observables` for a message that holds the
`double` `clock_correction`. -/
def msg_handler_pvt_to_observables (obs : ObservableOps R) (self : rx_synch_observables_gs R)
    (clock_correction : R) : rx_synch_observables_gs R :=
  let conv_pair := self.converter.Convert
    (TimePoint.MakeReceiver (TimeInterval.Seconds 0) self.d_rx_id)
    (ClockID.MakeGnss GnssSystem.kGps ClockID.kSystemClockID)
  let converter :=
    if conv_pair.1 = true then
      let newEpoch := conv_pair.2 + TimeInterval.Seconds_double obs clock_correction
      self.converter.SetReceiverEpoch self.d_rx_id newEpoch
    else self.converter
  let d_rx_epoch_offset := self.d_rx_epoch_offset + TimeInterval.Seconds_double obs clock_correction
  { self with
    converter := converter
    d_rx_epoch_offset :=
      d_rx_epoch_offset.RemainderMod
        (TimeInterval.Seconds_double obs (obs.div obs.one self.d_rate_hz)) }

/-- The reading loop of `save_matfile`: with `number_of_double_vars = 7` and
`epoch_size_bytes = sizeof(double) * 7 * d_nchannels_out` (an `int32_t`), `num_epoch` is the
size of the dump in bytes divided by `epoch_size_bytes`, and for each epoch and each channel
seven consecutive `double`s are read.  The result lists what is read, epoch by epoch and
channel by channel. -/
def save_matfile_read (nchannels_out : Nat) (dump_file : List R) : List (List R) :=
  let number_of_double_vars : Nat := 7
  let epoch_size_bytes := wrap32 (8 * number_of_double_vars * nchannels_out)
  let num_epoch := Int.tdiv (8 * dump_file.length) epoch_size_bytes
  (List.range (num_epoch.toNat * nchannels_out)).map
    (fun k => (dump_file.drop (number_of_double_vars * k)).take number_of_double_vars)

end rx_synch_observables_gs

/-! ## Arithmetic of the 64-bit model -/

theorem wrap64_of_in {x : Int} (h : InInt64 x) : wrap64 x = x := by
  unfold InInt64 at h; unfold wrap64; omega

theorem wrap64_in (x : Int) : InInt64 (wrap64 x) := by
  unfold InInt64 wrap64; omega

theorem tdiv_second (f : Int) :
    Int.tdiv f 1000000000000000 =
      if 0 ≤ f then f / 1000000000000000 else -((-f) / 1000000000000000) := by
  split
  · exact Int.tdiv_eq_ediv (by assumption) (by norm_num)
  · have h2 : f = -(-f) := by omega
    rw [h2, Int.neg_tdiv, Int.tdiv_eq_ediv (by omega) (by norm_num)]
    simp

theorem kOneSecondInternal_eq : Constants.kOneSecondInternal = 1000000000000000 := by decide

theorem kSecondsPerWeek_eq : Constants.kSecondsPerWeek = 604800 := by decide

namespace TimeIntervalImpl

theorem Normalise_eq (s f : Int) :
    Normalise ⟨s, f⟩ =
      ⟨wrap64 (s + Int.tdiv f 1000000000000000),
        wrap64 (f - wrap64 (Int.tdiv f 1000000000000000 * 1000000000000000))⟩ := by
  simp [Normalise, kOneSecondInternal_eq]

/-- A sub-second member already in range is left alone by `Normalise`. -/
theorem Normalise_small (s f : Int) (h1 : -1000000000000000 < f) (h2 : f < 1000000000000000) :
    Normalise ⟨s, f⟩ = ⟨wrap64 s, f⟩ := by
  rw [Normalise_eq, tdiv_second]
  split
  · have : f / 1000000000000000 = 0 := by omega
    rw [this]; simp [wrap64]; omega
  · have : (-f) / 1000000000000000 = 0 := by omega
    rw [this]; simp [wrap64]; omega

/-- Every output of `Normalise` is in the representation range. -/
theorem Normalise_valid (s f : Int) : (Normalise ⟨s, f⟩).Valid := by
  rw [Normalise_eq, tdiv_second]
  unfold Valid InInt64 at *
  simp only [kOneSecondInternal_eq]
  split <;> (unfold wrap64; omega)

theorem add_def (a b : TimeIntervalImpl) :
    a + b = Normalise ⟨wrap64 (a.mSeconds + b.mSeconds),
      wrap64 (a.mFractionalSeconds + b.mFractionalSeconds)⟩ := rfl

theorem sub_def (a b : TimeIntervalImpl) :
    a - b = Normalise ⟨wrap64 (a.mSeconds - b.mSeconds),
      wrap64 (a.mFractionalSeconds - b.mFractionalSeconds)⟩ := rfl

theorem add_valid (a b : TimeIntervalImpl) : (a + b).Valid := by
  rw [add_def]; exact Normalise_valid _ _

theorem sub_valid (a b : TimeIntervalImpl) : (a - b).Valid := by
  rw [sub_def]; exact Normalise_valid _ _

/-- Adding a whole number of seconds to a duration in range. -/
theorem add_whole (a : TimeIntervalImpl) (o : Int) (ha : a.Valid) :
    a + (⟨o, 0⟩ : TimeIntervalImpl) = ⟨wrap64 (a.mSeconds + o), a.mFractionalSeconds⟩ := by
  obtain ⟨_, h1, h2⟩ := ha
  rw [kOneSecondInternal_eq] at h1 h2
  rw [add_def]
  have hw : wrap64 (a.mFractionalSeconds + 0) = a.mFractionalSeconds := by
    unfold wrap64; omega
  simp only [hw]
  rw [Normalise_small _ _ h1 h2]
  congr 1
  unfold wrap64; omega

/-- Subtracting a whole number of seconds from a duration in range. -/
theorem sub_whole (a : TimeIntervalImpl) (o : Int) (ha : a.Valid) :
    a - (⟨o, 0⟩ : TimeIntervalImpl) = ⟨wrap64 (a.mSeconds - o), a.mFractionalSeconds⟩ := by
  obtain ⟨_, h1, h2⟩ := ha
  rw [kOneSecondInternal_eq] at h1 h2
  rw [sub_def]
  have hw : wrap64 (a.mFractionalSeconds - 0) = a.mFractionalSeconds := by
    unfold wrap64; omega
  simp only [hw]
  rw [Normalise_small _ _ h1 h2]
  congr 1
  unfold wrap64; omega

theorem sub_zero_valid (a : TimeIntervalImpl) (ha : a.Valid) :
    a - (⟨0, 0⟩ : TimeIntervalImpl) = a := by
  rw [sub_whole a 0 ha]
  obtain ⟨h0, _, _⟩ := ha
  cases a
  simp only [Int.sub_zero] at *
  rw [wrap64_of_in h0]

theorem add_zero_valid (a : TimeIntervalImpl) (ha : a.Valid) :
    a + (⟨0, 0⟩ : TimeIntervalImpl) = a := by
  rw [add_whole a 0 ha]
  obtain ⟨h0, _, _⟩ := ha
  cases a
  simp only [Int.add_zero] at *
  rw [wrap64_of_in h0]

theorem lt_iff (a b : TimeIntervalImpl) :
    lt a b = true ↔
      a.mSeconds < b.mSeconds ∨
        (a.mSeconds = b.mSeconds ∧ a.mFractionalSeconds < b.mFractionalSeconds) := by
  unfold lt
  split
  · simp [*]
  · split
    · simp; omega
    · simp; omega

theorem lt_trans {a b c : TimeIntervalImpl} (h1 : lt a b = true) (h2 : lt b c = true) :
    lt a c = true := by
  rw [lt_iff] at *
  omega

theorem le_eq_false_iff (a b : TimeIntervalImpl) : le a b = false ↔ lt b a = true := by
  simp [le, gt]

end TimeIntervalImpl

theorem Seconds_eq (n : Int) : TimeInterval.Seconds n = ⟨wrap64 n, 0⟩ := by
  simp only [TimeInterval.Seconds, TimeIntervalImpl.ctor]
  rw [TimeIntervalImpl.Normalise_small _ _ (by norm_num) (by norm_num)]
  congr 1
  unfold wrap64; omega

theorem Weeks_zero_eq : TimeInterval.Weeks 0 = ⟨0, 0⟩ := by decide

/-! ## The epoch-offset table -/

namespace TimeConverterImpl

theorem initial_table_eq :
    initial_epoch_offset_table =
      [ ⟨⟨eClockSystem.kGps, 4294967295⟩, ⟨2524953619, 0⟩⟩,
        ⟨⟨eClockSystem.kGalileo, 4294967295⟩, ⟨3144268819, 0⟩⟩,
        ⟨⟨eClockSystem.kGlonass, 4294967295⟩, ⟨2524953619, 0⟩⟩,
        ⟨⟨eClockSystem.kBeiDou, 4294967295⟩, ⟨3345062433, 0⟩⟩,
        ⟨⟨eClockSystem.kUnix, 4294967295⟩, ⟨2208988800, 0⟩⟩,
        ⟨⟨eClockSystem.kUTC, 4294967295⟩, ⟨2208988800, 0⟩⟩,
        ⟨⟨eClockSystem.kNTP, 4294967295⟩, ⟨0, 0⟩⟩,
        ⟨⟨eClockSystem.kTAI, 4294967295⟩, ⟨0, 0⟩⟩ ] := by
  decide

/-- Every entry written by the constructor is a non-receiver clock with a whole-second,
non-negative offset below `2^32`. -/
theorem initial_entry_spec {v : epoch_offset_entry_t} (h : v ∈ initial_epoch_offset_table) :
    v.sys.d_sys ≠ eClockSystem.kReceiver ∧ v.offset.mFractionalSeconds = 0 ∧
      0 ≤ v.offset.mSeconds ∧ v.offset.mSeconds < 4294967296 := by
  rw [initial_table_eq] at h
  simp only [List.mem_cons, List.mem_singleton, List.not_mem_nil, or_false] at h
  rcases h with h | h | h | h | h | h | h | h <;> subst h <;> decide

theorem initial_entry_valid {v : epoch_offset_entry_t} (h : v ∈ initial_epoch_offset_table) :
    v.offset.Valid := by
  obtain ⟨_, h1, h2, h3⟩ := initial_entry_spec h
  unfold TimeIntervalImpl.Valid InInt64
  rw [kOneSecondInternal_eq, h1]
  omega

theorem find_initial_receiver (clk : ClockID) (h : clk.d_sys = eClockSystem.kReceiver) :
    initial_epoch_offset_table.find? (fun v => decide (v.sys = clk)) = none := by
  rw [List.find?_eq_none]
  intro v hv
  have := (initial_entry_spec hv).1
  simp only [decide_eq_true_eq]
  intro hs
  rw [hs] at this
  exact this h

theorem find_rx_other (rx : List epoch_offset_entry_t) (clk : ClockID)
    (hrx : ∀ v ∈ rx, v.sys.d_sys = eClockSystem.kReceiver ∧ v.offset.Valid)
    (h : clk.d_sys ≠ eClockSystem.kReceiver) :
    rx.find? (fun v => decide (v.sys = clk)) = none := by
  rw [List.find?_eq_none]
  intro v hv
  simp only [decide_eq_true_eq]
  intro hs
  rw [← hs] at h
  exact h (hrx v hv).1

/-- A clock that is not a receiver clock is looked up in the constructor's entries alone. -/
theorem find_offset_other (c : TimeConverterImpl) (hc : OffsetsInv c) (clk : ClockID)
    (h : clk.d_sys ≠ eClockSystem.kReceiver) :
    c.find_offset clk = initial_epoch_offset_table.find? (fun v => decide (v.sys = clk)) := by
  obtain ⟨rx, htab, hrx⟩ := hc
  unfold find_offset
  rw [htab, List.find?_append, find_rx_other rx clk hrx h]
  simp

theorem find_offset_spec (c : TimeConverterImpl) (clk : ClockID) (v : epoch_offset_entry_t)
    (h : c.find_offset clk = some v) : v.sys = clk ∧ v ∈ c.d_epoch_offset_table := by
  unfold find_offset at h
  have h1 := List.find?_some h
  have h2 := List.mem_of_find?_eq_some h
  simp only [decide_eq_true_eq] at h1
  exact ⟨h1, h2⟩

/-- Every stored offset is in the representation range. -/
theorem find_offset_valid (c : TimeConverterImpl) (hc : OffsetsInv c) (clk : ClockID)
    (v : epoch_offset_entry_t) (h : c.find_offset clk = some v) : v.offset.Valid := by
  obtain ⟨rx, htab, hrx⟩ := hc
  have hm := (find_offset_spec c clk v h).2
  rw [htab, List.mem_append] at hm
  rcases hm with hm | hm
  · exact initial_entry_valid hm
  · exact (hrx v hm).2

/-- The offset of a non-receiver clock is a whole number of seconds in `[0, 2^32)`. -/
theorem find_offset_whole (c : TimeConverterImpl) (hc : OffsetsInv c) (clk : ClockID)
    (hclk : clk.d_sys ≠ eClockSystem.kReceiver) (v : epoch_offset_entry_t)
    (h : c.find_offset clk = some v) :
    v.offset.mFractionalSeconds = 0 ∧ 0 ≤ v.offset.mSeconds ∧ v.offset.mSeconds < 4294967296 := by
  rw [find_offset_other c hc clk hclk] at h
  exact (initial_entry_spec (List.mem_of_find?_eq_some h)).2

theorem find_offset_ntp (c : TimeConverterImpl) (hc : OffsetsInv c) :
    c.find_offset (ClockID.MakeNTP ClockID.kSystemClockID) =
      some ⟨ClockID.MakeNTP ClockID.kSystemClockID, ⟨0, 0⟩⟩ := by
  rw [find_offset_other c hc _ (by decide)]
  decide

theorem find_offset_tai (c : TimeConverterImpl) (hc : OffsetsInv c) :
    c.find_offset (ClockID.MakeTAI ClockID.kSystemClockID) =
      some ⟨ClockID.MakeTAI ClockID.kSystemClockID, ⟨0, 0⟩⟩ := by
  rw [find_offset_other c hc _ (by decide)]
  decide

theorem find_offset_gps (c : TimeConverterImpl) (hc : OffsetsInv c) :
    c.find_offset (ClockID.MakeGnss GnssSystem.kGps ClockID.kSystemClockID) =
      some ⟨ClockID.MakeGnss GnssSystem.kGps ClockID.kSystemClockID, ⟨2524953619, 0⟩⟩ := by
  rw [find_offset_other c hc _ (by decide)]
  decide

theorem find_offset_galileo (c : TimeConverterImpl) (hc : OffsetsInv c) :
    c.find_offset (ClockID.MakeGnss GnssSystem.kGalileo ClockID.kSystemClockID) =
      some ⟨ClockID.MakeGnss GnssSystem.kGalileo ClockID.kSystemClockID, ⟨3144268819, 0⟩⟩ := by
  rw [find_offset_other c hc _ (by decide)]
  decide

/-! ## `ConvertNoLeaps` and `Convert`, case by case -/

theorem ConvertNoLeaps_same (c : TimeConverterImpl) (inp : TimePoint) :
    c.ConvertNoLeaps inp inp.mClockID = (true, inp) := by
  simp [ConvertNoLeaps, TimePoint.GetClockID]

theorem ConvertNoLeaps_found (c : TimeConverterImpl) (inp : TimePoint) (out_sys : ClockID)
    (a b : epoch_offset_entry_t) (hne : inp.mClockID ≠ out_sys)
    (hi : c.find_offset inp.mClockID = some a) (ho : c.find_offset out_sys = some b) :
    c.ConvertNoLeaps inp out_sys =
      (true, ⟨inp.mTimeSinceEpoch + (a.offset - b.offset), out_sys⟩) := by
  simp only [ConvertNoLeaps, TimePoint.GetClockID, TimePoint.TimeSinceEpoch, if_neg hne, hi, ho]
  rfl

theorem ConvertNoLeaps_missing (c : TimeConverterImpl) (inp : TimePoint) (out_sys : ClockID)
    (hne : inp.mClockID ≠ out_sys)
    (h : c.find_offset inp.mClockID = none ∨ c.find_offset out_sys = none) :
    c.ConvertNoLeaps inp out_sys = (false, ⟨inp.mTimeSinceEpoch, out_sys⟩) := by
  simp only [ConvertNoLeaps, TimePoint.GetClockID, TimePoint.TimeSinceEpoch, if_neg hne]
  rcases h with h | h
  · rw [h]
  · rw [h]
    cases c.find_offset inp.mClockID <;> rfl

theorem ConvertNoLeaps_clock (c : TimeConverterImpl) (inp : TimePoint) (out_sys : ClockID) :
    (c.ConvertNoLeaps inp out_sys).2.mClockID = out_sys := by
  by_cases hne : inp.mClockID = out_sys
  · subst hne; rw [ConvertNoLeaps_same]
  · cases hi : c.find_offset inp.mClockID with
    | none => rw [ConvertNoLeaps_missing c inp out_sys hne (Or.inl hi)]
    | some a =>
      cases ho : c.find_offset out_sys with
      | none => rw [ConvertNoLeaps_missing c inp out_sys hne (Or.inr ho)]
      | some b => rw [ConvertNoLeaps_found c inp out_sys a b hne hi ho]

theorem ConvertNoLeaps_ok_iff (c : TimeConverterImpl) (inp : TimePoint) (out_sys : ClockID) :
    (c.ConvertNoLeaps inp out_sys).1 = true ↔
      inp.mClockID = out_sys ∨
        ((c.find_offset inp.mClockID).isSome = true ∧ (c.find_offset out_sys).isSome = true) := by
  by_cases hne : inp.mClockID = out_sys
  · subst hne; rw [ConvertNoLeaps_same]; simp
  · cases hi : c.find_offset inp.mClockID with
    | none => rw [ConvertNoLeaps_missing c inp out_sys hne (Or.inl hi)]; simp [hne]
    | some a =>
      cases ho : c.find_offset out_sys with
      | none => rw [ConvertNoLeaps_missing c inp out_sys hne (Or.inr ho)]; simp [hne]
      | some b => rw [ConvertNoLeaps_found c inp out_sys a b hne hi ho]; simp

theorem Convert_of_keep_eq (c : TimeConverterImpl) (inp : TimePoint) (out_sys : ClockID)
    (h : inp.mClockID.KeepsLeapSeconds = out_sys.KeepsLeapSeconds) :
    c.Convert inp out_sys = c.ConvertNoLeaps inp out_sys := by
  simp [Convert, TimePoint.GetClockID, h]

theorem Convert_of_fail (c : TimeConverterImpl) (inp : TimePoint) (out_sys : ClockID)
    (h : (c.ConvertNoLeaps inp out_sys).1 = false) :
    c.Convert inp out_sys = c.ConvertNoLeaps inp out_sys := by
  simp [Convert, h]

theorem Convert_same (c : TimeConverterImpl) (inp : TimePoint) :
    c.Convert inp inp.mClockID = (true, inp) := by
  rw [Convert_of_keep_eq c inp inp.mClockID rfl, ConvertNoLeaps_same]

/-- The leap-adjusting branch of `Convert`, in a converter whose offset table has the shape
of a reachable one: the NTP projection of the input is `in + offset(in)`. -/
theorem Convert_leap (c : TimeConverterImpl) (hc : OffsetsInv c) (inp : TimePoint)
    (out_sys : ClockID) (a b : epoch_offset_entry_t) (hv : inp.mTimeSinceEpoch.Valid)
    (hi : c.find_offset inp.mClockID = some a) (ho : c.find_offset out_sys = some b)
    (hk : inp.mClockID.KeepsLeapSeconds ≠ out_sys.KeepsLeapSeconds) :
    c.Convert inp out_sys =
      (true,
        ⟨match c.find_leap (inp.mTimeSinceEpoch + a.offset) with
          | none => inp.mTimeSinceEpoch + (a.offset - b.offset)
          | some leap =>
              if out_sys.KeepsLeapSeconds then
                inp.mTimeSinceEpoch + (a.offset - b.offset)
                  - TimeInterval.Seconds leap.num_leap_seconds
              else
                inp.mTimeSinceEpoch + (a.offset - b.offset)
                  + TimeInterval.Seconds leap.num_leap_seconds,
          out_sys⟩) := by
  have hne : inp.mClockID ≠ out_sys := by
    intro h; rw [h] at hk; exact hk rfl
  have hq : (c.ConvertNoLeaps inp (ClockID.MakeNTP ClockID.kSystemClockID)) =
      (true, ⟨inp.mTimeSinceEpoch + a.offset, ClockID.MakeNTP ClockID.kSystemClockID⟩) := by
    by_cases hn : inp.mClockID = ClockID.MakeNTP ClockID.kSystemClockID
    · have ha : a = ⟨ClockID.MakeNTP ClockID.kSystemClockID, ⟨0, 0⟩⟩ := by
        rw [hn, find_offset_ntp c hc] at hi
        exact (Option.some.inj hi).symm
      rw [← hn, ConvertNoLeaps_same, ha]
      simp only
      rw [TimeIntervalImpl.add_zero_valid _ hv]
    · rw [ConvertNoLeaps_found c inp _ a _ hn hi (find_offset_ntp c hc)]
      simp only
      rw [TimeIntervalImpl.sub_zero_valid _ (find_offset_valid c hc _ a hi)]
  simp only [Convert, TimePoint.GetClockID, TimePoint.TimeSinceEpoch, hq,
    ConvertNoLeaps_found c inp out_sys a b hne hi ho]
  simp only [Bool.true_eq_false, false_or, if_neg hk, if_false]
  cases c.find_leap (inp.mTimeSinceEpoch + a.offset) with
  | none => rfl
  | some leap =>
    simp only
    cases out_sys.KeepsLeapSeconds <;> rfl

theorem Convert_clock (c : TimeConverterImpl) (inp : TimePoint) (out_sys : ClockID) :
    (c.Convert inp out_sys).2.mClockID = out_sys := by
  have h0 := ConvertNoLeaps_clock c inp out_sys
  unfold Convert
  simp only []
  split
  · exact h0
  · split
    · exact h0
    · split
      · exact h0
      · split <;> exact h0

/-- In a converter that has an entry for the NTP system clock, `Convert` succeeds exactly when
`ConvertNoLeaps` does: the NTP projection needed for the leap count cannot fail. -/
theorem Convert_ok_iff_of_ntp (c : TimeConverterImpl)
    (hntp0 : (c.find_offset (ClockID.MakeNTP ClockID.kSystemClockID)).isSome = true)
    (inp : TimePoint) (out_sys : ClockID) :
    (c.Convert inp out_sys).1 = true ↔
      inp.mClockID = out_sys ∨
        ((c.find_offset inp.mClockID).isSome = true ∧ (c.find_offset out_sys).isSome = true) := by
  rw [← ConvertNoLeaps_ok_iff]
  by_cases hk : inp.mClockID.KeepsLeapSeconds = out_sys.KeepsLeapSeconds
  · rw [Convert_of_keep_eq c inp out_sys hk]
  · cases hf : (c.ConvertNoLeaps inp out_sys).1 with
    | false => rw [Convert_of_fail c inp out_sys hf, hf]
    | true =>
      have hne : inp.mClockID ≠ out_sys := by
        intro h; rw [h] at hk; exact hk rfl
      have h1 := (ConvertNoLeaps_ok_iff c inp out_sys).1 hf
      rcases h1 with h1 | ⟨h1, _⟩
      · exact absurd h1 hne
      · have hntp : (c.ConvertNoLeaps inp (ClockID.MakeNTP ClockID.kSystemClockID)).1 = true := by
          rw [ConvertNoLeaps_ok_iff]
          right
          exact ⟨h1, hntp0⟩
        simp only [Convert, TimePoint.GetClockID, hf, hntp, Bool.true_eq_false, false_or,
          if_neg hk, if_false]
        split
        · simp [hf]
        · split <;> simp

theorem Convert_ok_iff (c : TimeConverterImpl) (hc : OffsetsInv c) (inp : TimePoint)
    (out_sys : ClockID) :
    (c.Convert inp out_sys).1 = true ↔
      inp.mClockID = out_sys ∨
        ((c.find_offset inp.mClockID).isSome = true ∧ (c.find_offset out_sys).isSome = true) :=
  Convert_ok_iff_of_ntp c (by rw [find_offset_ntp c hc]; rfl) inp out_sys

/-- The duration returned by `Convert` is in the representation range when the input is. -/
theorem Convert_valid (c : TimeConverterImpl) (inp : TimePoint) (out_sys : ClockID)
    (hv : inp.mTimeSinceEpoch.Valid) : (c.Convert inp out_sys).2.mTimeSinceEpoch.Valid := by
  have h0 : (c.ConvertNoLeaps inp out_sys).2.mTimeSinceEpoch.Valid := by
    by_cases hne : inp.mClockID = out_sys
    · subst hne; rw [ConvertNoLeaps_same]; exact hv
    · cases hi : c.find_offset inp.mClockID with
      | none => rw [ConvertNoLeaps_missing c inp out_sys hne (Or.inl hi)]; exact hv
      | some a =>
        cases ho : c.find_offset out_sys with
        | none => rw [ConvertNoLeaps_missing c inp out_sys hne (Or.inr ho)]; exact hv
        | some b =>
          rw [ConvertNoLeaps_found c inp out_sys a b hne hi ho]
          exact TimeIntervalImpl.add_valid _ _
  unfold Convert
  simp only []
  split
  · exact h0
  · split
    · exact h0
    · split
      · exact h0
      · split
        · exact TimeIntervalImpl.sub_valid _ _
        · exact TimeIntervalImpl.add_valid _ _

/-! ## `AddLeapSecondsAt` -/

theorem AddLeapSecondsAt_offsets (c : TimeConverterImpl) (leap_epoch : TimePoint)
    (num_leaps : Int) :
    (c.AddLeapSecondsAt leap_epoch num_leaps).2.d_epoch_offset_table
      = c.d_epoch_offset_table := by
  unfold AddLeapSecondsAt
  simp only []
  split
  · rfl
  · split
    · split <;> rfl
    · rfl

theorem AddLeapSecondsAt_noconv (c : TimeConverterImpl) (leap_epoch : TimePoint)
    (num_leaps : Int)
    (h : (c.Convert leap_epoch (ClockID.MakeNTP ClockID.kSystemClockID)).1 = false) :
    c.AddLeapSecondsAt leap_epoch num_leaps = (false, c) := by
  simp [AddLeapSecondsAt, h]

theorem AddLeapSecondsAt_empty (c : TimeConverterImpl) (leap_epoch : TimePoint)
    (num_leaps : Int)
    (h : (c.Convert leap_epoch (ClockID.MakeNTP ClockID.kSystemClockID)).1 = true)
    (he : c.d_leap_second_table = []) :
    c.AddLeapSecondsAt leap_epoch num_leaps =
      (true, { c with d_leap_second_table :=
        [⟨(c.Convert leap_epoch (ClockID.MakeNTP ClockID.kSystemClockID)).2.mTimeSinceEpoch,
          num_leaps⟩] }) := by
  simp [AddLeapSecondsAt, h, he, TimePoint.TimeSinceEpoch]

theorem AddLeapSecondsAt_cons (c : TimeConverterImpl) (leap_epoch : TimePoint)
    (num_leaps : Int) (front : leap_second_entry_t) (rest : List leap_second_entry_t)
    (h : (c.Convert leap_epoch (ClockID.MakeNTP ClockID.kSystemClockID)).1 = true)
    (he : c.d_leap_second_table = front :: rest) :
    c.AddLeapSecondsAt leap_epoch num_leaps =
      if TimeIntervalImpl.lt front.ntp_epoch
          (c.Convert leap_epoch (ClockID.MakeNTP ClockID.kSystemClockID)).2.mTimeSinceEpoch
      then
        (true, { c with d_leap_second_table :=
          ⟨(c.Convert leap_epoch (ClockID.MakeNTP ClockID.kSystemClockID)).2.mTimeSinceEpoch,
            num_leaps⟩ :: front :: rest })
      else (false, c) := by
  simp only [AddLeapSecondsAt, h, he, TimePoint.TimeSinceEpoch, TimeIntervalImpl.le,
    TimeIntervalImpl.gt]
  cases TimeIntervalImpl.lt front.ntp_epoch
    (c.Convert leap_epoch (ClockID.MakeNTP ClockID.kSystemClockID)).2.mTimeSinceEpoch <;> simp

theorem AddLeapSecondsAt_descending (c : TimeConverterImpl) (leap_epoch : TimePoint)
    (num_leaps : Int) (hc : LeapsDescending c) :
    LeapsDescending (c.AddLeapSecondsAt leap_epoch num_leaps).2 := by
  cases hok : (c.Convert leap_epoch (ClockID.MakeNTP ClockID.kSystemClockID)).1 with
  | false => rw [AddLeapSecondsAt_noconv c _ _ hok]; exact hc
  | true =>
    cases he : c.d_leap_second_table with
    | nil =>
      rw [AddLeapSecondsAt_empty c _ _ hok he]
      simp [LeapsDescending]
    | cons front rest =>
      rw [AddLeapSecondsAt_cons c _ _ front rest hok he]
      split
      · rename_i hlt
        unfold LeapsDescending at hc ⊢
        rw [he] at hc
        simp only
        rw [List.pairwise_cons]
        refine ⟨?_, hc⟩
        intro v hv
        rw [List.mem_cons] at hv
        rcases hv with hv | hv
        · rw [hv]; exact hlt
        · exact TimeIntervalImpl.lt_trans ((List.pairwise_cons.1 hc).1 v hv) hlt
      · exact hc

theorem assign_first_append (sys : ClockID) (e : epoch_offset_entry_t)
    (l1 l2 : List epoch_offset_entry_t) (h : ∀ v ∈ l1, v.sys ≠ sys) :
    assign_first sys e (l1 ++ l2) = l1 ++ assign_first sys e l2 := by
  induction l1 with
  | nil => rfl
  | cons v rest ih =>
    have hv : v.sys ≠ sys := h v (List.mem_cons_self _ _)
    show (if v.sys = sys then e :: (rest ++ l2) else v :: assign_first sys e (rest ++ l2))
      = v :: (rest ++ assign_first sys e l2)
    rw [if_neg hv, ih (fun w hw => h w (List.mem_cons_of_mem _ hw))]

theorem mem_assign_first (sys : ClockID) (e : epoch_offset_entry_t)
    (l : List epoch_offset_entry_t) (v : epoch_offset_entry_t)
    (h : v ∈ assign_first sys e l) : v = e ∨ v ∈ l := by
  induction l with
  | nil => simp [assign_first] at h
  | cons w rest ih =>
    simp only [assign_first] at h
    split at h
    · rw [List.mem_cons] at h
      rcases h with h | h
      · exact Or.inl h
      · exact Or.inr (List.mem_cons_of_mem _ h)
    · rw [List.mem_cons] at h
      rcases h with h | h
      · exact Or.inr (by rw [h]; exact List.mem_cons_self _ _)
      · rcases ih h with h | h
        · exact Or.inl h
        · exact Or.inr (List.mem_cons_of_mem _ h)

theorem find_assign_first_same (sys : ClockID) (e : epoch_offset_entry_t) (he : e.sys = sys)
    (l : List epoch_offset_entry_t) (w : epoch_offset_entry_t)
    (h : l.find? (fun v => decide (v.sys = sys)) = some w) :
    (assign_first sys e l).find? (fun v => decide (v.sys = sys)) = some e := by
  induction l with
  | nil => simp at h
  | cons v rest ih =>
    by_cases hv : v.sys = sys
    · simp [assign_first, hv, he]
    · have hstep : assign_first sys e (v :: rest) = v :: assign_first sys e rest := by
        simp [assign_first, hv]
      rw [hstep]
      simp only [List.find?_cons, hv, decide_False] at h ⊢
      exact ih h

theorem find_assign_first_other (sys clk : ClockID) (e : epoch_offset_entry_t)
    (he : e.sys = sys) (hne : clk ≠ sys) (l : List epoch_offset_entry_t) :
    (assign_first sys e l).find? (fun v => decide (v.sys = clk)) =
      l.find? (fun v => decide (v.sys = clk)) := by
  induction l with
  | nil => rfl
  | cons v rest ih =>
    by_cases hv : v.sys = sys
    · have h1 : ¬ v.sys = clk := by rw [hv]; exact fun h => hne h.symm
      have h2 : ¬ e.sys = clk := by rw [he]; exact fun h => hne h.symm
      have h3 : ¬ sys = clk := fun h => hne h.symm
      simp [assign_first, hv, List.find?_cons, h2, h3]
    · simp only [assign_first, if_neg hv, List.find?_cons]
      rw [ih]

theorem SetReceiverEpoch_leaps (c : TimeConverterImpl) (rx_id : Nat) (epoch : TimePoint) :
    (c.SetReceiverEpoch rx_id epoch).d_leap_second_table = c.d_leap_second_table := by
  unfold SetReceiverEpoch
  simp only []
  split
  · split <;> rfl
  · rfl

theorem SetReceiverEpoch_fail (c : TimeConverterImpl) (rx_id : Nat) (epoch : TimePoint)
    (h : (c.Convert epoch (ClockID.MakeTAI ClockID.kSystemClockID)).1 = false) :
    c.SetReceiverEpoch rx_id epoch = c := by
  simp [SetReceiverEpoch, h]

/-- After a successful `SetReceiverEpoch` the receiver clock is found with the new offset. -/
theorem find_offset_set_same (c : TimeConverterImpl) (rx_id : Nat) (epoch : TimePoint)
    (h : (c.Convert epoch (ClockID.MakeTAI ClockID.kSystemClockID)).1 = true) :
    (c.SetReceiverEpoch rx_id epoch).find_offset (ClockID.MakeReceiver rx_id) =
      some ⟨ClockID.MakeReceiver rx_id,
        (c.Convert epoch (ClockID.MakeTAI ClockID.kSystemClockID)).2.mTimeSinceEpoch⟩ := by
  simp only [SetReceiverEpoch, h, if_true, TimePoint.TimeSinceEpoch]
  cases hf : c.find_offset (ClockID.MakeReceiver rx_id) with
  | none =>
    simp only [find_offset] at hf ⊢
    rw [List.find?_append, hf]
    simp
  | some w =>
    simp only [find_offset] at hf ⊢
    exact find_assign_first_same (ClockID.MakeReceiver rx_id)
      ⟨ClockID.MakeReceiver rx_id, _⟩ rfl _ w hf

/-- `SetReceiverEpoch` leaves the lookup of every other clock as it was. -/
theorem find_offset_set_other (c : TimeConverterImpl) (rx_id : Nat) (epoch : TimePoint)
    (clk : ClockID) (hne : clk ≠ ClockID.MakeReceiver rx_id) :
    (c.SetReceiverEpoch rx_id epoch).find_offset clk = c.find_offset clk := by
  unfold SetReceiverEpoch
  simp only []
  split
  · split
    · simp only [find_offset]
      rw [List.find?_append]
      have : ¬ ClockID.MakeReceiver rx_id = clk := fun h => hne h.symm
      simp [this]
    · simp only [find_offset]
      exact find_assign_first_other (ClockID.MakeReceiver rx_id) clk
        ⟨ClockID.MakeReceiver rx_id, _⟩ rfl hne _
  · rfl

theorem SetReceiverEpoch_inv (c : TimeConverterImpl) (rx_id : Nat) (epoch : TimePoint)
    (hc : OffsetsInv c) (hv : epoch.mTimeSinceEpoch.Valid) :
    OffsetsInv (c.SetReceiverEpoch rx_id epoch) := by
  have hvalid := Convert_valid c epoch (ClockID.MakeTAI ClockID.kSystemClockID) hv
  obtain ⟨rx, htab, hrx⟩ := hc
  unfold SetReceiverEpoch
  simp only []
  split
  · split
    · refine ⟨rx ++ [⟨ClockID.MakeReceiver rx_id,
        (c.Convert epoch (ClockID.MakeTAI ClockID.kSystemClockID)).2.mTimeSinceEpoch⟩], ?_, ?_⟩
      · simp only [htab, List.append_assoc]; rfl
      · intro v hv2
        rw [List.mem_append, List.mem_singleton] at hv2
        rcases hv2 with hv2 | hv2
        · exact hrx v hv2
        · rw [hv2]; exact ⟨rfl, hvalid⟩
    · refine ⟨assign_first (ClockID.MakeReceiver rx_id) ⟨ClockID.MakeReceiver rx_id,
        (c.Convert epoch (ClockID.MakeTAI ClockID.kSystemClockID)).2.mTimeSinceEpoch⟩ rx, ?_, ?_⟩
      · simp only [htab]
        apply assign_first_append
        intro v hv2 hs
        have := (initial_entry_spec hv2).1
        rw [hs] at this
        exact this rfl
      · intro v hv2
        rcases mem_assign_first _ _ _ _ hv2 with h | h
        · rw [h]; exact ⟨rfl, hvalid⟩
        · exact hrx v h
  · exact ⟨rx, htab, hrx⟩

/-! ## Invariants of the reachable converters -/

theorem add_leap_epochs_inv (P : TimeConverterImpl → Prop)
    (hstep : ∀ c leap_epoch num_leaps, P c → P (c.AddLeapSecondsAt leap_epoch num_leaps).2)
    (epochs : List Int) :
    ∀ (c : TimeConverterImpl) (num_leaps : Int), P c → P (add_leap_epochs c epochs num_leaps) := by
  induction epochs with
  | nil => intro c n h; exact h
  | cons e rest ih =>
    intro c n h
    exact ih _ _ (hstep c _ n h)

theorem AddLeapSecondsAt_inv (c : TimeConverterImpl) (leap_epoch : TimePoint) (num_leaps : Int)
    (hc : OffsetsInv c) : OffsetsInv (c.AddLeapSecondsAt leap_epoch num_leaps).2 := by
  obtain ⟨rx, htab, hrx⟩ := hc
  exact ⟨rx, by rw [AddLeapSecondsAt_offsets]; exact htab, hrx⟩

theorem new_offsets_inv : OffsetsInv TimeConverterImpl.new := by
  apply add_leap_epochs_inv OffsetsInv (fun c l n h => AddLeapSecondsAt_inv c l n h)
  exact ⟨[], by simp, by simp⟩

theorem new_descending : LeapsDescending TimeConverterImpl.new := by
  apply add_leap_epochs_inv LeapsDescending (fun c l n h => AddLeapSecondsAt_descending c l n h)
  simp [LeapsDescending]

end TimeConverterImpl

theorem Reachable.offsets_inv {c : TimeConverterImpl} (h : Reachable c) : OffsetsInv c := by
  induction h with
  | ctor => exact TimeConverterImpl.new_offsets_inv
  | addLeap c l n _ _ ih => exact TimeConverterImpl.AddLeapSecondsAt_inv c l n ih
  | setEpoch c id e _ hv ih => exact TimeConverterImpl.SetReceiverEpoch_inv c id e ih hv

theorem Reachable.descending {c : TimeConverterImpl} (h : Reachable c) : LeapsDescending c := by
  induction h with
  | ctor => exact TimeConverterImpl.new_descending
  | addLeap c l n _ _ ih => exact TimeConverterImpl.AddLeapSecondsAt_descending c l n ih
  | setEpoch c id e _ _ ih =>
    unfold LeapsDescending at ih ⊢
    rw [TimeConverterImpl.SetReceiverEpoch_leaps]
    exact ih

namespace TimeConverterImpl

theorem new_offsets : TimeConverterImpl.new.d_epoch_offset_table = initial_epoch_offset_table := by
  apply add_leap_epochs_inv (fun c => c.d_epoch_offset_table = initial_epoch_offset_table)
  · intro c l n h
    simp only [AddLeapSecondsAt_offsets, h]
  · rfl

/-- A freshly constructed converter has no entry for any receiver clock. -/
theorem new_find_receiver (rx_id : Nat) :
    TimeConverterImpl.new.find_offset (ClockID.MakeReceiver rx_id) = none := by
  unfold find_offset
  rw [new_offsets]
  exact find_initial_receiver _ rfl

/-- An entry of the table, as a membership statement. -/
theorem find_offset_isSome_iff (c : TimeConverterImpl) (clk : ClockID) :
    (c.find_offset clk).isSome = true ↔ ∃ v ∈ c.d_epoch_offset_table, v.sys = clk := by
  unfold find_offset
  rw [List.find?_isSome]
  simp

end TimeConverterImpl

/-- `Convert` between two different clocks that both have entries and agree on keeping leap
seconds is the epoch-offset shift of `ConvertNoLeaps`. -/
theorem TimeConverterImpl.Convert_shift (c : TimeConverterImpl) (d : TimeInterval)
    (clk out_sys : ClockID) (a b : epoch_offset_entry_t)
    (hk : clk.KeepsLeapSeconds = out_sys.KeepsLeapSeconds) (hne : clk ≠ out_sys)
    (hi : c.find_offset clk = some a) (ho : c.find_offset out_sys = some b) :
    c.Convert ⟨d, clk⟩ out_sys = (true, ⟨d + (a.offset - b.offset), out_sys⟩) := by
  rw [TimeConverterImpl.Convert_of_keep_eq c ⟨d, clk⟩ out_sys hk,
    TimeConverterImpl.ConvertNoLeaps_found c ⟨d, clk⟩ out_sys a b hne hi ho]

theorem ne_receiver (clk : ClockID) (h : clk.d_sys ≠ eClockSystem.kReceiver) (rx_id : Nat) :
    clk ≠ ClockID.MakeReceiver rx_id := by
  intro heq
  rw [heq] at h
  exact h rfl

theorem TimeConverterImpl.find_offset_utc (c : TimeConverterImpl) (hc : OffsetsInv c) :
    c.find_offset (ClockID.MakeUTC ClockID.kSystemClockID) =
      some ⟨ClockID.MakeUTC ClockID.kSystemClockID, ⟨2208988800, 0⟩⟩ := by
  rw [TimeConverterImpl.find_offset_other c hc _ (by decide)]
  decide

theorem TimeConverterImpl.find_offset_beidou (c : TimeConverterImpl) (hc : OffsetsInv c) :
    c.find_offset (ClockID.MakeGnss GnssSystem.kBeiDou ClockID.kSystemClockID) =
      some ⟨ClockID.MakeGnss GnssSystem.kBeiDou ClockID.kSystemClockID, ⟨3345062433, 0⟩⟩ := by
  rw [TimeConverterImpl.find_offset_other c hc _ (by decide),
    TimeConverterImpl.initial_table_eq]
  decide

theorem gps_ne_galileo :
    ClockID.MakeGnss GnssSystem.kGps ClockID.kSystemClockID
      ≠ ClockID.MakeGnss GnssSystem.kGalileo ClockID.kSystemClockID := by decide

theorem galileo_ne_gps :
    ClockID.MakeGnss GnssSystem.kGalileo ClockID.kSystemClockID
      ≠ ClockID.MakeGnss GnssSystem.kGps ClockID.kSystemClockID := by decide

/-! ## The converter laws -/

/-- C1: in every reachable converter, for every GPS system-clock instant `x` whose stored
duration is in the representation range, converting `x` to the Galileo system clock succeeds,
and converting that result back to the GPS system clock succeeds and returns exactly `x`
(same clock, same seconds, same sub-second). -/
theorem C1_gps_galileo_round_trip (c : TimeConverterImpl) (hc : Reachable c)
    (d : TimeInterval) (hd : d.Valid) :
    (c.Convert (TimePoint.MakeGnss GnssSystem.kGps d)
        (ClockID.MakeGnss GnssSystem.kGalileo ClockID.kSystemClockID)).1 = true ∧
      c.Convert
        (c.Convert (TimePoint.MakeGnss GnssSystem.kGps d)
          (ClockID.MakeGnss GnssSystem.kGalileo ClockID.kSystemClockID)).2
        (ClockID.MakeGnss GnssSystem.kGps ClockID.kSystemClockID)
        = (true, TimePoint.MakeGnss GnssSystem.kGps d) := by
  have inv := hc.offsets_inv
  have h1 : c.Convert (TimePoint.MakeGnss GnssSystem.kGps d)
      (ClockID.MakeGnss GnssSystem.kGalileo ClockID.kSystemClockID)
      = (true, ⟨⟨wrap64 (d.mSeconds + -619315200), d.mFractionalSeconds⟩,
          ClockID.MakeGnss GnssSystem.kGalileo ClockID.kSystemClockID⟩) := by
    unfold TimePoint.MakeGnss
    rw [TimeConverterImpl.Convert_shift c _ _ _ _ _ (by decide) gps_ne_galileo
      (TimeConverterImpl.find_offset_gps c inv) (TimeConverterImpl.find_offset_galileo c inv)]
    have hsub : ((⟨2524953619, 0⟩ : TimeIntervalImpl) - ⟨3144268819, 0⟩)
        = ⟨-619315200, 0⟩ := by decide
    simp only [hsub]
    rw [TimeIntervalImpl.add_whole d _ hd]
  rw [h1]
  refine ⟨rfl, ?_⟩
  have hv2 : (⟨wrap64 (d.mSeconds + -619315200), d.mFractionalSeconds⟩ :
      TimeIntervalImpl).Valid := ⟨wrap64_in _, hd.2⟩
  rw [TimeConverterImpl.Convert_shift c _ _ _ _ _ (by decide) galileo_ne_gps
      (TimeConverterImpl.find_offset_galileo c inv) (TimeConverterImpl.find_offset_gps c inv)]
  have hsub : ((⟨3144268819, 0⟩ : TimeIntervalImpl) - ⟨2524953619, 0⟩)
      = ⟨619315200, 0⟩ := by decide
  simp only [hsub]
  rw [TimeIntervalImpl.add_whole _ _ hv2]
  obtain ⟨⟨h0, h0'⟩, _, _⟩ := hd
  cases d
  simp only [TimePoint.MakeGnss] at *
  congr 3
  unfold wrap64; omega

/-- C1 at the fresh converter and the instant of the unit test: GPS week 2048, 604500 s. -/
theorem C1_gps_galileo_round_trip_witness :
    (TimeInterval.Weeks 2048 + TimeInterval.Seconds 604500).Valid ∧
      TimeConverterImpl.new.Convert
        (TimeConverterImpl.new.Convert
          (TimePoint.MakeGnss GnssSystem.kGps
            (TimeInterval.Weeks 2048 + TimeInterval.Seconds 604500))
          (ClockID.MakeGnss GnssSystem.kGalileo ClockID.kSystemClockID)).2
        (ClockID.MakeGnss GnssSystem.kGps ClockID.kSystemClockID)
        = (true, TimePoint.MakeGnss GnssSystem.kGps
            (TimeInterval.Weeks 2048 + TimeInterval.Seconds 604500)) :=
  ⟨by decide,
    (C1_gps_galileo_round_trip TimeConverterImpl.new Reachable.ctor
      (TimeInterval.Weeks 2048 + TimeInterval.Seconds 604500) (by decide)).2⟩

set_option maxRecDepth 8192 in
/-- C2: in a freshly constructed converter the zero-duration instants of GPS, Galileo and
BeiDou convert to the UTC system clock with success, giving 315964800 s (1980-01-06 00:00:00),
935279987 s (1999-08-22 00:00:00 minus 13 s) and 1136073600 s (2006-01-01 00:00:00) since the
Unix epoch, with zero sub-second. -/
theorem C2_epoch_dates :
    TimeConverterImpl.new.Convert
        (TimePoint.MakeGnss GnssSystem.kGps (TimeInterval.Seconds 0))
        (ClockID.MakeUTC ClockID.kSystemClockID)
        = (true, ⟨⟨315964800, 0⟩, ClockID.MakeUTC ClockID.kSystemClockID⟩) ∧
      TimeConverterImpl.new.Convert
        (TimePoint.MakeGnss GnssSystem.kGalileo (TimeInterval.Seconds 0))
        (ClockID.MakeUTC ClockID.kSystemClockID)
        = (true, ⟨⟨935279987, 0⟩, ClockID.MakeUTC ClockID.kSystemClockID⟩) ∧
      TimeConverterImpl.new.Convert
        (TimePoint.MakeGnss GnssSystem.kBeiDou (TimeInterval.Seconds 0))
        (ClockID.MakeUTC ClockID.kSystemClockID)
        = (true, ⟨⟨1136073600, 0⟩, ClockID.MakeUTC ClockID.kSystemClockID⟩) := by
  refine ⟨?_, ?_, ?_⟩ <;> decide

/-- C3: in every reachable converter and for every duration `d`, the GPS system-clock instant
with since-epoch `d` converts to the Galileo system clock with success and since-epoch exactly
`d - Weeks 1024`, and the Galileo instant with since-epoch `d` converts to GPS with success
and since-epoch exactly `d + Weeks 1024`; no leap amount enters. -/
theorem C3_gps_galileo_offset (c : TimeConverterImpl) (hc : Reachable c) (d : TimeInterval) :
    c.Convert (TimePoint.MakeGnss GnssSystem.kGps d)
        (ClockID.MakeGnss GnssSystem.kGalileo ClockID.kSystemClockID)
        = (true, ⟨d - TimeInterval.Weeks 1024,
            ClockID.MakeGnss GnssSystem.kGalileo ClockID.kSystemClockID⟩) ∧
      c.Convert (TimePoint.MakeGnss GnssSystem.kGalileo d)
        (ClockID.MakeGnss GnssSystem.kGps ClockID.kSystemClockID)
        = (true, ⟨d + TimeInterval.Weeks 1024,
            ClockID.MakeGnss GnssSystem.kGps ClockID.kSystemClockID⟩) := by
  have inv := hc.offsets_inv
  have hw : TimeInterval.Weeks 1024 = ⟨619315200, 0⟩ := by decide
  unfold TimePoint.MakeGnss
  constructor
  · rw [TimeConverterImpl.Convert_shift c _ _ _ _ _ (by decide) gps_ne_galileo
      (TimeConverterImpl.find_offset_gps c inv) (TimeConverterImpl.find_offset_galileo c inv)]
    have hsub : ((⟨2524953619, 0⟩ : TimeIntervalImpl) - ⟨3144268819, 0⟩)
        = ⟨-619315200, 0⟩ := by decide
    simp only [hsub, hw, TimeIntervalImpl.add_def, TimeIntervalImpl.sub_def]
    congr 5
  · rw [TimeConverterImpl.Convert_shift c _ _ _ _ _ (by decide) galileo_ne_gps
      (TimeConverterImpl.find_offset_galileo c inv) (TimeConverterImpl.find_offset_gps c inv)]
    have hsub : ((⟨3144268819, 0⟩ : TimeIntervalImpl) - ⟨2524953619, 0⟩)
        = ⟨619315200, 0⟩ := by decide
    simp only [hsub, hw]

/-- C3 at the fresh converter and the instant of the unit test: GPS `Weeks 2048 + 604500 s`
is Galileo `Weeks 1024 + 604500 s`. -/
theorem C3_gps_galileo_offset_witness :
    TimeConverterImpl.new.Convert
        (TimePoint.MakeGnss GnssSystem.kGps
          (TimeInterval.Weeks 2048 + TimeInterval.Seconds 604500))
        (ClockID.MakeGnss GnssSystem.kGalileo ClockID.kSystemClockID)
      = (true, ⟨TimeInterval.Weeks 1024 + TimeInterval.Seconds 604500,
          ClockID.MakeGnss GnssSystem.kGalileo ClockID.kSystemClockID⟩) := by
  rw [(C3_gps_galileo_offset TimeConverterImpl.new Reachable.ctor
    (TimeInterval.Weeks 2048 + TimeInterval.Seconds 604500)).1]
  decide

/-- C4: in a freshly constructed converter, converting any receiver instant of any instance
id to the GPS system clock returns `ok = false`; after `SetReceiverEpoch` of that id with any
instant of the UTC system clock, the same conversion returns `ok = true`. -/
theorem C4_receiver_needs_epoch :
    (∀ (rx_id : Nat) (r : TimeInterval),
        (TimeConverterImpl.new.Convert (TimePoint.MakeReceiver r rx_id)
          (ClockID.MakeGnss GnssSystem.kGps ClockID.kSystemClockID)).1 = false) ∧
      (∀ (rx_id : Nat) (r e : TimeInterval),
        ((TimeConverterImpl.new.SetReceiverEpoch rx_id
            ⟨e, ClockID.MakeUTC ClockID.kSystemClockID⟩).Convert
          (TimePoint.MakeReceiver r rx_id)
          (ClockID.MakeGnss GnssSystem.kGps ClockID.kSystemClockID)).1 = true) := by
  have inv := TimeConverterImpl.new_offsets_inv
  constructor
  · intro rx_id r
    cases h : (TimeConverterImpl.new.Convert (TimePoint.MakeReceiver r rx_id)
      (ClockID.MakeGnss GnssSystem.kGps ClockID.kSystemClockID)).1 with
    | false => rfl
    | true =>
      rw [TimeConverterImpl.Convert_ok_iff _ inv] at h
      rcases h with h | ⟨h, _⟩
      · exact absurd h (by simp [TimePoint.MakeReceiver, ClockID.MakeReceiver, ClockID.MakeGnss])
      · have hn := TimeConverterImpl.new_find_receiver rx_id
        simp only [TimePoint.MakeReceiver] at h
        rw [hn] at h
        exact absurd h (by simp)
  · intro rx_id r e
    have hok : (TimeConverterImpl.new.Convert ⟨e, ClockID.MakeUTC ClockID.kSystemClockID⟩
        (ClockID.MakeTAI ClockID.kSystemClockID)).1 = true := by
      rw [TimeConverterImpl.Convert_ok_iff _ inv]
      right
      constructor
      · show (TimeConverterImpl.new.find_offset
          (ClockID.MakeUTC ClockID.kSystemClockID)).isSome = true
        rw [TimeConverterImpl.find_offset_utc _ inv]; rfl
      · rw [TimeConverterImpl.find_offset_tai _ inv]; rfl
    apply (TimeConverterImpl.Convert_ok_iff_of_ntp _ _ _ _).2
    · right
      constructor
      · simp only [TimePoint.MakeReceiver]
        rw [TimeConverterImpl.find_offset_set_same _ _ _ hok]; rfl
      · rw [TimeConverterImpl.find_offset_set_other _ _ _ _
            (ne_receiver (ClockID.MakeGnss GnssSystem.kGps ClockID.kSystemClockID)
              (by decide) rx_id),
          TimeConverterImpl.find_offset_gps _ inv]; rfl
    · rw [TimeConverterImpl.find_offset_set_other _ _ _ _
          (ne_receiver (ClockID.MakeNTP ClockID.kSystemClockID) (by decide) rx_id),
        TimeConverterImpl.find_offset_ntp _ inv]; rfl

/-- C7: in every reachable converter, `Convert` returns `ok = true` if and only if the clock of
the input equals the output clock or both clocks have an entry in the epoch-offset table; and
converting the instant to its own clock succeeds and returns the input unchanged (whatever the
clock, a receiver clock without a registered epoch included). -/
theorem C7_convert_ok_iff (c : TimeConverterImpl) (hc : Reachable c) (inp : TimePoint)
    (out_clock : ClockID) :
    ((c.Convert inp out_clock).1 = true ↔
        inp.mClockID = out_clock ∨
          ((∃ v ∈ c.d_epoch_offset_table, v.sys = inp.mClockID) ∧
            (∃ v ∈ c.d_epoch_offset_table, v.sys = out_clock))) ∧
      c.Convert inp inp.mClockID = (true, inp) := by
  constructor
  · rw [TimeConverterImpl.Convert_ok_iff c hc.offsets_inv,
      TimeConverterImpl.find_offset_isSome_iff, TimeConverterImpl.find_offset_isSome_iff]
  · exact TimeConverterImpl.Convert_same c inp

/-- C7 at the fresh converter: a receiver instant (no epoch registered) converts to its own
clock unchanged. -/
theorem C7_convert_ok_iff_witness :
    TimeConverterImpl.new.Convert (TimePoint.MakeReceiver (TimeInterval.Seconds 5) 0)
        (ClockID.MakeReceiver 0)
      = (true, TimePoint.MakeReceiver (TimeInterval.Seconds 5) 0) :=
  (C7_convert_ok_iff TimeConverterImpl.new Reachable.ctor
    (TimePoint.MakeReceiver (TimeInterval.Seconds 5) 0)
    (ClockID.MakeGnss GnssSystem.kGps ClockID.kSystemClockID)).2

/-- C8: for every converter, every instant and every output clock, whenever `Convert` returns
`ok = true` the clock of the returned instant equals the requested output clock (system and
instance id). -/
theorem C8_convert_clock (c : TimeConverterImpl) (inp : TimePoint) (out_clock : ClockID) :
    (c.Convert inp out_clock).1 = true →
      (c.Convert inp out_clock).2.mClockID = out_clock ∧
        (c.Convert inp out_clock).2.mClockID.d_sys = out_clock.d_sys ∧
        (c.Convert inp out_clock).2.mClockID.d_id = out_clock.d_id := by
  intro _
  have h := TimeConverterImpl.Convert_clock c inp out_clock
  exact ⟨h, by rw [h], by rw [h]⟩

/-- C8 at the fresh converter: the GPS zero instant converted to UTC carries the UTC system
clock. -/
theorem C8_convert_clock_witness :
    (TimeConverterImpl.new.Convert
        (TimePoint.MakeGnss GnssSystem.kGps (TimeInterval.Seconds 0))
        (ClockID.MakeUTC ClockID.kSystemClockID)).1 = true ∧
      (TimeConverterImpl.new.Convert
        (TimePoint.MakeGnss GnssSystem.kGps (TimeInterval.Seconds 0))
        (ClockID.MakeUTC ClockID.kSystemClockID)).2.mClockID
        = ClockID.MakeUTC ClockID.kSystemClockID :=
  ⟨by decide,
    (C8_convert_clock TimeConverterImpl.new
      (TimePoint.MakeGnss GnssSystem.kGps (TimeInterval.Seconds 0))
      (ClockID.MakeUTC ClockID.kSystemClockID) (by decide)).1⟩

/-! ## Represented values -/

namespace TimeIntervalImpl

/-- `operator+=` adds the represented femtoseconds, up to the 64-bit wrap of the seconds
member (`2^64` seconds). -/
theorem femtoseconds_add (a b : TimeIntervalImpl) (ha : a.Valid) (hb : b.Valid) :
    (femtoseconds (a + b) - (femtoseconds a + femtoseconds b))
      % 18446744073709551616000000000000000 = 0 := by
  obtain ⟨_, ha1, ha2⟩ := ha
  obtain ⟨_, hb1, hb2⟩ := hb
  rw [kOneSecondInternal_eq] at ha1 ha2 hb1 hb2
  rw [add_def, Normalise_eq, tdiv_second]
  simp only [femtoseconds, kOneSecondInternal_eq]
  unfold wrap64
  split <;> omega

/-- `operator-=` subtracts the represented femtoseconds, up to the 64-bit wrap of the seconds
member. -/
theorem femtoseconds_sub (a b : TimeIntervalImpl) (ha : a.Valid) (hb : b.Valid) :
    (femtoseconds (a - b) - (femtoseconds a - femtoseconds b))
      % 18446744073709551616000000000000000 = 0 := by
  obtain ⟨_, ha1, ha2⟩ := ha
  obtain ⟨_, hb1, hb2⟩ := hb
  rw [kOneSecondInternal_eq] at ha1 ha2 hb1 hb2
  rw [sub_def, Normalise_eq, tdiv_second]
  simp only [femtoseconds, kOneSecondInternal_eq]
  unfold wrap64
  split <;> omega

end TimeIntervalImpl

theorem Seconds_valid (n : Int) : (TimeInterval.Seconds n).Valid := by
  rw [Seconds_eq]
  exact ⟨wrap64_in _, by show -Constants.kOneSecondInternal < 0; decide,
    by show (0 : Int) < Constants.kOneSecondInternal; decide⟩

theorem femtoseconds_Seconds (n : Int) :
    (TimeIntervalImpl.femtoseconds (TimeInterval.Seconds n) - n * 1000000000000000)
      % 18446744073709551616000000000000000 = 0 := by
  rw [Seconds_eq]
  simp only [TimeIntervalImpl.femtoseconds, kOneSecondInternal_eq]
  unfold wrap64
  omega

/-! ## The leap-second table and the leap adjustment -/

/-- C9: in every reachable converter, for an input instant (stored duration in range) and an
output clock that both have epoch-offset entries `a` and `b` and of which exactly one keeps
leap seconds, let `L` be the count of the first entry of the leap table whose epoch is
strictly less than `in.since_epoch + offset(in.clock)`, and `0` when there is none.  Then
`Convert` succeeds, the result is on the output clock, and its since-epoch is
`in.since_epoch + (offset(in.clock) - offset(out)) - Seconds L` when the output clock keeps leap
seconds and `... + Seconds L` when it does not, evaluated with the operators of the duration
type in the order of the source; the represented value is `in + offset(in) - offset(out)`
minus (respectively plus) `L` seconds, up to the 64-bit wrap of the seconds member. -/
theorem C9_leap_adjustment (c : TimeConverterImpl) (hc : Reachable c) (inp : TimePoint)
    (out_clock : ClockID) (a b : epoch_offset_entry_t) (hv : inp.mTimeSinceEpoch.Valid)
    (hi : c.find_offset inp.mClockID = some a) (ho : c.find_offset out_clock = some b)
    (hk : inp.mClockID.KeepsLeapSeconds ≠ out_clock.KeepsLeapSeconds) :
    (c.Convert inp out_clock).1 = true ∧
      (c.Convert inp out_clock).2.mClockID = out_clock ∧
      (c.Convert inp out_clock).2.mTimeSinceEpoch =
        (if out_clock.KeepsLeapSeconds then
          inp.mTimeSinceEpoch + (a.offset - b.offset) -
            TimeInterval.Seconds
              (match c.d_leap_second_table.find?
                  (fun v => TimeIntervalImpl.lt v.ntp_epoch (inp.mTimeSinceEpoch + a.offset)) with
                | some leap => leap.num_leap_seconds
                | none => 0)
        else
          inp.mTimeSinceEpoch + (a.offset - b.offset) +
            TimeInterval.Seconds
              (match c.d_leap_second_table.find?
                  (fun v => TimeIntervalImpl.lt v.ntp_epoch (inp.mTimeSinceEpoch + a.offset)) with
                | some leap => leap.num_leap_seconds
                | none => 0)) ∧
      (TimeIntervalImpl.femtoseconds (c.Convert inp out_clock).2.mTimeSinceEpoch -
          (TimeIntervalImpl.femtoseconds inp.mTimeSinceEpoch
            + TimeIntervalImpl.femtoseconds a.offset - TimeIntervalImpl.femtoseconds b.offset
            - (if out_clock.KeepsLeapSeconds then 1 else -1) *
              ((match c.d_leap_second_table.find?
                  (fun v => TimeIntervalImpl.lt v.ntp_epoch (inp.mTimeSinceEpoch + a.offset)) with
                | some leap => leap.num_leap_seconds
                | none => 0) * 1000000000000000)))
        % 18446744073709551616000000000000000 = 0 := by
  have inv := hc.offsets_inv
  have hconv := TimeConverterImpl.Convert_leap c inv inp out_clock a b hv hi ho hk
  have hva := TimeConverterImpl.find_offset_valid c inv _ a hi
  have hvb := TimeConverterImpl.find_offset_valid c inv _ b ho
  have hvs : (inp.mTimeSinceEpoch + (a.offset - b.offset)).Valid :=
    TimeIntervalImpl.add_valid _ _
  have hS0 : TimeInterval.Seconds 0 = ⟨0, 0⟩ := by decide
  have hexact : (c.Convert inp out_clock).2.mTimeSinceEpoch =
      (if out_clock.KeepsLeapSeconds then
        inp.mTimeSinceEpoch + (a.offset - b.offset) -
          TimeInterval.Seconds
            (match c.d_leap_second_table.find?
                (fun v => TimeIntervalImpl.lt v.ntp_epoch (inp.mTimeSinceEpoch + a.offset)) with
              | some leap => leap.num_leap_seconds
              | none => 0)
      else
        inp.mTimeSinceEpoch + (a.offset - b.offset) +
          TimeInterval.Seconds
            (match c.d_leap_second_table.find?
                (fun v => TimeIntervalImpl.lt v.ntp_epoch (inp.mTimeSinceEpoch + a.offset)) with
              | some leap => leap.num_leap_seconds
              | none => 0)) := by
    rw [hconv]
    simp only [TimeConverterImpl.find_leap]
    cases c.d_leap_second_table.find?
        (fun v => TimeIntervalImpl.lt v.ntp_epoch (inp.mTimeSinceEpoch + a.offset)) with
    | none =>
      simp only [hS0]
      rw [TimeIntervalImpl.sub_zero_valid _ hvs, TimeIntervalImpl.add_zero_valid _ hvs]
      simp
    | some leap => rfl
  refine ⟨by rw [hconv], by rw [hconv], hexact, ?_⟩
  rw [hexact]
  have h1 := TimeIntervalImpl.femtoseconds_sub a.offset b.offset hva hvb
  have h2 := TimeIntervalImpl.femtoseconds_add inp.mTimeSinceEpoch (a.offset - b.offset) hv
    (TimeIntervalImpl.sub_valid _ _)
  generalize (match c.d_leap_second_table.find?
      (fun v => TimeIntervalImpl.lt v.ntp_epoch (inp.mTimeSinceEpoch + a.offset)) with
    | some leap => leap.num_leap_seconds
    | none => 0) = L
  have h3 := femtoseconds_Seconds L
  cases out_clock.KeepsLeapSeconds with
  | true =>
    have h4 := TimeIntervalImpl.femtoseconds_sub
      (inp.mTimeSinceEpoch + (a.offset - b.offset)) (TimeInterval.Seconds L) hvs (Seconds_valid L)
    simp only [if_true]
    omega
  | false =>
    have h4 := TimeIntervalImpl.femtoseconds_add
      (inp.mTimeSinceEpoch + (a.offset - b.offset)) (TimeInterval.Seconds L) hvs (Seconds_valid L)
    simp only [Bool.false_eq_true, if_false]
    omega

/-- C9 at the fresh converter: the BeiDou zero instant converted to UTC, 33 leap seconds. -/
theorem C9_leap_adjustment_witness :
    (TimeConverterImpl.new.Convert
        (TimePoint.MakeGnss GnssSystem.kBeiDou (TimeInterval.Seconds 0))
        (ClockID.MakeUTC ClockID.kSystemClockID)).2.mTimeSinceEpoch
      = TimeInterval.Seconds 0 + ((⟨3345062433, 0⟩ : TimeInterval) - ⟨2208988800, 0⟩)
          - TimeInterval.Seconds 33 :=
  (C9_leap_adjustment TimeConverterImpl.new Reachable.ctor
    (TimePoint.MakeGnss GnssSystem.kBeiDou (TimeInterval.Seconds 0))
    (ClockID.MakeUTC ClockID.kSystemClockID)
    ⟨ClockID.MakeGnss GnssSystem.kBeiDou ClockID.kSystemClockID, ⟨3345062433, 0⟩⟩
    ⟨ClockID.MakeUTC ClockID.kSystemClockID, ⟨2208988800, 0⟩⟩
    (by decide)
    (TimeConverterImpl.find_offset_beidou _ TimeConverterImpl.new_offsets_inv)
    (TimeConverterImpl.find_offset_utc _ TimeConverterImpl.new_offsets_inv)
    (by decide)).2.2.1

/-! ## Registering a receiver epoch -/

namespace TimeIntervalImpl

theorem zero_add_valid (a : TimeIntervalImpl) (ha : a.Valid) :
    (⟨0, 0⟩ : TimeIntervalImpl) + a = a := by
  obtain ⟨⟨h0, h0'⟩, h1, h2⟩ := ha
  rw [kOneSecondInternal_eq] at h1 h2
  rw [add_def]
  have hw : wrap64 (0 + a.mFractionalSeconds) = a.mFractionalSeconds := by
    unfold wrap64; omega
  simp only [hw]
  rw [Normalise_small _ _ h1 h2]
  cases a
  simp only at *
  congr 1
  unfold wrap64; omega

theorem valid_mk_wrap (x f : Int) (h1 : -Constants.kOneSecondInternal < f)
    (h2 : f < Constants.kOneSecondInternal) : (⟨wrap64 x, f⟩ : TimeIntervalImpl).Valid :=
  ⟨wrap64_in x, h1, h2⟩

end TimeIntervalImpl

/-- Shifting a duration by a whole-second offset and back, from the zero duration. -/
theorem receiver_shift_back (d : TimeIntervalImpl) (o : Int) (hv : d.Valid) :
    (⟨0, 0⟩ : TimeIntervalImpl) + (d + ⟨o, 0⟩ - ⟨o, 0⟩) = d := by
  obtain ⟨s, f⟩ := d
  obtain ⟨⟨hs1, hs2⟩, hf1, hf2⟩ := hv
  simp only at hs1 hs2 hf1 hf2
  have e1 : (⟨s, f⟩ : TimeIntervalImpl) + ⟨o, 0⟩ = ⟨wrap64 (s + o), f⟩ :=
    TimeIntervalImpl.add_whole ⟨s, f⟩ o ⟨⟨hs1, hs2⟩, hf1, hf2⟩
  have e2 : (⟨wrap64 (s + o), f⟩ : TimeIntervalImpl) - ⟨o, 0⟩
      = ⟨wrap64 (wrap64 (s + o) - o), f⟩ :=
    TimeIntervalImpl.sub_whole _ o (TimeIntervalImpl.valid_mk_wrap _ _ hf1 hf2)
  rw [e1, e2, TimeIntervalImpl.zero_add_valid _ (TimeIntervalImpl.valid_mk_wrap _ _ hf1 hf2)]
  congr 1
  unfold wrap64; omega

/-- Shifting a duration by a whole-second offset and a leap count, and back. -/
theorem receiver_leap_back (d : TimeIntervalImpl) (o n : Int) (hv : d.Valid) :
    (⟨0, 0⟩ : TimeIntervalImpl) + (d + ⟨o, 0⟩ + TimeInterval.Seconds n - ⟨o, 0⟩)
      - TimeInterval.Seconds n = d := by
  obtain ⟨s, f⟩ := d
  obtain ⟨⟨hs1, hs2⟩, hf1, hf2⟩ := hv
  simp only at hs1 hs2 hf1 hf2
  have e1 : (⟨s, f⟩ : TimeIntervalImpl) + ⟨o, 0⟩ = ⟨wrap64 (s + o), f⟩ :=
    TimeIntervalImpl.add_whole ⟨s, f⟩ o ⟨⟨hs1, hs2⟩, hf1, hf2⟩
  have e2 : (⟨wrap64 (s + o), f⟩ : TimeIntervalImpl) + ⟨wrap64 n, 0⟩
      = ⟨wrap64 (wrap64 (s + o) + wrap64 n), f⟩ :=
    TimeIntervalImpl.add_whole _ _ (TimeIntervalImpl.valid_mk_wrap _ _ hf1 hf2)
  have e3 : (⟨wrap64 (wrap64 (s + o) + wrap64 n), f⟩ : TimeIntervalImpl) - ⟨o, 0⟩
      = ⟨wrap64 (wrap64 (wrap64 (s + o) + wrap64 n) - o), f⟩ :=
    TimeIntervalImpl.sub_whole _ o (TimeIntervalImpl.valid_mk_wrap _ _ hf1 hf2)
  have e4 : (⟨wrap64 (wrap64 (wrap64 (s + o) + wrap64 n) - o), f⟩ : TimeIntervalImpl)
      - ⟨wrap64 n, 0⟩
      = ⟨wrap64 (wrap64 (wrap64 (wrap64 (s + o) + wrap64 n) - o) - wrap64 n), f⟩ :=
    TimeIntervalImpl.sub_whole _ _ (TimeIntervalImpl.valid_mk_wrap _ _ hf1 hf2)
  rw [Seconds_eq, e1, e2, e3,
    TimeIntervalImpl.zero_add_valid _ (TimeIntervalImpl.valid_mk_wrap _ _ hf1 hf2), e4]
  congr 1
  unfold wrap64; omega

namespace TimeConverterImpl

/-- The NTP projection used for the leap count, in a converter of reachable shape. -/
theorem ConvertNoLeaps_ntp (c : TimeConverterImpl) (hc : OffsetsInv c) (inp : TimePoint)
    (a : epoch_offset_entry_t) (hv : inp.mTimeSinceEpoch.Valid)
    (hi : c.find_offset inp.mClockID = some a) :
    c.ConvertNoLeaps inp (ClockID.MakeNTP ClockID.kSystemClockID) =
      (true, ⟨inp.mTimeSinceEpoch + a.offset, ClockID.MakeNTP ClockID.kSystemClockID⟩) := by
  by_cases hn : inp.mClockID = ClockID.MakeNTP ClockID.kSystemClockID
  · have ha : a = ⟨ClockID.MakeNTP ClockID.kSystemClockID, ⟨0, 0⟩⟩ := by
      rw [hn, find_offset_ntp c hc] at hi
      exact (Option.some.inj hi).symm
    rw [← hn, ConvertNoLeaps_same, ha]
    simp only
    rw [TimeIntervalImpl.add_zero_valid _ hv]
  · rw [ConvertNoLeaps_found c inp _ a _ hn hi (find_offset_ntp c hc)]
    simp only
    rw [TimeIntervalImpl.sub_zero_valid _ (find_offset_valid c hc _ a hi)]

theorem find_leap_set (c : TimeConverterImpl) (rx_id : Nat) (epoch : TimePoint)
    (q : TimeInterval) : (c.SetReceiverEpoch rx_id epoch).find_leap q = c.find_leap q := by
  unfold find_leap
  rw [SetReceiverEpoch_leaps]

/-- The round trip through a registered receiver epoch, for an instant on a clock with a
whole-second offset and a leap count that is the same in both directions. -/
theorem receiver_zero_round_trip (c : TimeConverterImpl) (hc : OffsetsInv c) (rx_id : Nat)
    (d : TimeInterval) (clk : ClockID) (a : epoch_offset_entry_t) (hv : d.Valid)
    (hrx : clk.d_sys ≠ eClockSystem.kReceiver)
    (hi : c.find_offset clk = some a)
    (hleap : clk.KeepsLeapSeconds = true →
      c.find_leap (c.Convert ⟨d, clk⟩ (ClockID.MakeTAI ClockID.kSystemClockID)).2.mTimeSinceEpoch
        = c.find_leap (d + a.offset)) :
    (c.SetReceiverEpoch rx_id ⟨d, clk⟩).Convert ⟨⟨0, 0⟩, ClockID.MakeReceiver rx_id⟩ clk
      = (true, ⟨d, clk⟩) := by
  have hok : (c.Convert ⟨d, clk⟩ (ClockID.MakeTAI ClockID.kSystemClockID)).1 = true := by
    rw [Convert_ok_iff c hc]
    right
    exact ⟨by simp only [hi]; rfl, by rw [find_offset_tai c hc]; rfl⟩
  have inv2 := SetReceiverEpoch_inv c rx_id ⟨d, clk⟩ hc hv
  have hfrx := find_offset_set_same c rx_id ⟨d, clk⟩ hok
  have hi2 : (c.SetReceiverEpoch rx_id ⟨d, clk⟩).find_offset clk = some a := by
    rw [find_offset_set_other c rx_id _ clk (ne_receiver clk hrx rx_id)]; exact hi
  have hR := Convert_valid c ⟨d, clk⟩ (ClockID.MakeTAI ClockID.kSystemClockID) hv
  obtain ⟨hf0, _, _⟩ := find_offset_whole c hc clk hrx a hi
  have hva := find_offset_valid c hc clk a hi
  obtain ⟨asys, ⟨o, fo⟩⟩ := a
  simp only at hf0
  subst hf0
  have hz : (⟨0, 0⟩ : TimeIntervalImpl).Valid := by decide
  have hnerx : ClockID.MakeReceiver rx_id ≠ clk := fun h => ne_receiver clk hrx rx_id h.symm
  have htk : (ClockID.MakeTAI ClockID.kSystemClockID).KeepsLeapSeconds = false := rfl
  by_cases hkeep : clk.KeepsLeapSeconds = true
  · -- the clock keeps leap seconds: both directions adjust by the leap count
    have hk1 : (⟨d, clk⟩ : TimePoint).mClockID.KeepsLeapSeconds
        ≠ (ClockID.MakeTAI ClockID.kSystemClockID).KeepsLeapSeconds := by
      simp only [hkeep]; decide
    have hc1 := Convert_leap c hc ⟨d, clk⟩ (ClockID.MakeTAI ClockID.kSystemClockID) _
      ⟨ClockID.MakeTAI ClockID.kSystemClockID, ⟨0, 0⟩⟩ hv hi (find_offset_tai c hc) hk1
    have hk2 : (⟨⟨0, 0⟩, ClockID.MakeReceiver rx_id⟩ : TimePoint).mClockID.KeepsLeapSeconds
        ≠ clk.KeepsLeapSeconds := by
      rw [hkeep]; exact Bool.false_ne_true
    have hc2 := Convert_leap _ inv2 ⟨⟨0, 0⟩, ClockID.MakeReceiver rx_id⟩ clk _ _ hz hfrx hi2 hk2
    have hl := hleap hkeep
    simp only at hl
    rw [hc2]
    simp only [find_leap_set, TimeIntervalImpl.zero_add_valid _ hR, hl, hkeep, if_true]
    rw [hc1]
    simp only [TimeIntervalImpl.sub_zero_valid _ hva, htk, Bool.false_eq_true, if_false]
    cases c.find_leap (d + ⟨o, 0⟩) with
    | none =>
      simp only
      rw [receiver_shift_back d o hv]
    | some leap =>
      simp only
      rw [receiver_leap_back d o leap.num_leap_seconds hv]
  · -- the clock keeps no leap seconds: both directions are epoch-offset shifts
    have hkf : clk.KeepsLeapSeconds = false := by
      cases h : clk.KeepsLeapSeconds
      · rfl
      · exact absurd h hkeep
    by_cases htai : clk = ClockID.MakeTAI ClockID.kSystemClockID
    · subst htai
      have ha : o = 0 := by
        rw [find_offset_tai c hc] at hi
        have := Option.some.inj hi
        simp only [epoch_offset_entry_t.mk.injEq, TimeIntervalImpl.mk.injEq] at this
        omega
      subst ha
      have hself := Convert_same c ⟨d, ClockID.MakeTAI ClockID.kSystemClockID⟩
      simp only at hself
      rw [hself] at hfrx
      simp only at hfrx
      rw [Convert_shift _ ⟨0, 0⟩ (ClockID.MakeReceiver rx_id)
        (ClockID.MakeTAI ClockID.kSystemClockID) _ _ rfl hnerx hfrx hi2]
      simp only
      rw [TimeIntervalImpl.sub_zero_valid _ hv, TimeIntervalImpl.zero_add_valid _ hv]
    · have hc1 := Convert_shift c d clk (ClockID.MakeTAI ClockID.kSystemClockID) _
        ⟨ClockID.MakeTAI ClockID.kSystemClockID, ⟨0, 0⟩⟩ (by rw [hkf]; rfl) htai hi
        (find_offset_tai c hc)
      rw [hc1] at hfrx
      simp only [TimeIntervalImpl.sub_zero_valid _ hva] at hfrx
      rw [Convert_shift _ ⟨0, 0⟩ (ClockID.MakeReceiver rx_id) clk _ _ (by rw [hkf]; rfl)
        hnerx hfrx hi2]
      simp only
      rw [receiver_shift_back d o hv]

end TimeConverterImpl

/-- C5 as stated fails.  In the fresh converter take `e` = 1483228800 s on the UTC system
clock (2017-01-01 00:00:00, the epoch of the newest leap entry): its conversion to TAI
succeeds, and after `SetReceiverEpoch 0 e` the zero instant of receiver 0 converts to UTC as
1483228799 s, one second before `e` (the leap count found for `e` is 36, the one found for
the registered receiver epoch, 36 s further on, is 37).  And with `e` on the receiver clock being registered
(receiver 0, registered before at TAI zero, `e` = 5 s), the zero instant converts to `e`'s
clock as itself, not as `e`. -/
theorem C5_receiver_epoch_counterexample :
    (TimeConverterImpl.new.Convert
        ⟨TimeInterval.Seconds 1483228800, ClockID.MakeUTC ClockID.kSystemClockID⟩
        (ClockID.MakeTAI ClockID.kSystemClockID)).1 = true ∧
      (TimeConverterImpl.new.SetReceiverEpoch 0
          ⟨TimeInterval.Seconds 1483228800, ClockID.MakeUTC ClockID.kSystemClockID⟩).Convert
        (TimePoint.ofClock (ClockID.MakeReceiver 0)) (ClockID.MakeUTC ClockID.kSystemClockID)
        = (true, ⟨⟨1483228799, 0⟩, ClockID.MakeUTC ClockID.kSystemClockID⟩) ∧
      (TimeConverterImpl.new.SetReceiverEpoch 0
          ⟨TimeInterval.Seconds 1483228800, ClockID.MakeUTC ClockID.kSystemClockID⟩).Convert
        (TimePoint.ofClock (ClockID.MakeReceiver 0)) (ClockID.MakeUTC ClockID.kSystemClockID)
        ≠ (true, ⟨TimeInterval.Seconds 1483228800, ClockID.MakeUTC ClockID.kSystemClockID⟩) ∧
      ((TimeConverterImpl.new.SetReceiverEpoch 0
          ⟨TimeInterval.Seconds 0, ClockID.MakeTAI ClockID.kSystemClockID⟩).Convert
        ⟨TimeInterval.Seconds 5, ClockID.MakeReceiver 0⟩
        (ClockID.MakeTAI ClockID.kSystemClockID)).1 = true ∧
      ((TimeConverterImpl.new.SetReceiverEpoch 0
          ⟨TimeInterval.Seconds 0, ClockID.MakeTAI ClockID.kSystemClockID⟩).SetReceiverEpoch 0
          ⟨TimeInterval.Seconds 5, ClockID.MakeReceiver 0⟩).Convert
        (TimePoint.ofClock (ClockID.MakeReceiver 0)) (ClockID.MakeReceiver 0)
        ≠ (true, ⟨TimeInterval.Seconds 5, ClockID.MakeReceiver 0⟩) := by
  refine ⟨?_, ?_, ?_, ?_, ?_⟩ <;> decide

/-- C5, amended: in every reachable converter, for every receiver instance id and every
instant `e` (stored duration in range) on a clock that is not a receiver clock and whose
conversion to TAI succeeds, after `SetReceiverEpoch id e` the zero-duration instant of that
receiver converts to `e`'s clock with `ok = true` and gives exactly `e`, provided that, when
`e`'s clock keeps leap seconds, the leap entry found for the registered receiver epoch (`e`
converted to TAI) is the one found for the NTP projection of `e`.  For a clock that keeps no
leap seconds (GPS, Galileo, BeiDou, TAI) the proviso is void. -/
theorem C5_receiver_epoch_amended (c : TimeConverterImpl) (hc : Reachable c) (rx_id : Nat)
    (e : TimePoint) (hv : e.mTimeSinceEpoch.Valid)
    (hrx : e.mClockID.d_sys ≠ eClockSystem.kReceiver)
    (hok : (c.Convert e (ClockID.MakeTAI ClockID.kSystemClockID)).1 = true)
    (hleap : e.mClockID.KeepsLeapSeconds = true →
      c.find_leap (c.Convert e (ClockID.MakeTAI ClockID.kSystemClockID)).2.mTimeSinceEpoch
        = c.find_leap
            (c.ConvertNoLeaps e (ClockID.MakeNTP ClockID.kSystemClockID)).2.mTimeSinceEpoch) :
    (c.SetReceiverEpoch rx_id e).Convert (TimePoint.ofClock (ClockID.MakeReceiver rx_id))
        e.mClockID = (true, e) := by
  have inv := hc.offsets_inv
  have hsome : ∃ a, c.find_offset e.mClockID = some a := by
    rw [TimeConverterImpl.Convert_ok_iff c inv] at hok
    rcases hok with h | ⟨h, _⟩
    · rw [h, TimeConverterImpl.find_offset_tai c inv]; exact ⟨_, rfl⟩
    · cases hf : c.find_offset e.mClockID with
      | none => rw [hf] at h; exact absurd h (by simp)
      | some a => exact ⟨a, rfl⟩
  obtain ⟨a, hi⟩ := hsome
  have hq := TimeConverterImpl.ConvertNoLeaps_ntp c inv e a hv hi
  rw [hq] at hleap
  obtain ⟨d, clk⟩ := e
  have hz : TimePoint.ofClock (ClockID.MakeReceiver rx_id)
      = ⟨⟨0, 0⟩, ClockID.MakeReceiver rx_id⟩ := by
    unfold TimePoint.ofClock; rw [Weeks_zero_eq]
  rw [hz]
  exact TimeConverterImpl.receiver_zero_round_trip c inv rx_id d clk a hv hrx hi hleap

/-- C5 (amended) at the fresh converter: receiver 0 registered at the GPS epoch expressed in
UTC (315964800 s, leap count 19 in both directions). -/
theorem C5_receiver_epoch_amended_witness :
    (TimeConverterImpl.new.SetReceiverEpoch 0
        ⟨TimeInterval.Seconds 315964800, ClockID.MakeUTC ClockID.kSystemClockID⟩).Convert
      (TimePoint.ofClock (ClockID.MakeReceiver 0)) (ClockID.MakeUTC ClockID.kSystemClockID)
      = (true, ⟨TimeInterval.Seconds 315964800, ClockID.MakeUTC ClockID.kSystemClockID⟩) :=
  C5_receiver_epoch_amended TimeConverterImpl.new Reachable.ctor 0
    ⟨TimeInterval.Seconds 315964800, ClockID.MakeUTC ClockID.kSystemClockID⟩
    (by decide) (by decide) (by decide) (by decide)

/-! ## The normalisation of durations -/

/-- C10 fails on the code: `Seconds(1) - MilliSeconds(1)` is stored as 1 whole second and
`-10^12` femtoseconds.  The sub-second member is not in `[0, 10^15)` and the two members have
opposite signs, so the result is normalised under neither convention of the claim; it stands
for the same 999 ms as the pair `(0, 999 * 10^12)` built by `MilliSeconds(1) * 999`, from
which it differs, and `operator<` puts that pair strictly before it. -/
theorem C10_normalise_mixed_sign :
    TimeInterval.Seconds 1 - TimeInterval.MilliSeconds_1 = ⟨1, -1000000000000⟩ ∧
      ¬ (0 ≤ (TimeInterval.Seconds 1 - TimeInterval.MilliSeconds_1).mFractionalSeconds ∧
          (TimeInterval.Seconds 1 - TimeInterval.MilliSeconds_1).mFractionalSeconds
            < Constants.kOneSecondInternal) ∧
      ¬ ((0 ≤ (TimeInterval.Seconds 1 - TimeInterval.MilliSeconds_1).mSeconds ∧
            0 ≤ (TimeInterval.Seconds 1 - TimeInterval.MilliSeconds_1).mFractionalSeconds) ∨
          ((TimeInterval.Seconds 1 - TimeInterval.MilliSeconds_1).mSeconds ≤ 0 ∧
            (TimeInterval.Seconds 1 - TimeInterval.MilliSeconds_1).mFractionalSeconds ≤ 0)) ∧
      TimeInterval.MilliSeconds_1 * (999 : Int) = ⟨0, 999000000000000⟩ ∧
      TimeIntervalImpl.femtoseconds (TimeInterval.Seconds 1 - TimeInterval.MilliSeconds_1)
        = TimeIntervalImpl.femtoseconds (TimeInterval.MilliSeconds_1 * (999 : Int)) ∧
      TimeIntervalImpl.lt (TimeInterval.MilliSeconds_1 * (999 : Int))
        (TimeInterval.Seconds 1 - TimeInterval.MilliSeconds_1) = true := by
  refine ⟨?_, ?_, ?_, ?_, ?_, ?_⟩ <;> decide

/-! ## Durations: units, weeks and time of week -/

theorem wrap32_of_in {x : Int} (h : InInt32 x) : wrap32 x = x := by
  unfold InInt32 at h; unfold wrap32; omega

theorem tdiv_week (a : Int) :
    Int.tdiv a 604800 = if 0 ≤ a then a / 604800 else -((-a) / 604800) := by
  split
  · exact Int.tdiv_eq_ediv (by assumption) (by norm_num)
  · have h2 : a = -(-a) := by omega
    rw [h2, Int.neg_tdiv, Int.tdiv_eq_ediv (by omega) (by norm_num)]
    simp

theorem Weeks_eq (w : Int) : TimeInterval.Weeks w = ⟨wrap64 (w * 604800), 0⟩ := by
  simp only [TimeInterval.Weeks, TimeIntervalImpl.ctor, kSecondsPerWeek_eq]
  rw [TimeIntervalImpl.Normalise_small _ _ (by norm_num) (by norm_num)]
  congr 1
  unfold wrap64; omega

theorem Days_eq (n : Int) : TimeInterval.Days n = ⟨wrap32 n * 86400, 0⟩ := by
  have hd : Constants.kSecondsPerDay = 86400 := by decide
  simp only [TimeInterval.Days, TimeIntervalImpl.ctor, kSecondsPerWeek_eq, hd]
  rw [TimeIntervalImpl.Normalise_small _ _ (by norm_num) (by norm_num)]
  congr 1
  unfold wrap64 wrap32; omega

theorem Hours_eq (n : Int) : TimeInterval.Hours n = ⟨wrap32 n * 3600, 0⟩ := by
  have hd : Constants.kSecondsPerHour = 3600 := by decide
  simp only [TimeInterval.Hours, TimeIntervalImpl.ctor, kSecondsPerWeek_eq, hd]
  rw [TimeIntervalImpl.Normalise_small _ _ (by norm_num) (by norm_num)]
  congr 1
  unfold wrap64 wrap32; omega

/-- Adding a duration in range to a whole number of seconds. -/
theorem TimeIntervalImpl.whole_add (o : Int) (a : TimeIntervalImpl) (ha : a.Valid) :
    (⟨o, 0⟩ : TimeIntervalImpl) + a = ⟨wrap64 (o + a.mSeconds), a.mFractionalSeconds⟩ := by
  obtain ⟨_, h1, h2⟩ := ha
  rw [kOneSecondInternal_eq] at h1 h2
  rw [TimeIntervalImpl.add_def]
  have hw : wrap64 (0 + a.mFractionalSeconds) = a.mFractionalSeconds := by
    unfold wrap64; omega
  simp only [hw]
  rw [TimeIntervalImpl.Normalise_small _ _ h1 h2]
  congr 1
  unfold wrap64; omega

/-- C13: for every week count `w` and every duration `d` in the representation range,
`(Weeks w + d) - Weeks w` is bit for bit `d`: adding and removing a whole-week span loses
nothing, whatever the sizes of the two. -/
theorem C13_weeks_add_sub (w : Int) (d : TimeInterval) (hd : d.Valid) :
    (TimeInterval.Weeks w + d) - TimeInterval.Weeks w = d := by
  rw [Weeks_eq, TimeIntervalImpl.whole_add _ d hd]
  obtain ⟨⟨hs1, hs2⟩, hf1, hf2⟩ := hd
  rw [TimeIntervalImpl.sub_whole _ _ (TimeIntervalImpl.valid_mk_wrap _ _ hf1 hf2)]
  cases d
  simp only at *
  congr 1
  unfold wrap64; omega

/-- C13 at the values of the unit test: 2048 weeks and one nanosecond. -/
theorem C13_weeks_add_sub_witness :
    TimeInterval.NanoSeconds_1.Valid ∧
      (TimeInterval.Weeks 2048 + TimeInterval.NanoSeconds_1) - TimeInterval.Weeks 2048
        = TimeInterval.NanoSeconds_1 :=
  ⟨by decide, C13_weeks_add_sub 2048 TimeInterval.NanoSeconds_1 (by decide)⟩

/-- C14 as stated fails: `n = 1073741824` and `n = 13000000` are 32-bit integers, but
`7 * 1073741824` and `168 * 13000000` are not, and `Days` and `Hours` take an `int`: the first
call receives `-1073741824` days and the second `-2110967296` hours, so `Days (7 n)` is not
`Weeks n` for the first `n` and `Hours (168 n)` is not `Weeks n` for the second. -/
theorem C14_whole_units_counterexample :
    InInt32 1073741824 ∧
      TimeInterval.Weeks 1073741824 = ⟨649399055155200, 0⟩ ∧
      TimeInterval.Days (7 * 1073741824) = ⟨-92771293593600, 0⟩ ∧
      TimeInterval.Days (7 * 1073741824) ≠ TimeInterval.Weeks 1073741824 ∧
      InInt32 13000000 ∧
      TimeInterval.Weeks 13000000 = ⟨7862400000000, 0⟩ ∧
      TimeInterval.Hours (168 * 13000000) = ⟨-7599482265600, 0⟩ ∧
      TimeInterval.Hours (168 * 13000000) ≠ TimeInterval.Weeks 13000000 := by
  decide

/-- C14, amended: for every integer `n` whose product `168 n` is a 32-bit integer (so that
`n` and `7 n` are too), `Weeks n`, `Days (7 n)` and `Hours (168 n)` are the same duration,
namely `604800 n` whole seconds with zero sub-second, which is also `Seconds` of that
number; in particular `Weeks 1 = Seconds 604800`, `Days 1 = Seconds 86400` and
`Hours 1 = Seconds 3600`. -/
theorem C14_whole_units_amended (n : Int) (hn : InInt32 (168 * n)) :
    InInt32 n ∧ InInt32 (7 * n) ∧
      TimeInterval.Weeks n = TimeInterval.Days (7 * n) ∧
      TimeInterval.Days (7 * n) = TimeInterval.Hours (168 * n) ∧
      TimeInterval.Hours (168 * n) = ⟨604800 * n, 0⟩ ∧
      TimeInterval.Seconds (604800 * n) = ⟨604800 * n, 0⟩ ∧
      TimeInterval.Weeks 1 = TimeInterval.Seconds 604800 ∧
      TimeInterval.Days 1 = TimeInterval.Seconds 86400 ∧
      TimeInterval.Hours 1 = TimeInterval.Seconds 3600 := by
  have h1 : InInt32 n := by unfold InInt32 at hn ⊢; omega
  have h7 : InInt32 (7 * n) := by unfold InInt32 at hn ⊢; omega
  rw [Weeks_eq, Days_eq, Hours_eq, Seconds_eq, wrap32_of_in h7, wrap32_of_in hn]
  unfold InInt32 at hn
  refine ⟨h1, h7, ?_, ?_, ?_, ?_, by decide, by decide, by decide⟩ <;>
    (congr 1; (try unfold wrap64); omega)

/-- C14, amended, at `n = 2048`. -/
theorem C14_whole_units_amended_witness :
    InInt32 (168 * 2048) ∧
      TimeInterval.Weeks 2048 = TimeInterval.Days (7 * 2048) ∧
      TimeInterval.Days (7 * 2048) = TimeInterval.Hours (168 * 2048) ∧
      TimeInterval.Hours (168 * 2048) = ⟨604800 * 2048, 0⟩ :=
  ⟨by decide, (C14_whole_units_amended 2048 (by decide)).2.2.1,
    (C14_whole_units_amended 2048 (by decide)).2.2.2.1,
    (C14_whole_units_amended 2048 (by decide)).2.2.2.2.1⟩

/-- C18 as stated fails: the duration of minus one second has `AsWeeks` 0, while the floor of
`-1 / 604800` is `-1`. -/
theorem C18_as_weeks_counterexample :
    (TimeInterval.Seconds (-1)).AsWeeks = 0 ∧
      (TimeInterval.Seconds (-1)).mSeconds / 604800 = -1 ∧
      InInt32 ((TimeInterval.Seconds (-1)).mSeconds / 604800) := by
  refine ⟨?_, ?_, ?_⟩ <;> decide

/-- C18, amended: for every duration `(s, f)` whose truncated week count fits the return type,
`AsWeeks` is the quotient `s / 604800` truncated toward zero: it equals the floor when `s` is
non-negative or a multiple of 604800, and the floor plus one when `s` is negative and not a
multiple of 604800. -/
theorem C18_as_weeks_amended (s f : Int) (hfit : InInt32 (Int.tdiv s 604800)) :
    (0 ≤ s → (⟨s, f⟩ : TimeIntervalImpl).AsWeeks = s / 604800) ∧
      (s % 604800 = 0 → (⟨s, f⟩ : TimeIntervalImpl).AsWeeks = s / 604800) ∧
      (s < 0 → s % 604800 ≠ 0 → (⟨s, f⟩ : TimeIntervalImpl).AsWeeks = s / 604800 + 1) := by
  simp only [TimeIntervalImpl.AsWeeks, kSecondsPerWeek_eq]
  rw [wrap32_of_in hfit, tdiv_week]
  refine ⟨?_, ?_, ?_⟩
  · intro h; rw [if_pos h]
  · intro h; split <;> omega
  · intro h1 h2; rw [if_neg (by omega)]; omega

/-- C18 (amended) at minus one week and one second: the week count is -1, the floor is -2. -/
theorem C18_as_weeks_amended_witness :
    (⟨-604801, 0⟩ : TimeIntervalImpl).AsWeeks = (-604801 : Int) / 604800 + 1 :=
  (C18_as_weeks_amended (-604801) 0 (by decide)).2.2 (by decide) (by decide)

/-- C19: for every GNSS system, every week number `0 ≤ w < 2^31` and every duration
`d = (s, f)` with `0 ≤ s < 604800` and `0 ≤ f < 10^15`, the instant
`MakeGnss system (Weeks w + d)` has `Week = w` and `TOW` bit for bit equal to `d`. -/
theorem C19_week_and_tow (sys : GnssSystem) (w s f : Int) (hw : 0 ≤ w) (hw2 : w < 2147483648)
    (hs : 0 ≤ s) (hs2 : s < 604800) (hf : 0 ≤ f) (hf2 : f < 1000000000000000) :
    (TimePoint.MakeGnss sys (TimeInterval.Weeks w + ⟨s, f⟩)).Week = w ∧
      (TimePoint.MakeGnss sys (TimeInterval.Weeks w + ⟨s, f⟩)).TOW = ⟨s, f⟩ := by
  have hv : (⟨s, f⟩ : TimeIntervalImpl).Valid := by
    unfold TimeIntervalImpl.Valid InInt64
    rw [kOneSecondInternal_eq]
    simp only
    omega
  have hsum : TimeInterval.Weeks w + ⟨s, f⟩ = ⟨w * 604800 + s, f⟩ := by
    rw [Weeks_eq, TimeIntervalImpl.whole_add _ _ hv]
    simp only
    congr 1
    unfold wrap64; omega
  have hweek : (TimePoint.MakeGnss sys (TimeInterval.Weeks w + ⟨s, f⟩)).Week = w := by
    simp only [TimePoint.Week, TimePoint.MakeGnss, hsum, TimeIntervalImpl.AsWeeks,
      kSecondsPerWeek_eq]
    rw [tdiv_week, if_pos (by omega)]
    unfold wrap32; omega
  refine ⟨hweek, ?_⟩
  have htow : (TimePoint.MakeGnss sys (TimeInterval.Weeks w + ⟨s, f⟩)).TOW
      = (TimeInterval.Weeks w + ⟨s, f⟩)
        - TimeInterval.Weeks (TimePoint.MakeGnss sys (TimeInterval.Weeks w + ⟨s, f⟩)).Week :=
    rfl
  rw [htow, hweek]
  have hf1 : -Constants.kOneSecondInternal < f := by rw [kOneSecondInternal_eq]; omega
  have hf3 : f < Constants.kOneSecondInternal := by rw [kOneSecondInternal_eq]; omega
  have hv2 : (⟨w * 604800 + s, f⟩ : TimeIntervalImpl).Valid :=
    ⟨by unfold InInt64; simp only; omega, hf1, hf3⟩
  rw [hsum, Weeks_eq, TimeIntervalImpl.sub_whole _ _ hv2]
  simp only
  congr 1
  unfold wrap64; omega

/-- C19 at the instant of the unit test: 2048 weeks and 604500 s on the GPS clock. -/
theorem C19_week_and_tow_witness :
    (TimePoint.MakeGnss GnssSystem.kGps (TimeInterval.Weeks 2048 + ⟨604500, 0⟩)).Week = 2048 ∧
      (TimePoint.MakeGnss GnssSystem.kGps (TimeInterval.Weeks 2048 + ⟨604500, 0⟩)).TOW
        = TimeInterval.Seconds 604500 := by
  have h := C19_week_and_tow GnssSystem.kGps 2048 604500 0 (by decide) (by decide) (by decide)
    (by decide) (by decide) (by decide)
  exact ⟨h.1, by rw [h.2]; decide⟩

/-- C20: subtracting two instants raises the error exactly when their `ClockID`s differ, that
is when they differ in the system or in the instance id; when the `ClockID`s are equal the
result is the difference of the two since-epoch durations. -/
theorem C20_instant_subtraction (a b : TimePoint) :
    ((∃ msg, a.sub b = Except.error msg) ↔ a.mClockID ≠ b.mClockID) ∧
      (a.mClockID ≠ b.mClockID ↔
        (a.mClockID.d_sys ≠ b.mClockID.d_sys ∨ a.mClockID.d_id ≠ b.mClockID.d_id)) ∧
      (a.mClockID = b.mClockID →
        a.sub b = Except.ok (a.mTimeSinceEpoch - b.mTimeSinceEpoch)) := by
  refine ⟨?_, ?_, ?_⟩
  · unfold TimePoint.sub
    by_cases h : a.mClockID = b.mClockID
    · simp [h]
    · simp [h]
  · rcases a.mClockID with ⟨s1, i1⟩
    rcases b.mClockID with ⟨s2, i2⟩
    simp only [ne_eq, ClockID.mk.injEq]
    by_cases h1 : s1 = s2 <;> by_cases h2 : i1 = i2 <;> simp [h1, h2]
  · intro h
    simp [TimePoint.sub, h]

/-- C20 at two GPS instants of the same clock. -/
theorem C20_instant_subtraction_witness :
    (TimePoint.MakeGnss GnssSystem.kGps (TimeInterval.Seconds 7)).sub
        (TimePoint.MakeGnss GnssSystem.kGps (TimeInterval.Seconds 5))
      = Except.ok (TimeInterval.Seconds 7 - TimeInterval.Seconds 5) :=
  (C20_instant_subtraction (TimePoint.MakeGnss GnssSystem.kGps (TimeInterval.Seconds 7))
    (TimePoint.MakeGnss GnssSystem.kGps (TimeInterval.Seconds 5))).2.2 rfl

/-! ## Multiplication by an integer -/

theorem shift_factor :
    Int.tdiv (wrap64 (1 * 9223372036854775808)) Constants.kOneSecondInternal = -9223 := by
  decide

/-- The four partial products of the split multiplication add up to the product. -/
theorem split_product (f n : Int) :
    f * n =
      (f / 4294967296) * (n / 4294967296) * 18446744073709551616
        + ((f % 4294967296) * (n / 4294967296) + (f / 4294967296) * (n % 4294967296))
          * 4294967296
        + (f % 4294967296) * (n % 4294967296) := by
  have h1 : f = f % 4294967296 + 4294967296 * (f / 4294967296) :=
    (Int.emod_add_ediv f 4294967296).symm
  have h2 : n = n % 4294967296 + 4294967296 * (n / 4294967296) :=
    (Int.emod_add_ediv n 4294967296).symm
  generalize f / 4294967296 = a1 at *
  generalize f % 4294967296 = a0 at *
  generalize n / 4294967296 = n1 at *
  generalize n % 4294967296 = n0 at *
  rw [h1, h2]
  ring

/-- `operator*=` on a non-negative sub-second member and a non-negative factor whose product
stays below `2^63`: the carry of the sub-second product goes to the seconds. -/
theorem TimeIntervalImpl.mul_small (s f n : Int) (hf0 : 0 ≤ f) (hn : 0 ≤ n)
    (hfn : f * n < 9223372036854775808) (hsn : InInt64 (s * n)) :
    (⟨s, f⟩ : TimeIntervalImpl) * n =
      ⟨wrap64 (s * n + f * n / 1000000000000000), f * n % 1000000000000000⟩ := by
  show TimeIntervalImpl.mul ⟨s, f⟩ n = _
  unfold TimeIntervalImpl.mul
  simp only [shift_factor]
  have hprod := split_product f n
  have p11 : 0 ≤ (f / 4294967296) * (n / 4294967296) :=
    Int.mul_nonneg (by omega) (by omega)
  have p01 : 0 ≤ (f % 4294967296) * (n / 4294967296) :=
    Int.mul_nonneg (by omega) (by omega)
  have p10 : 0 ≤ (f / 4294967296) * (n % 4294967296) :=
    Int.mul_nonneg (by omega) (by omega)
  have p00 : 0 ≤ (f % 4294967296) * (n % 4294967296) :=
    Int.mul_nonneg (by omega) (by omega)
  have hfn0 : 0 ≤ f * n := Int.mul_nonneg hf0 hn
  generalize (f / 4294967296) * (n / 4294967296) = P11 at *
  generalize (f % 4294967296) * (n / 4294967296) = P01 at *
  generalize (f / 4294967296) * (n % 4294967296) = P10 at *
  generalize (f % 4294967296) * (n % 4294967296) = P00 at *
  generalize f * n = fn at *
  generalize s * n = sn at *
  unfold InInt64 at hsn
  have hc : wrap64 P11 = 0 := by unfold wrap64; omega
  have hd : wrap64 (wrap64 P01 + wrap64 P10) = P01 + P10 := by unfold wrap64; omega
  have he : wrap64 P00 = P00 := by unfold wrap64; omega
  rw [hc, hd, he]
  have hdU : (P01 + P10) / 4294967296 = 0 := by omega
  have hdL : (P01 + P10) % 4294967296 = P01 + P10 := by omega
  rw [hdU, hdL]
  have hs : wrap64 (wrap64 sn + wrap64 (wrap64 (wrap64 (0 + 0) * 2) * -9223)) = sn := by
    unfold wrap64; omega
  have hfr : wrap64 (wrap64 ((P01 + P10) * 4294967296) + P00) = fn := by
    unfold wrap64; omega
  rw [hs, hfr, TimeIntervalImpl.Normalise_eq, tdiv_second, if_pos hfn0]
  congr 1
  unfold wrap64; omega

/-- The sum of `k` copies of a duration with a sub-second member in `[0, 10^15)`. -/
theorem repeated_sum_eq (s f : Int) (hf0 : 0 ≤ f) (hf1 : f < 1000000000000000) (k : Nat) :
    TimeInterval.repeated_sum ⟨s, f⟩ k =
      ⟨wrap64 ((k : Int) * s + (k : Int) * f / 1000000000000000),
        (k : Int) * f % 1000000000000000⟩ := by
  induction k with
  | zero => simp [TimeInterval.repeated_sum, Seconds_eq]
  | succ k ih =>
    have h1 : ((k + 1 : Nat) : Int) * s = (k : Int) * s + s := by push_cast; ring
    have h2 : ((k + 1 : Nat) : Int) * f = (k : Int) * f + f := by push_cast; ring
    have h3 : 0 ≤ (k : Int) * f := Int.mul_nonneg (Int.ofNat_nonneg k) hf0
    show TimeInterval.repeated_sum ⟨s, f⟩ k + ⟨s, f⟩ = _
    rw [ih, h1, h2, TimeIntervalImpl.add_def, TimeIntervalImpl.Normalise_eq, tdiv_second]
    simp only
    generalize (k : Int) * s = ks at *
    generalize (k : Int) * f = kf at *
    have hw : wrap64 (kf % 1000000000000000 + f) = kf % 1000000000000000 + f := by
      unfold wrap64; omega
    rw [hw, if_pos (by omega)]
    congr 1 <;> (unfold wrap64; omega)

/-- C12: for every duration `(s, f)` with `0 ≤ f < 10^15` and every integer `n ≥ 0` with
`f n < 2^63` and `s n` in the signed 64-bit range, `(s, f) * n` is bit for bit the pair
`(s n + floor(f n / 10^15), f n mod 10^15)` (the seconds reduced to 64 bits, which changes
nothing when that sum is itself in range), and this pair is also the sum of `n` copies of the
duration formed with `operator+`. -/
theorem C12_multiplication_small (s f n : Int) (hf0 : 0 ≤ f) (hf1 : f < 1000000000000000)
    (hn : 0 ≤ n) (hfn : f * n < 9223372036854775808) (hsn : InInt64 (s * n)) :
    (⟨s, f⟩ : TimeIntervalImpl) * n =
        ⟨wrap64 (s * n + f * n / 1000000000000000), f * n % 1000000000000000⟩ ∧
      (InInt64 (s * n + f * n / 1000000000000000) →
        (⟨s, f⟩ : TimeIntervalImpl) * n =
          ⟨s * n + f * n / 1000000000000000, f * n % 1000000000000000⟩) ∧
      (⟨s, f⟩ : TimeIntervalImpl) * n = TimeInterval.repeated_sum ⟨s, f⟩ n.toNat := by
  have hmul := TimeIntervalImpl.mul_small s f n hf0 hn hfn hsn
  refine ⟨hmul, ?_, ?_⟩
  · intro hin
    rw [hmul, wrap64_of_in hin]
  · rw [hmul, repeated_sum_eq s f hf0 hf1, Int.toNat_of_nonneg hn, Int.mul_comm n s,
      Int.mul_comm n f]

/-- C12 at the values of the unit test: `MilliSeconds(1) * 1001` is `Seconds(1) +
MilliSeconds(1)`, and that times 1001 is `Seconds(1001) + MilliSeconds(1001)`. -/
theorem C12_multiplication_small_witness :
    TimeInterval.MilliSeconds_1 * (1001 : Int)
        = TimeInterval.Seconds 1 + TimeInterval.MilliSeconds_1 ∧
      (TimeInterval.Seconds 1 + TimeInterval.MilliSeconds_1) * (1001 : Int)
        = TimeInterval.Seconds 1001 + TimeInterval.MilliSeconds_1001 := by
  have e1 : TimeInterval.MilliSeconds_1 = ⟨0, 1000000000000⟩ := by decide
  have e2 : TimeInterval.Seconds 1 + TimeInterval.MilliSeconds_1 = ⟨1, 1000000000000⟩ := by
    decide
  have h1 := (C12_multiplication_small 0 1000000000000 1001 (by decide) (by decide)
    (by decide) (by decide) (by decide)).1
  have h2 := (C12_multiplication_small 1 1000000000000 1001 (by decide) (by decide)
    (by decide) (by decide) (by decide)).1
  constructor
  · rw [e2, e1, h1]; decide
  · rw [e2, h2]; decide

/-- C11 fails on the code.  `MilliSeconds(1) * -1` is stored as 18446 s and `-10^12` fs, about
18446 seconds, where the exact product is minus one millisecond; `Seconds(0.5) * 20000` is
stored as -8446 s and -744073709551616 fs where the exact product is 10000 s.  Both exact
products have a whole-seconds part that fits 64 bits. -/
theorem C11_split_multiplication :
    TimeInterval.MilliSeconds_1 * (-1 : Int) = ⟨18446, -1000000000000⟩ ∧
      TimeIntervalImpl.femtoseconds (TimeInterval.MilliSeconds_1 * (-1 : Int))
        ≠ -1 * TimeIntervalImpl.femtoseconds TimeInterval.MilliSeconds_1 ∧
      TimeInterval.Seconds_half * (20000 : Int) = ⟨-8446, -744073709551616⟩ ∧
      TimeIntervalImpl.femtoseconds (TimeInterval.Seconds_half * (20000 : Int))
        ≠ 20000 * TimeIntervalImpl.femtoseconds TimeInterval.Seconds_half ∧
      20000 * TimeIntervalImpl.femtoseconds TimeInterval.Seconds_half
        = 10000 * Constants.kOneSecondInternal := by
  refine ⟨?_, ?_, ?_, ?_, ?_⟩ <;> decide

/-! ## Remainders and ticks -/

theorem TimeIntervalImpl.femtoseconds_RemainderMod (t m : TimeIntervalImpl) :
    (t.RemainderMod m).femtoseconds = t.femtoseconds % m.femtoseconds := by
  simp only [TimeIntervalImpl.RemainderMod, TimeIntervalImpl.femtoseconds, kOneSecondInternal_eq]
  omega

/-- C15: for every duration `t` and every positive duration `m` (in the representation
range), `r = t.RemainderMod m` represents a value in `[0, m)`: its sub-second member is in
`[0, 10^15)`, it is not below the zero duration and is below `m` for `operator<`, and
`t - r` is an integer multiple of `m` in represented femtoseconds. -/
theorem C15_remainder_mod (t m : TimeIntervalImpl) (hmv : m.Valid)
    (hm : 0 < m.femtoseconds) :
    0 ≤ (t.RemainderMod m).femtoseconds ∧
      (t.RemainderMod m).femtoseconds < m.femtoseconds ∧
      (∃ k : Int, t.femtoseconds - (t.RemainderMod m).femtoseconds = k * m.femtoseconds) ∧
      0 ≤ (t.RemainderMod m).mFractionalSeconds ∧
      (t.RemainderMod m).mFractionalSeconds < Constants.kOneSecondInternal ∧
      TimeIntervalImpl.lt (t.RemainderMod m) ⟨0, 0⟩ = false ∧
      TimeIntervalImpl.lt (t.RemainderMod m) m = true := by
  have hr := TimeIntervalImpl.femtoseconds_RemainderMod t m
  have h0 : 0 ≤ t.femtoseconds % m.femtoseconds := Int.emod_nonneg _ (by omega)
  have h1 : t.femtoseconds % m.femtoseconds < m.femtoseconds := Int.emod_lt_of_pos _ hm
  have hk : t.femtoseconds - t.femtoseconds % m.femtoseconds
      = (t.femtoseconds / m.femtoseconds) * m.femtoseconds := by
    have := Int.emod_add_ediv t.femtoseconds m.femtoseconds
    rw [Int.mul_comm] at this
    omega
  refine ⟨by rw [hr]; exact h0, by rw [hr]; exact h1, ⟨_, by rw [hr]; exact hk⟩, ?_, ?_, ?_, ?_⟩
  · simp only [TimeIntervalImpl.RemainderMod, kOneSecondInternal_eq]; omega
  · simp only [TimeIntervalImpl.RemainderMod, kOneSecondInternal_eq]; omega
  · cases hlt : TimeIntervalImpl.lt (t.RemainderMod m) ⟨0, 0⟩ with
    | false => rfl
    | true =>
      rw [TimeIntervalImpl.lt_iff] at hlt
      simp only [TimeIntervalImpl.RemainderMod, kOneSecondInternal_eq] at hlt
      generalize t.femtoseconds % m.femtoseconds = R at *
      omega
  · rw [TimeIntervalImpl.lt_iff]
    obtain ⟨_, hm1, hm2⟩ := hmv
    simp only [TimeIntervalImpl.femtoseconds, kOneSecondInternal_eq] at h1 hm1 hm2
    simp only [TimeIntervalImpl.RemainderMod, kOneSecondInternal_eq]
    simp only [TimeIntervalImpl.femtoseconds, kOneSecondInternal_eq] at h0 ⊢
    generalize (t.mSeconds * 1000000000000000 + t.mFractionalSeconds)
      % (m.mSeconds * 1000000000000000 + m.mFractionalSeconds) = R at *
    omega

/-- C15 at the values of the unit test: `t` is 2048 weeks, 4500 s, 23 ms and 100 ns, taken
modulo one week, one second, one millisecond and one nanosecond. -/
theorem C15_remainder_mod_witness :
    TimeIntervalImpl.lt
        (TimeIntervalImpl.RemainderMod
          (TimeInterval.Weeks 2048 + TimeInterval.Seconds 4500 + TimeInterval.MilliSeconds_23
            + TimeInterval.NanoSeconds_100) (TimeInterval.Weeks 1))
        (TimeInterval.Weeks 1) = true ∧
      TimeIntervalImpl.RemainderMod
          (TimeInterval.Weeks 2048 + TimeInterval.Seconds 4500 + TimeInterval.MilliSeconds_23
            + TimeInterval.NanoSeconds_100) (TimeInterval.Weeks 1)
        = TimeInterval.Seconds 4500 + TimeInterval.MilliSeconds_23
            + TimeInterval.NanoSeconds_100 ∧
      TimeIntervalImpl.RemainderMod
          (TimeInterval.Weeks 2048 + TimeInterval.Seconds 4500 + TimeInterval.MilliSeconds_23
            + TimeInterval.NanoSeconds_100) (TimeInterval.Seconds 1)
        = TimeInterval.MilliSeconds_23 + TimeInterval.NanoSeconds_100 ∧
      TimeIntervalImpl.RemainderMod
          (TimeInterval.Weeks 2048 + TimeInterval.Seconds 4500 + TimeInterval.MilliSeconds_23
            + TimeInterval.NanoSeconds_100) TimeInterval.MilliSeconds_1
        = TimeInterval.NanoSeconds_100 ∧
      TimeIntervalImpl.RemainderMod
          (TimeInterval.Weeks 2048 + TimeInterval.Seconds 4500 + TimeInterval.MilliSeconds_23
            + TimeInterval.NanoSeconds_100) TimeInterval.NanoSeconds_1
        = TimeInterval.Seconds 0 :=
  ⟨(C15_remainder_mod
      (TimeInterval.Weeks 2048 + TimeInterval.Seconds 4500 + TimeInterval.MilliSeconds_23
        + TimeInterval.NanoSeconds_100) (TimeInterval.Weeks 1) (by decide) (by decide)).2.2.2.2.2.2,
    by decide, by decide, by decide, by decide⟩

/-- C17 as stated fails in its week count: for the rate 1 and `k = 2^31 * 604800` seconds,
which is below `2^53`, `Ticks` gives exactly `(k, 0)`, the floor of `k / 604800` is `2^31`, and
`AsWeeks`, whose return type is `int`, gives `-2^31`. -/
theorem C17_ticks_whole_seconds_counterexample :
    (1298798110310400 : Int) < 9007199254740992 ∧
      TimeInterval.Ticks (1298798110310400 * 1) 1 0 0 = ⟨1298798110310400, 0⟩ ∧
      (1298798110310400 : Int) / 604800 = 2147483648 ∧
      (TimeInterval.Ticks (1298798110310400 * 1) 1 0 0).AsWeeks = -2147483648 := by
  refine ⟨?_, ?_, ?_, ?_⟩ <;> decide

/-- C17, amended: for every positive integer tick rate `r` and every whole number of seconds
`0 ≤ k < 2^53`, the remainder of the tick count `k r` by `r` is zero and
`Ticks (k r) r` is bit for bit the duration `(k, 0)`; when moreover `k < 2^31 * 604800`, its
`AsWeeks` is the floor of `k / 604800`. -/
theorem C17_ticks_whole_seconds_amended (r k : Int) (hr : 0 < r) (hk : 0 ≤ k)
    (hk53 : k < 9007199254740992) :
    Int.tmod (k * r) r = 0 ∧
      TimeInterval.Ticks (k * r) r 0 0 = ⟨k, 0⟩ ∧
      (k < 2147483648 * 604800 →
        (TimeInterval.Ticks (k * r) r 0 0).AsWeeks = k / 604800) := by
  have hq : Int.tdiv (k * r) r = k := Int.mul_tdiv_cancel k (by omega)
  have ht : TimeInterval.Ticks (k * r) r 0 0 = ⟨k, 0⟩ := by
    simp only [TimeInterval.Ticks, hq]
    have hz : TimeIntervalImpl.ctor 0 0 0 0 = ⟨0, 0⟩ := by decide
    rw [hz, Seconds_eq, TimeIntervalImpl.add_whole _ _ (TimeIntervalImpl.valid_mk_wrap _ _
      (by decide) (by decide))]
    simp only
    congr 1
    unfold wrap64; omega
  refine ⟨Int.mul_tmod_left k r, ht, ?_⟩
  intro hfit
  rw [ht]
  simp only [TimeIntervalImpl.AsWeeks, kSecondsPerWeek_eq]
  rw [tdiv_week, if_pos hk]
  unfold wrap32; omega

/-- C17 (amended) at the values of the unit test: 40 MHz and 51 weeks of seconds. -/
theorem C17_ticks_whole_seconds_amended_witness :
    TimeInterval.Ticks (30844800 * 40000000) 40000000 0 0 = ⟨30844800, 0⟩ ∧
      (TimeInterval.Ticks (30844800 * 40000000) 40000000 0 0).AsWeeks = 51 := by
  have h := C17_ticks_whole_seconds_amended 40000000 30844800 (by decide) (by decide)
    (by decide)
  exact ⟨h.2.1, by rw [h.2.2 (by decide)]; decide⟩

/-! ## Ordering of instants and clock identifiers -/

/-- C21 fails on the code: ordering two instants with different clocks raises nothing.  For
5 s on the GPS system clock and 7 s on the Galileo system clock `<` and `>` return false and
`<=` and `>=` return true; and so it is for every pair of instants whose `ClockID`s differ. -/
theorem C21_instant_ordering :
    TimePoint.lt (TimePoint.MakeGnss GnssSystem.kGps (TimeInterval.Seconds 5))
        (TimePoint.MakeGnss GnssSystem.kGalileo (TimeInterval.Seconds 7)) = false ∧
      TimePoint.gt (TimePoint.MakeGnss GnssSystem.kGps (TimeInterval.Seconds 5))
        (TimePoint.MakeGnss GnssSystem.kGalileo (TimeInterval.Seconds 7)) = false ∧
      TimePoint.le (TimePoint.MakeGnss GnssSystem.kGps (TimeInterval.Seconds 5))
        (TimePoint.MakeGnss GnssSystem.kGalileo (TimeInterval.Seconds 7)) = true ∧
      TimePoint.ge (TimePoint.MakeGnss GnssSystem.kGps (TimeInterval.Seconds 5))
        (TimePoint.MakeGnss GnssSystem.kGalileo (TimeInterval.Seconds 7)) = true ∧
      (∀ a b : TimePoint, a.mClockID ≠ b.mClockID →
        TimePoint.lt a b = false ∧ TimePoint.gt a b = false ∧
          TimePoint.le a b = true ∧ TimePoint.ge a b = true) := by
  refine ⟨by decide, by decide, by decide, by decide, ?_⟩
  intro a b h
  have h2 : b.mClockID ≠ a.mClockID := fun e => h e.symm
  simp [TimePoint.lt, TimePoint.gt, TimePoint.le, TimePoint.ge, h, h2]

/-- C22: for every `ClockID`, `KeepsLeapSeconds` is true exactly when the system is UTC, Unix,
NTP or GLONASS, false exactly when it is GPS, Galileo, BeiDou, QZSS, IRNSS, SBAS, TAI or
Receiver, and it does not depend on the instance id. -/
theorem C22_keeps_leap_seconds (c : ClockID) :
    (c.KeepsLeapSeconds = true ↔
        (c.d_sys = eClockSystem.kUTC ∨ c.d_sys = eClockSystem.kUnix ∨
          c.d_sys = eClockSystem.kNTP ∨ c.d_sys = eClockSystem.kGlonass)) ∧
      (c.KeepsLeapSeconds = false ↔
        (c.d_sys = eClockSystem.kGps ∨ c.d_sys = eClockSystem.kGalileo ∨
          c.d_sys = eClockSystem.kBeiDou ∨ c.d_sys = eClockSystem.kQzss ∨
          c.d_sys = eClockSystem.kIrnss ∨ c.d_sys = eClockSystem.kSbas ∨
          c.d_sys = eClockSystem.kTAI ∨ c.d_sys = eClockSystem.kReceiver)) ∧
      (∀ id : Nat, (⟨c.d_sys, id⟩ : ClockID).KeepsLeapSeconds = c.KeepsLeapSeconds) := by
  obtain ⟨sys, id⟩ := c
  refine ⟨?_, ?_, ?_⟩
  · cases sys <;> simp [ClockID.KeepsLeapSeconds]
  · cases sys <;> simp [ClockID.KeepsLeapSeconds]
  · intro id2
    cases sys <;> rfl

/-- C23: for each of the seven GNSS systems and every instance id, `MakeGnss` gives the
clock system of that constellation with that id, distinct constellations give incompatible
`ClockID`s (the same constellation compatible ones), and `IsGnss` is true; for the `ClockID`s
of the UTC, Unix, NTP, TAI and receiver factories `IsGnss` is false. -/
theorem C23_gnss_clock_ids (id : Nat) :
    (ClockID.MakeGnss GnssSystem.kBeiDou id = ⟨eClockSystem.kBeiDou, id⟩ ∧
        ClockID.MakeGnss GnssSystem.kGalileo id = ⟨eClockSystem.kGalileo, id⟩ ∧
        ClockID.MakeGnss GnssSystem.kGps id = ⟨eClockSystem.kGps, id⟩ ∧
        ClockID.MakeGnss GnssSystem.kIrnss id = ⟨eClockSystem.kIrnss, id⟩ ∧
        ClockID.MakeGnss GnssSystem.kQzss id = ⟨eClockSystem.kQzss, id⟩ ∧
        ClockID.MakeGnss GnssSystem.kGlonass id = ⟨eClockSystem.kGlonass, id⟩ ∧
        ClockID.MakeGnss GnssSystem.kSbas id = ⟨eClockSystem.kSbas, id⟩) ∧
      (∀ (s t : GnssSystem) (id2 : Nat),
        (ClockID.MakeGnss s id).IsCompatibleWith (ClockID.MakeGnss t id2) = true ↔ s = t) ∧
      (∀ s : GnssSystem, (ClockID.MakeGnss s id).IsGnss = true) ∧
      (ClockID.MakeUTC id).IsGnss = false ∧
      (ClockID.MakeUnix id).IsGnss = false ∧
      (ClockID.MakeNTP id).IsGnss = false ∧
      (ClockID.MakeTAI id).IsGnss = false ∧
      (ClockID.MakeReceiver id).IsGnss = false := by
  refine ⟨⟨rfl, rfl, rfl, rfl, rfl, rfl, rfl⟩, ?_, ?_, rfl, rfl, rfl, rfl, rfl⟩
  · intro s t id2
    cases s <;> cases t <;> simp [ClockID.MakeGnss, ClockID.IsCompatibleWith]
  · intro s
    cases s <;> rfl

/-! ## The tables of a fresh converter -/

/-- C24: the leap table of a freshly constructed converter has exactly 28 entries; from the
oldest to the newest their epochs are the 28 values of `leap_epochs` (2272060800 s to
3692217600 s, zero sub-second) and the entry number `i` carries the count `10 + i`; the
newest entry is (3692217600 s, 37). -/
theorem C24_fresh_leap_table :
    TimeConverterImpl.new.d_leap_second_table.length = 28 ∧
      TimeConverterImpl.new.d_leap_second_table.reverse =
        (TimeConverterImpl.leap_epochs.enum.map
          (fun p => (⟨⟨p.2, 0⟩, 10 + (p.1 : Int)⟩ : leap_second_entry_t))) ∧
      TimeConverterImpl.leap_epochs.head? = some 2272060800 ∧
      TimeConverterImpl.leap_epochs.getLast? = some 3692217600 ∧
      TimeConverterImpl.new.d_leap_second_table.head? = some ⟨⟨3692217600, 0⟩, 37⟩ := by
  refine ⟨?_, ?_, ?_, ?_, ?_⟩ <;> decide

/-- C25: the epoch-offset table of a freshly constructed converter holds, in whole seconds
from the NTP epoch with zero sub-second: GPS 2524953619, Galileo 3144268819 (GPS plus 1024
weeks), GLONASS 2524953619, BeiDou 3345062433, Unix and UTC 2208988800, NTP 0 and TAI 0, each
on the system clock; and it has no entry for any receiver clock. -/
theorem C25_fresh_offset_table :
    TimeConverterImpl.new.d_epoch_offset_table =
        [ ⟨ClockID.MakeGnss GnssSystem.kGps ClockID.kSystemClockID, ⟨2524953619, 0⟩⟩,
          ⟨ClockID.MakeGnss GnssSystem.kGalileo ClockID.kSystemClockID, ⟨3144268819, 0⟩⟩,
          ⟨ClockID.MakeGnss GnssSystem.kGlonass ClockID.kSystemClockID, ⟨2524953619, 0⟩⟩,
          ⟨ClockID.MakeGnss GnssSystem.kBeiDou ClockID.kSystemClockID, ⟨3345062433, 0⟩⟩,
          ⟨ClockID.MakeUnix ClockID.kSystemClockID, ⟨2208988800, 0⟩⟩,
          ⟨ClockID.MakeUTC ClockID.kSystemClockID, ⟨2208988800, 0⟩⟩,
          ⟨ClockID.MakeNTP ClockID.kSystemClockID, ⟨0, 0⟩⟩,
          ⟨ClockID.MakeTAI ClockID.kSystemClockID, ⟨0, 0⟩⟩ ] ∧
      (⟨2524953619, 0⟩ : TimeInterval) + TimeInterval.Weeks 1024 = ⟨3144268819, 0⟩ ∧
      (∀ v ∈ TimeConverterImpl.new.d_epoch_offset_table,
        v.sys.d_sys ≠ eClockSystem.kReceiver) ∧
      (∀ rx_id : Nat,
        TimeConverterImpl.new.find_offset (ClockID.MakeReceiver rx_id) = none) := by
  refine ⟨?_, by decide, ?_, TimeConverterImpl.new_find_receiver⟩
  · rw [TimeConverterImpl.new_offsets, TimeConverterImpl.initial_table_eq]
    decide
  · intro v hv
    rw [TimeConverterImpl.new_offsets] at hv
    exact (TimeConverterImpl.initial_entry_spec hv).1

/-! ## Queries around the entries of the leap table -/

/-- In a descending table, a query that is not later than the last (earliest) entry is not
later than any entry. -/
theorem not_later_of_last (l : List leap_second_entry_t)
    (hp : l.Pairwise (fun a b => TimeIntervalImpl.lt b.ntp_epoch a.ntp_epoch = true))
    (q : TimeInterval)
    (h : ∀ last, l.getLast? = some last → TimeIntervalImpl.lt last.ntp_epoch q = false) :
    ∀ v ∈ l, TimeIntervalImpl.lt v.ntp_epoch q = false := by
  induction l with
  | nil => intro v hv; cases hv
  | cons x rest ih =>
    cases rest with
    | nil =>
      intro v hv
      rw [List.mem_singleton] at hv
      rw [hv]
      exact h x rfl
    | cons y rest2 =>
      have hrest := ih (List.pairwise_cons.1 hp).2
        (fun last hl => h last (by rw [List.getLast?_cons_cons]; exact hl))
      intro v hv
      rw [List.mem_cons] at hv
      rcases hv with hv | hv
      · rw [hv]
        cases hx : TimeIntervalImpl.lt x.ntp_epoch q with
        | false => rfl
        | true =>
          have hyx := (List.pairwise_cons.1 hp).1 y (List.mem_cons_self _ _)
          have hy := hrest y (List.mem_cons_self _ _)
          rw [TimeIntervalImpl.lt_trans hyx hx] at hy
          cases hy
      · exact hrest v hv

/-- C26: in every reachable converter, for an input instant (stored duration in range) and an
output clock that both have epoch-offset entries `a` and `b` and of which exactly one keeps
leap seconds: when the projection `in.since_epoch + offset(in.clock)` is not later than the
epoch of the earliest (last stored) leap entry, no leap entry is selected, `Convert` succeeds
and returns `in.since_epoch + (offset(in.clock) - offset(out))` on the output clock, with no
leap count added or subtracted; the represented value is `in + offset(in) - offset(out)`, up
to the 64-bit wrap of the seconds member. -/
theorem C26_before_earliest_leap (c : TimeConverterImpl) (hc : Reachable c) (inp : TimePoint)
    (out_clock : ClockID) (a b : epoch_offset_entry_t) (hv : inp.mTimeSinceEpoch.Valid)
    (hi : c.find_offset inp.mClockID = some a) (ho : c.find_offset out_clock = some b)
    (hk : inp.mClockID.KeepsLeapSeconds ≠ out_clock.KeepsLeapSeconds)
    (hq : ∀ last, c.d_leap_second_table.getLast? = some last →
      TimeIntervalImpl.lt last.ntp_epoch (inp.mTimeSinceEpoch + a.offset) = false) :
    c.find_leap (inp.mTimeSinceEpoch + a.offset) = none ∧
      c.Convert inp out_clock =
        (true, ⟨inp.mTimeSinceEpoch + (a.offset - b.offset), out_clock⟩) ∧
      (TimeIntervalImpl.femtoseconds (c.Convert inp out_clock).2.mTimeSinceEpoch -
          (TimeIntervalImpl.femtoseconds inp.mTimeSinceEpoch
            + TimeIntervalImpl.femtoseconds a.offset - TimeIntervalImpl.femtoseconds b.offset))
        % 18446744073709551616000000000000000 = 0 := by
  have inv := hc.offsets_inv
  have hnone : c.find_leap (inp.mTimeSinceEpoch + a.offset) = none := by
    unfold TimeConverterImpl.find_leap
    rw [List.find?_eq_none]
    intro v hvm
    rw [not_later_of_last _ hc.descending _ hq v hvm]
    exact Bool.false_ne_true
  have hconv := TimeConverterImpl.Convert_leap c inv inp out_clock a b hv hi ho hk
  rw [hnone] at hconv
  refine ⟨hnone, hconv, ?_⟩
  rw [hconv]
  have hva := TimeConverterImpl.find_offset_valid c inv _ a hi
  have hvb := TimeConverterImpl.find_offset_valid c inv _ b ho
  have h1 := TimeIntervalImpl.femtoseconds_sub a.offset b.offset hva hvb
  have h2 := TimeIntervalImpl.femtoseconds_add inp.mTimeSinceEpoch (a.offset - b.offset) hv
    (TimeIntervalImpl.sub_valid _ _)
  simp only
  omega

/-- C26 at the fresh converter: the UTC zero instant projects to 2208988800 s, before the
earliest leap entry (2272060800 s), and converts to GPS time by the epoch shift alone. -/
theorem C26_before_earliest_leap_witness :
    TimeConverterImpl.new.Convert ⟨TimeInterval.Seconds 0, ClockID.MakeUTC ClockID.kSystemClockID⟩
        (ClockID.MakeGnss GnssSystem.kGps ClockID.kSystemClockID)
      = (true, ⟨TimeInterval.Seconds 0 + ((⟨2208988800, 0⟩ : TimeInterval) - ⟨2524953619, 0⟩),
          ClockID.MakeGnss GnssSystem.kGps ClockID.kSystemClockID⟩) :=
  (C26_before_earliest_leap TimeConverterImpl.new Reachable.ctor
    ⟨TimeInterval.Seconds 0, ClockID.MakeUTC ClockID.kSystemClockID⟩
    (ClockID.MakeGnss GnssSystem.kGps ClockID.kSystemClockID)
    ⟨ClockID.MakeUTC ClockID.kSystemClockID, ⟨2208988800, 0⟩⟩
    ⟨ClockID.MakeGnss GnssSystem.kGps ClockID.kSystemClockID, ⟨2524953619, 0⟩⟩
    (by decide)
    (TimeConverterImpl.find_offset_utc _ TimeConverterImpl.new_offsets_inv)
    (TimeConverterImpl.find_offset_gps _ TimeConverterImpl.new_offsets_inv)
    (by decide)
    (fun last hl => by
      have h2 : TimeConverterImpl.new.d_leap_second_table.getLast?
          = some ⟨⟨2272060800, 0⟩, 10⟩ := by decide
      rw [h2] at hl
      cases hl
      decide)).2.1

/-- In a descending table the lookup of `Convert` returns the entry `e0` that follows `e1`
when `e0` is earlier than the query and `e1` is not. -/
theorem find_leap_between (pre post : List leap_second_entry_t) (e1 e0 : leap_second_entry_t)
    (hp : (pre ++ e1 :: e0 :: post).Pairwise
      (fun a b => TimeIntervalImpl.lt b.ntp_epoch a.ntp_epoch = true))
    (q : TimeInterval) (h0 : TimeIntervalImpl.lt e0.ntp_epoch q = true)
    (h1 : TimeIntervalImpl.lt e1.ntp_epoch q = false) :
    (pre ++ e1 :: e0 :: post).find? (fun v => TimeIntervalImpl.lt v.ntp_epoch q) = some e0 := by
  have hpre : pre.find? (fun v => TimeIntervalImpl.lt v.ntp_epoch q) = none := by
    rw [List.find?_eq_none]
    intro v hv hlt
    have hev := (List.pairwise_append.1 hp).2.2 v hv e1 (List.mem_cons_self _ _)
    rw [TimeIntervalImpl.lt_trans hev hlt] at h1
    cases h1
  rw [List.find?_append, hpre]
  simp [List.find?_cons, h0, h1]

/-- The shift a conversion applies, read back by subtracting the input: whole seconds. -/
theorem shift_read_back (x : TimeIntervalImpl) (D L : Int) (hv : x.Valid) :
    (x + (⟨D, 0⟩ : TimeIntervalImpl) - TimeInterval.Seconds L) - x = ⟨wrap64 (D - L), 0⟩ := by
  have hv2 := hv
  obtain ⟨h0, h1, h2⟩ := hv2
  rw [TimeIntervalImpl.add_whole x D hv, Seconds_eq,
    TimeIntervalImpl.sub_whole _ _ (TimeIntervalImpl.valid_mk_wrap _ _ h1 h2),
    TimeIntervalImpl.sub_def]
  simp only [Int.sub_self]
  rw [TimeIntervalImpl.Normalise_small _ _ (by unfold wrap64; omega) (by unfold wrap64; omega)]
  unfold InInt64 at h0
  congr 1
  · unfold wrap64; omega

/-- The counts of the fresh leap table go down by one from each entry to the next. -/
theorem new_leap_table_eq :
    TimeConverterImpl.new.d_leap_second_table =
      [⟨⟨3692217600, 0⟩, 37⟩, ⟨⟨3644697600, 0⟩, 36⟩, ⟨⟨3550089600, 0⟩, 35⟩,
       ⟨⟨3439756800, 0⟩, 34⟩, ⟨⟨3345062400, 0⟩, 33⟩, ⟨⟨3124137600, 0⟩, 32⟩,
       ⟨⟨3076704000, 0⟩, 31⟩, ⟨⟨3029443200, 0⟩, 30⟩, ⟨⟨2982009600, 0⟩, 29⟩,
       ⟨⟨2950473600, 0⟩, 28⟩, ⟨⟨2918937600, 0⟩, 27⟩, ⟨⟨2871676800, 0⟩, 26⟩,
       ⟨⟨2840140800, 0⟩, 25⟩, ⟨⟨2776982400, 0⟩, 24⟩, ⟨⟨2698012800, 0⟩, 23⟩,
       ⟨⟨2634854400, 0⟩, 22⟩, ⟨⟨2603318400, 0⟩, 21⟩, ⟨⟨2571782400, 0⟩, 20⟩,
       ⟨⟨2524521600, 0⟩, 19⟩, ⟨⟨2492985600, 0⟩, 18⟩, ⟨⟨2461449600, 0⟩, 17⟩,
       ⟨⟨2429913600, 0⟩, 16⟩, ⟨⟨2398291200, 0⟩, 15⟩, ⟨⟨2366755200, 0⟩, 14⟩,
       ⟨⟨2335219200, 0⟩, 13⟩, ⟨⟨2303683200, 0⟩, 12⟩, ⟨⟨2287785600, 0⟩, 11⟩,
       ⟨⟨2272060800, 0⟩, 10⟩] := by
  decide

theorem new_counts_chain :
    TimeConverterImpl.new.d_leap_second_table.Chain'
      (fun a b => a.num_leap_seconds = b.num_leap_seconds + 1) := by
  rw [new_leap_table_eq]
  simp [List.chain'_cons]

theorem gps_epoch_offset_eq : TimeConverterImpl.gps_epoch_offset = ⟨2524953619, 0⟩ := by decide

/-- C27: in a freshly constructed converter, let `e2`, `e1`, `e0` be three entries that follow
one another in the leap table (stored newest first, so their epochs are `E_k+1`, `E_k`,
`E_k-1`), and let `x1`, `x2` be two durations in range whose projections
`q = x + gps_epoch_offset` satisfy `E_k-1 < q1`, not `E_k < q1`, `E_k < q2`, not `E_k+1 < q2`.
Then both GPS instants convert to UTC, and the shift read back from the second,
`convert(x2).since_epoch - x2`, equals the shift read back from the first minus
`Seconds(1)`. -/
theorem C27_shift_across_leap (pre post : List leap_second_entry_t)
    (e2 e1 e0 : leap_second_entry_t) (x1 x2 : TimeInterval)
    (htab : TimeConverterImpl.new.d_leap_second_table = pre ++ e2 :: e1 :: e0 :: post)
    (hv1 : x1.Valid) (hv2 : x2.Valid)
    (h0 : TimeIntervalImpl.lt e0.ntp_epoch (x1 + TimeConverterImpl.gps_epoch_offset) = true)
    (h1 : TimeIntervalImpl.lt e1.ntp_epoch (x1 + TimeConverterImpl.gps_epoch_offset) = false)
    (h2 : TimeIntervalImpl.lt e1.ntp_epoch (x2 + TimeConverterImpl.gps_epoch_offset) = true)
    (h3 : TimeIntervalImpl.lt e2.ntp_epoch (x2 + TimeConverterImpl.gps_epoch_offset) = false) :
    (TimeConverterImpl.new.Convert (TimePoint.MakeGnss GnssSystem.kGps x1)
        (ClockID.MakeUTC ClockID.kSystemClockID)).1 = true ∧
      (TimeConverterImpl.new.Convert (TimePoint.MakeGnss GnssSystem.kGps x2)
        (ClockID.MakeUTC ClockID.kSystemClockID)).1 = true ∧
      (TimeConverterImpl.new.Convert (TimePoint.MakeGnss GnssSystem.kGps x2)
          (ClockID.MakeUTC ClockID.kSystemClockID)).2.mTimeSinceEpoch - x2
        = ((TimeConverterImpl.new.Convert (TimePoint.MakeGnss GnssSystem.kGps x1)
            (ClockID.MakeUTC ClockID.kSystemClockID)).2.mTimeSinceEpoch - x1)
          - TimeInterval.Seconds 1 := by
  have inv := TimeConverterImpl.new_offsets_inv
  have hdesc := TimeConverterImpl.new_descending
  unfold LeapsDescending at hdesc
  rw [htab] at hdesc
  have hchain := new_counts_chain
  rw [htab, List.chain'_split, List.chain'_cons, List.chain'_cons] at hchain
  have hcount : e1.num_leap_seconds = e0.num_leap_seconds + 1 := hchain.2.2.1
  rw [gps_epoch_offset_eq] at h0 h1 h2 h3
  have hf1 : TimeConverterImpl.new.find_leap (x1 + (⟨2524953619, 0⟩ : TimeInterval))
      = some e0 := by
    unfold TimeConverterImpl.find_leap
    rw [htab]
    have h := find_leap_between (pre ++ [e2]) post e1 e0
      (by rw [List.append_assoc]; exact hdesc) _ h0 h1
    rw [List.append_assoc] at h
    exact h
  have hf2 : TimeConverterImpl.new.find_leap (x2 + (⟨2524953619, 0⟩ : TimeInterval))
      = some e1 := by
    unfold TimeConverterImpl.find_leap
    rw [htab]
    exact find_leap_between pre (e0 :: post) e2 e1 hdesc _ h2 h3
  have hk : (ClockID.MakeGnss GnssSystem.kGps ClockID.kSystemClockID).KeepsLeapSeconds ≠
      (ClockID.MakeUTC ClockID.kSystemClockID).KeepsLeapSeconds := by decide
  have hc1 := TimeConverterImpl.Convert_leap TimeConverterImpl.new inv
    (TimePoint.MakeGnss GnssSystem.kGps x1) (ClockID.MakeUTC ClockID.kSystemClockID)
    ⟨ClockID.MakeGnss GnssSystem.kGps ClockID.kSystemClockID, ⟨2524953619, 0⟩⟩
    ⟨ClockID.MakeUTC ClockID.kSystemClockID, ⟨2208988800, 0⟩⟩ hv1
    (TimeConverterImpl.find_offset_gps _ inv) (TimeConverterImpl.find_offset_utc _ inv) hk
  have hc2 := TimeConverterImpl.Convert_leap TimeConverterImpl.new inv
    (TimePoint.MakeGnss GnssSystem.kGps x2) (ClockID.MakeUTC ClockID.kSystemClockID)
    ⟨ClockID.MakeGnss GnssSystem.kGps ClockID.kSystemClockID, ⟨2524953619, 0⟩⟩
    ⟨ClockID.MakeUTC ClockID.kSystemClockID, ⟨2208988800, 0⟩⟩ hv2
    (TimeConverterImpl.find_offset_gps _ inv) (TimeConverterImpl.find_offset_utc _ inv) hk
  have hAB : ((⟨2524953619, 0⟩ : TimeIntervalImpl) - ⟨2208988800, 0⟩) = ⟨315964819, 0⟩ := by
    decide
  have hutc : (ClockID.MakeUTC ClockID.kSystemClockID).KeepsLeapSeconds = true := by decide
  simp only [TimePoint.MakeGnss, hf1, hf2, hAB, hutc, if_true] at hc1 hc2
  simp only [TimePoint.MakeGnss]
  rw [hc1, hc2]
  refine ⟨rfl, rfl, ?_⟩
  simp only
  rw [shift_read_back x2 _ _ hv2, shift_read_back x1 _ _ hv1, hcount, Seconds_eq,
    TimeIntervalImpl.sub_whole _ _
      (TimeIntervalImpl.valid_mk_wrap (315964819 - e0.num_leap_seconds) 0
        (by decide) (by decide))]
  simp only
  congr 1
  unfold wrap64; omega

/-- C27 around the entry of 3644697600 s (count 36): the GPS instants 1119743981 s and
1119743982 s project to that epoch and to one second after it; the shifts read back are
315964784 s and 315964783 s. -/
theorem C27_shift_across_leap_witness :
    (TimeConverterImpl.new.Convert
        (TimePoint.MakeGnss GnssSystem.kGps (TimeInterval.Seconds 1119743982))
        (ClockID.MakeUTC ClockID.kSystemClockID)).2.mTimeSinceEpoch
          - TimeInterval.Seconds 1119743982
      = ((TimeConverterImpl.new.Convert
          (TimePoint.MakeGnss GnssSystem.kGps (TimeInterval.Seconds 1119743981))
          (ClockID.MakeUTC ClockID.kSystemClockID)).2.mTimeSinceEpoch
            - TimeInterval.Seconds 1119743981)
        - TimeInterval.Seconds 1 :=
  (C27_shift_across_leap [] (TimeConverterImpl.new.d_leap_second_table.drop 3)
    ⟨⟨3692217600, 0⟩, 37⟩ ⟨⟨3644697600, 0⟩, 36⟩ ⟨⟨3550089600, 0⟩, 35⟩
    (TimeInterval.Seconds 1119743981) (TimeInterval.Seconds 1119743982)
    (by decide) (by decide) (by decide) (by decide) (by decide) (by decide) (by decide)).2.2

/-! ## The frame of `SetReceiverEpoch` -/

namespace TimeConverterImpl

theorem map_sys_assign_first (sys : ClockID) (e : epoch_offset_entry_t) (he : e.sys = sys)
    (l : List epoch_offset_entry_t) :
    (assign_first sys e l).map (fun v => v.sys) = l.map (fun v => v.sys) := by
  induction l with
  | nil => rfl
  | cons v rest ih =>
    by_cases hv : v.sys = sys
    · simp [assign_first, hv, he]
    · simp only [assign_first, if_neg hv, List.map_cons, ih]

theorem length_assign_first (sys : ClockID) (e : epoch_offset_entry_t)
    (l : List epoch_offset_entry_t) : (assign_first sys e l).length = l.length := by
  induction l with
  | nil => rfl
  | cons v rest ih =>
    by_cases hv : v.sys = sys
    · simp [assign_first, hv]
    · simp only [assign_first, if_neg hv, List.length_cons, ih]

theorem filter_assign_first (sys : ClockID) (e : epoch_offset_entry_t) (he : e.sys = sys)
    (l : List epoch_offset_entry_t) :
    (assign_first sys e l).filter (fun v => decide (v.sys ≠ sys)) =
      l.filter (fun v => decide (v.sys ≠ sys)) := by
  induction l with
  | nil => rfl
  | cons v rest ih =>
    by_cases hv : v.sys = sys
    · simp [assign_first, hv, he, List.filter_cons]
    · simp only [assign_first, if_neg hv, List.filter_cons, ih]

/-- The entries of the other clocks, in their order, are the same after `SetReceiverEpoch`. -/
theorem filter_set_other (c : TimeConverterImpl) (rx_id : Nat) (epoch : TimePoint) :
    (c.SetReceiverEpoch rx_id epoch).d_epoch_offset_table.filter
        (fun v => decide (v.sys ≠ ClockID.MakeReceiver rx_id)) =
      c.d_epoch_offset_table.filter (fun v => decide (v.sys ≠ ClockID.MakeReceiver rx_id)) := by
  unfold SetReceiverEpoch
  simp only []
  split
  · split
    · simp [List.filter_append, List.filter_cons]
    · exact filter_assign_first (ClockID.MakeReceiver rx_id) ⟨ClockID.MakeReceiver rx_id, _⟩ rfl _
  · rfl

theorem SetReceiverEpoch_keys (c : TimeConverterImpl) (rx_id : Nat) (epoch : TimePoint)
    (hc : KeysNodup c) : KeysNodup (c.SetReceiverEpoch rx_id epoch) := by
  unfold KeysNodup at hc ⊢
  unfold SetReceiverEpoch
  simp only []
  split
  · split
    · rename_i hnone
      simp only [find_offset] at hnone
      rw [List.find?_eq_none] at hnone
      rw [List.map_append, List.nodup_append]
      refine ⟨hc, by simp, ?_⟩
      intro a ha hb
      rw [List.map_cons, List.map_nil, List.mem_singleton] at hb
      rw [List.mem_map] at ha
      obtain ⟨v, hv, hva⟩ := ha
      apply hnone v hv
      simp only [decide_eq_true_eq]
      rw [hva, hb]
    · show (List.map (fun v => v.sys) (assign_first (ClockID.MakeReceiver rx_id)
        ⟨ClockID.MakeReceiver rx_id, _⟩ c.d_epoch_offset_table)).Nodup
      rw [map_sys_assign_first (ClockID.MakeReceiver rx_id) ⟨ClockID.MakeReceiver rx_id, _⟩ rfl]
      exact hc
  · exact hc

theorem new_keys : KeysNodup TimeConverterImpl.new := by
  unfold KeysNodup
  rw [new_offsets]
  decide

/-- With no clock listed twice, the entries of the clock of a listed entry are that entry
alone. -/
theorem filter_key_singleton (l : List epoch_offset_entry_t)
    (hn : (l.map (fun v => v.sys)).Nodup) (e : epoch_offset_entry_t) (he : e ∈ l) :
    l.filter (fun v => decide (v.sys = e.sys)) = [e] := by
  induction l with
  | nil => cases he
  | cons x rest ih =>
    rw [List.map_cons, List.nodup_cons] at hn
    rw [List.mem_cons] at he
    rcases he with he | he
    · subst he
      have hrest : rest.filter (fun v => decide (v.sys = e.sys)) = [] := by
        rw [List.filter_eq_nil_iff]
        intro v hv hs
        apply hn.1
        rw [List.mem_map]
        exact ⟨v, hv, by simpa using hs⟩
      simp [List.filter_cons, hrest]
    · have hx : ¬ x.sys = e.sys := by
        intro hs
        apply hn.1
        rw [List.mem_map]
        exact ⟨e, he, hs.symm⟩
      simp only [List.filter_cons, hx, decide_False]
      exact ih hn.2 he

/-- After a successful `SetReceiverEpoch` the table has one entry for the receiver clock. -/
theorem filter_set_same (c : TimeConverterImpl) (hc : KeysNodup c) (rx_id : Nat)
    (epoch : TimePoint)
    (h : (c.Convert epoch (ClockID.MakeTAI ClockID.kSystemClockID)).1 = true) :
    (c.SetReceiverEpoch rx_id epoch).d_epoch_offset_table.filter
        (fun v => decide (v.sys = ClockID.MakeReceiver rx_id)) =
      [⟨ClockID.MakeReceiver rx_id,
        (c.Convert epoch (ClockID.MakeTAI ClockID.kSystemClockID)).2.mTimeSinceEpoch⟩] := by
  have hfind := find_offset_set_same c rx_id epoch h
  unfold find_offset at hfind
  exact filter_key_singleton _ (SetReceiverEpoch_keys c rx_id epoch hc)
    ⟨ClockID.MakeReceiver rx_id,
      (c.Convert epoch (ClockID.MakeTAI ClockID.kSystemClockID)).2.mTimeSinceEpoch⟩
    (List.mem_of_find?_eq_some hfind)

/-- When the receiver clock has an entry, `SetReceiverEpoch` keeps the length of the table. -/
theorem length_set_of_some (c : TimeConverterImpl) (rx_id : Nat) (epoch : TimePoint)
    (w : epoch_offset_entry_t) (hw : c.find_offset (ClockID.MakeReceiver rx_id) = some w) :
    (c.SetReceiverEpoch rx_id epoch).d_epoch_offset_table.length =
      c.d_epoch_offset_table.length := by
  unfold SetReceiverEpoch
  simp only [hw]
  split
  · exact length_assign_first _ _ _
  · rfl

/-- When the receiver clock has no entry, a successful `SetReceiverEpoch` appends one. -/
theorem SetReceiverEpoch_append (c : TimeConverterImpl) (rx_id : Nat) (epoch : TimePoint)
    (hn : c.find_offset (ClockID.MakeReceiver rx_id) = none)
    (h : (c.Convert epoch (ClockID.MakeTAI ClockID.kSystemClockID)).1 = true) :
    (c.SetReceiverEpoch rx_id epoch).d_epoch_offset_table =
      c.d_epoch_offset_table ++ [⟨ClockID.MakeReceiver rx_id,
        (c.Convert epoch (ClockID.MakeTAI ClockID.kSystemClockID)).2.mTimeSinceEpoch⟩] := by
  simp [SetReceiverEpoch, h, hn, TimePoint.TimeSinceEpoch]

end TimeConverterImpl

theorem Reachable.keys_nodup {c : TimeConverterImpl} (h : Reachable c) : KeysNodup c := by
  induction h with
  | ctor => exact TimeConverterImpl.new_keys
  | addLeap c l n _ _ ih =>
    unfold KeysNodup at ih ⊢
    rw [TimeConverterImpl.AddLeapSecondsAt_offsets]
    exact ih
  | setEpoch c id e _ _ ih => exact TimeConverterImpl.SetReceiverEpoch_keys c id e ih

/-- C28: in every reachable converter `SetReceiverEpoch(rx_id, epoch)` leaves the leap table
as it was, leaves the entries of every other clock (other receiver instances included) as they
were and in their order, and leaves the lookup of every other clock as it was.  When `epoch`
converts to TAI the table afterwards has exactly one entry for the receiver clock `rx_id`,
holding the converted epoch; it is appended when the clock had no entry; and a second call for
the same `rx_id`, with any instant, keeps the length of the table, and when its instant
converts, the single entry holds the second converted epoch.  When `epoch` does not convert
to TAI the converter is unchanged. -/
theorem C28_set_receiver_epoch_frame (c : TimeConverterImpl) (hc : Reachable c) (rx_id : Nat)
    (epoch epoch2 : TimePoint) :
    (c.SetReceiverEpoch rx_id epoch).d_leap_second_table = c.d_leap_second_table ∧
      (c.SetReceiverEpoch rx_id epoch).d_epoch_offset_table.filter
          (fun v => decide (v.sys ≠ ClockID.MakeReceiver rx_id)) =
        c.d_epoch_offset_table.filter (fun v => decide (v.sys ≠ ClockID.MakeReceiver rx_id)) ∧
      (∀ clk : ClockID, clk ≠ ClockID.MakeReceiver rx_id →
        (c.SetReceiverEpoch rx_id epoch).find_offset clk = c.find_offset clk) ∧
      ((c.Convert epoch (ClockID.MakeTAI ClockID.kSystemClockID)).1 = true →
        (c.SetReceiverEpoch rx_id epoch).d_epoch_offset_table.filter
            (fun v => decide (v.sys = ClockID.MakeReceiver rx_id)) =
          [⟨ClockID.MakeReceiver rx_id,
            (c.Convert epoch (ClockID.MakeTAI ClockID.kSystemClockID)).2.mTimeSinceEpoch⟩] ∧
        (c.find_offset (ClockID.MakeReceiver rx_id) = none →
          (c.SetReceiverEpoch rx_id epoch).d_epoch_offset_table =
            c.d_epoch_offset_table ++ [⟨ClockID.MakeReceiver rx_id,
              (c.Convert epoch (ClockID.MakeTAI ClockID.kSystemClockID)).2.mTimeSinceEpoch⟩]) ∧
        ((c.SetReceiverEpoch rx_id epoch).SetReceiverEpoch rx_id epoch2).d_epoch_offset_table.length
          = (c.SetReceiverEpoch rx_id epoch).d_epoch_offset_table.length ∧
        (((c.SetReceiverEpoch rx_id epoch).Convert epoch2
            (ClockID.MakeTAI ClockID.kSystemClockID)).1 = true →
          ((c.SetReceiverEpoch rx_id epoch).SetReceiverEpoch rx_id
              epoch2).d_epoch_offset_table.filter
              (fun v => decide (v.sys = ClockID.MakeReceiver rx_id)) =
            [⟨ClockID.MakeReceiver rx_id,
              ((c.SetReceiverEpoch rx_id epoch).Convert epoch2
                (ClockID.MakeTAI ClockID.kSystemClockID)).2.mTimeSinceEpoch⟩])) ∧
      ((c.Convert epoch (ClockID.MakeTAI ClockID.kSystemClockID)).1 = false →
        c.SetReceiverEpoch rx_id epoch = c) := by
  have hk := hc.keys_nodup
  refine ⟨TimeConverterImpl.SetReceiverEpoch_leaps c rx_id epoch,
    TimeConverterImpl.filter_set_other c rx_id epoch,
    fun clk hne => TimeConverterImpl.find_offset_set_other c rx_id epoch clk hne,
    fun hok => ⟨TimeConverterImpl.filter_set_same c hk rx_id epoch hok,
      fun hn => TimeConverterImpl.SetReceiverEpoch_append c rx_id epoch hn hok,
      TimeConverterImpl.length_set_of_some _ rx_id epoch2 _
        (TimeConverterImpl.find_offset_set_same c rx_id epoch hok),
      fun hok2 => TimeConverterImpl.filter_set_same _
        (TimeConverterImpl.SetReceiverEpoch_keys c rx_id epoch hk) rx_id epoch2 hok2⟩,
    fun hfail => TimeConverterImpl.SetReceiverEpoch_fail c rx_id epoch hfail⟩

/-- C28 at the fresh converter: the epoch of receiver 3 is set to the GPS instant 5 s and
then to the GPS instant 9 s; the table has nine entries after the first call and still nine
after the second. -/
theorem C28_set_receiver_epoch_frame_witness :
    (TimeConverterImpl.new.SetReceiverEpoch 3
        (TimePoint.MakeGnss GnssSystem.kGps (TimeInterval.Seconds 5))).d_epoch_offset_table.length
        = 9 ∧
      ((TimeConverterImpl.new.SetReceiverEpoch 3
          (TimePoint.MakeGnss GnssSystem.kGps (TimeInterval.Seconds 5))).SetReceiverEpoch 3
          (TimePoint.MakeGnss GnssSystem.kGps (TimeInterval.Seconds 9))).d_epoch_offset_table.length
        = (TimeConverterImpl.new.SetReceiverEpoch 3
          (TimePoint.MakeGnss GnssSystem.kGps
            (TimeInterval.Seconds 5))).d_epoch_offset_table.length :=
  ⟨by decide,
    ((C28_set_receiver_epoch_frame TimeConverterImpl.new Reachable.ctor 3
      (TimePoint.MakeGnss GnssSystem.kGps (TimeInterval.Seconds 5))
      (TimePoint.MakeGnss GnssSystem.kGps (TimeInterval.Seconds 9))).2.2.2.1 (by decide)).2.2.1⟩

/-! ## The observables block: reset and emitted records -/

namespace rx_synch_observables_gs

variable {R : Type}

theorem empty_loop_length (e : Gnss_Synchro R) :
    ∀ (l : List (Gnss_Synchro R)) (ch : Int), (empty_loop e ch l).length = l.length := by
  intro l
  induction l with
  | nil => intro ch; rfl
  | cons x rest ih =>
    intro ch
    simp only [empty_loop, List.length_cons, ih]

/-- While `int ch` does not overflow, entry `i` of the emptied vector is `empty_obs` with
`Channel_ID = ch + i`. -/
theorem empty_loop_getElem (e : Gnss_Synchro R) :
    ∀ (l : List (Gnss_Synchro R)) (ch : Int) (i : Nat) (m : Gnss_Synchro R),
      0 ≤ ch → ch + l.length ≤ 2147483648 → (empty_loop e ch l)[i]? = some m →
      m = { e with Channel_ID := ch + i } := by
  intro l
  induction l with
  | nil =>
    intro ch i m _ _ h
    simp [empty_loop] at h
  | cons x rest ih =>
    intro ch i m h0 hlen h
    cases i with
    | zero =>
      simp only [empty_loop, List.getElem?_cons_zero, Option.some.injEq] at h
      rw [← h]
      simp
    | succ j =>
      simp only [empty_loop, List.getElem?_cons_succ] at h
      have hj : j < rest.length := by
        have := (List.getElem?_eq_some.1 h).1
        rw [empty_loop_length] at this
        exact this
      simp only [List.length_cons, Nat.cast_add, Nat.cast_one] at hlen
      have hw : wrap32 (ch + 1) = ch + 1 := by
        unfold wrap32; omega
      rw [hw] at h
      have := ih (ch + 1) j m (by omega) (by omega) h
      rw [this]
      simp only [Nat.cast_add, Nat.cast_one]
      congr 1
      omega

theorem read_channels_length (input_items : List (List (Gnss_Synchro R))) (n : Nat)
    (current : List (Gnss_Synchro R)) :
    (read_channels input_items n current).length = current.length := by
  unfold read_channels
  generalize List.range n = idx
  induction idx generalizing current with
  | nil => rfl
  | cons i rest ih =>
    rw [List.foldl_cons, ih]
    split
    · rfl
    · exact List.length_set _ _ _

theorem measurement_loop_length
    (observe : Nat → R → TimePoint → TimeConverterImpl × TimeInterval → Gnss_Synchro R →
      (TimeConverterImpl × TimeInterval) × Gnss_Synchro R)
    (d_rx_id : Nat) (d_rate_hz : R) (d_receiver_time : TimePoint) :
    ∀ (l : List (Gnss_Synchro R)) (st : TimeConverterImpl × TimeInterval)
      (out : List (Gnss_Synchro R)),
      (measurement_loop observe d_rx_id d_rate_hz d_receiver_time l st out).2.length
        = l.length := by
  intro l
  induction l with
  | nil => intro st out; rfl
  | cons x rest ih =>
    intro st out
    unfold measurement_loop
    split
    · simp only [List.length_cons, ih]
    · simp only [List.length_cons, ih]

/-- With an item on the epoch channel, `general_work` returns 1 and leaves as measurements the
emptied vector. -/
theorem general_work_epoch (ops : DoubleOps R) (default_obs : Gnss_Synchro R)
    (observe : Nat → R → TimePoint → TimeConverterImpl × TimeInterval → Gnss_Synchro R →
      (TimeConverterImpl × TimeInterval) × Gnss_Synchro R)
    (self : rx_synch_observables_gs R) (input_items : List (List (Gnss_Synchro R)))
    (output_items : List (Gnss_Synchro R))
    (hepoch : input_items.getD self.epoch_channel [] ≠ []) :
    (general_work ops default_obs observe self input_items output_items).n_outputs = 1 ∧
      ∃ l : List (Gnss_Synchro R), l.length = self.d_current_measurements.length ∧
        (general_work ops default_obs observe self input_items
          output_items).self.d_current_measurements = empty_loop (empty_obs default_obs) 0 l := by
  cases hh : (input_items.getD self.epoch_channel []).head? with
  | none =>
    rw [List.head?_eq_none_iff] at hh
    exact absurd hh hepoch
  | some e =>
    simp only [general_work, hh]
    refine ⟨trivial,
      (measurement_loop observe self.d_rx_id self.d_rate_hz
        (TimePoint.MakeReceiver (sample_time ops e) self.d_rx_id)
        (read_channels input_items self.d_nchannels_out self.d_current_measurements)
        (self.converter, self.d_rx_epoch_offset) output_items).2, ?_, ?_⟩
    · rw [measurement_loop_length, read_channels_length]
    · split <;> rfl

end rx_synch_observables_gs

/-- C29: whenever the epoch channel (input `d_nchannels_in - 1`) holds an item, so that
`general_work` processes an epoch and returns one output, the vector of current measurements
has afterwards the length it had, and every entry `i` of it has `PRN = 0`, the valid-word,
valid-acquisition and valid-pseudorange flags false, and `Channel_ID = i`; this for every
computation of the observables, every state of the block and every content of the input
and output buffers, the number of measurements being within the range of the `int` counter
of `empty_current_measurements`. -/
theorem C29_reset_after_epoch (R : Type) (ops : DoubleOps R) (default_obs : Gnss_Synchro R)
    (observe : Nat → R → TimePoint → TimeConverterImpl × TimeInterval → Gnss_Synchro R →
      (TimeConverterImpl × TimeInterval) × Gnss_Synchro R)
    (self : rx_synch_observables_gs R) (input_items : List (List (Gnss_Synchro R)))
    (output_items : List (Gnss_Synchro R))
    (hepoch : input_items.getD self.epoch_channel [] ≠ [])
    (hlen : self.d_current_measurements.length ≤ 2147483648) :
    (rx_synch_observables_gs.general_work ops default_obs observe self input_items
        output_items).n_outputs = 1 ∧
      (rx_synch_observables_gs.general_work ops default_obs observe self input_items
        output_items).self.d_current_measurements.length
        = self.d_current_measurements.length ∧
      ∀ (i : Nat) (m : Gnss_Synchro R),
        (rx_synch_observables_gs.general_work ops default_obs observe self input_items
          output_items).self.d_current_measurements[i]? = some m →
        m.PRN = 0 ∧ m.Flag_valid_word = false ∧ m.Flag_valid_acquisition = false ∧
          m.Flag_valid_pseudorange = false ∧ m.Channel_ID = i := by
  obtain ⟨h1, l, hl, heq⟩ := rx_synch_observables_gs.general_work_epoch ops default_obs observe
    self input_items output_items hepoch
  refine ⟨h1, ?_, ?_⟩
  · rw [heq, rx_synch_observables_gs.empty_loop_length, hl]
  · intro i m hm
    rw [heq] at hm
    have := rx_synch_observables_gs.empty_loop_getElem _ l 0 i m (le_refl 0)
      (by rw [hl]; omega) hm
    rw [this]
    simp [rx_synch_observables_gs.empty_obs]

/-- C29 on a block with one measurement channel and the epoch channel, `double` read as
integers and an observable computation that changes nothing: the last call read a
measurement with `PRN = 5` and an epoch item, and entry 0 is afterwards the empty pattern
with `Channel_ID = 0`. -/
theorem C29_reset_after_epoch_witness :
    (rx_synch_observables_gs.general_work
        (⟨fun n => (n : Int), fun b => if b then 1 else 0, fun x => x, fun _ _ => (0, 0)⟩ :
          DoubleOps Int)
        ⟨'G', [], 0, 0, false, 0, 0, 0, 0, 0, 0, false, 0, 0, 0, 0, false⟩
        (fun _ _ _ st m => (st, m))
        (rx_synch_observables_gs.ctor
          ⟨'G', [], 0, 0, false, 0, 0, 0, 0, 0, 0, false, 0, 0, 0, 0, false⟩
          TimeConverterImpl.new 2 1 false false 50)
        [[⟨'G', ['1', 'C'], 5, 0, true, 4000000, 0, 0, 0, 0, 1, true, 0, 0, 0, 0, false⟩],
         [⟨'G', [], 0, 0, false, 4000000, 0, 0, 0, 4000, 0, false, 0, 0, 0, 0, false⟩]]
        [⟨'G', [], 0, 0, false, 0, 0, 0, 0, 0, 0, false, 0, 0, 0, 0, false⟩]
      ).self.d_current_measurements[0]?
        = some ⟨'G', [], 0, 0, false, 0, 0, 0, 0, 0, 0, false, 0, 0, 0, 0, false⟩ ∧
      (0 : Nat) = 0 ∧ false = false ∧ false = false ∧ false = false ∧ (0 : Int) = (0 : Nat) :=
  ⟨by decide,
    (C29_reset_after_epoch Int
      ⟨fun n => (n : Int), fun b => if b then 1 else 0, fun x => x, fun _ _ => (0, 0)⟩
      ⟨'G', [], 0, 0, false, 0, 0, 0, 0, 0, 0, false, 0, 0, 0, 0, false⟩
      (fun _ _ _ st m => (st, m))
      (rx_synch_observables_gs.ctor
        ⟨'G', [], 0, 0, false, 0, 0, 0, 0, 0, 0, false, 0, 0, 0, 0, false⟩
        TimeConverterImpl.new 2 1 false false 50)
      [[⟨'G', ['1', 'C'], 5, 0, true, 4000000, 0, 0, 0, 0, 1, true, 0, 0, 0, 0, false⟩],
       [⟨'G', [], 0, 0, false, 4000000, 0, 0, 0, 4000, 0, false, 0, 0, 0, 0, false⟩]]
      [⟨'G', [], 0, 0, false, 0, 0, 0, 0, 0, 0, false, 0, 0, 0, 0, false⟩]
      (by decide) (by decide)).2.2 0
      ⟨'G', [], 0, 0, false, 0, 0, 0, 0, 0, 0, false, 0, 0, 0, 0, false⟩ (by decide)⟩

namespace rx_synch_observables_gs

variable {R : Type}

/-- The output slots and the dump after a call of `general_work` that finds an item on the
epoch channel. -/
theorem general_work_outputs (ops : DoubleOps R) (default_obs : Gnss_Synchro R)
    (observe : Nat → R → TimePoint → TimeConverterImpl × TimeInterval → Gnss_Synchro R →
      (TimeConverterImpl × TimeInterval) × Gnss_Synchro R)
    (self : rx_synch_observables_gs R) (input_items : List (List (Gnss_Synchro R)))
    (output_items : List (Gnss_Synchro R)) (e : Gnss_Synchro R)
    (hh : (input_items.getD self.epoch_channel []).head? = some e) :
    (general_work ops default_obs observe self input_items output_items).n_outputs = 1 ∧
      (general_work ops default_obs observe self input_items output_items).output_items =
        (measurement_loop observe self.d_rx_id self.d_rate_hz
          (TimePoint.MakeReceiver (sample_time ops e) self.d_rx_id)
          (read_channels input_items self.d_nchannels_out self.d_current_measurements)
          (self.converter, self.d_rx_epoch_offset) output_items).1.2 ∧
      (general_work ops default_obs observe self input_items output_items).self.d_dump_file =
        (if self.d_dump = true then
          self.d_dump_file ++ dump_epoch ops self.d_nchannels_out
            (measurement_loop observe self.d_rx_id self.d_rate_hz
              (TimePoint.MakeReceiver (sample_time ops e) self.d_rx_id)
              (read_channels input_items self.d_nchannels_out self.d_current_measurements)
              (self.converter, self.d_rx_epoch_offset) output_items).1.2
        else self.d_dump_file) := by
  simp only [general_work, hh]
  refine ⟨trivial, trivial, ?_⟩
  simp only [empty_current_measurements]
  split <;> rfl

/-- A measurement with `PRN == 0` leaves the converter, the offset and the output slots as they
are. -/
theorem measurement_loop_skip
    (observe : Nat → R → TimePoint → TimeConverterImpl × TimeInterval → Gnss_Synchro R →
      (TimeConverterImpl × TimeInterval) × Gnss_Synchro R)
    (d_rx_id : Nat) (d_rate_hz : R) (d_receiver_time : TimePoint)
    (m : Gnss_Synchro R) (rest : List (Gnss_Synchro R)) (st : TimeConverterImpl × TimeInterval)
    (out : List (Gnss_Synchro R)) (h : m.PRN = 0) :
    (measurement_loop observe d_rx_id d_rate_hz d_receiver_time (m :: rest) st out).1 =
      (measurement_loop observe d_rx_id d_rate_hz d_receiver_time rest st out).1 := by
  simp only [measurement_loop, h, if_true]

theorem ctor_measurements_one (default_obs : Gnss_Synchro R) (converter : TimeConverterImpl)
    (nchannels_in : Nat) (dump dump_mat : Bool) (rate_hz : R) :
    (ctor default_obs converter nchannels_in 1 dump dump_mat rate_hz).d_current_measurements
      = [{ empty_obs default_obs with Channel_ID := 0 }] := rfl

theorem read_channels_none (e : Gnss_Synchro R) (cur : List (Gnss_Synchro R)) :
    read_channels [[], [e]] 1 cur = cur := rfl

end rx_synch_observables_gs

/-- C30 fails on the code: a block built for one measurement channel and the epoch channel
has one current measurement, empty (`PRN = 0`).  Called with no item on the measurement
channel and one item on the epoch channel, `general_work` returns one output and the slot of
output channel 0 is exactly what it held on entry (`stale`), whatever that was, because the
loop leaves a measurement with `PRN == 0` by `continue` before the assignment to `out`; with
the dump enabled the eight values written are those of `stale` too. -/
theorem C30_empty_channel_output (R : Type) (ops : DoubleOps R) (default_obs : Gnss_Synchro R)
    (observe : Nat → R → TimePoint → TimeConverterImpl × TimeInterval → Gnss_Synchro R →
      (TimeConverterImpl × TimeInterval) × Gnss_Synchro R)
    (converter : TimeConverterImpl) (dump : Bool) (rate_hz : R)
    (stale epoch_synchro : Gnss_Synchro R) :
    (rx_synch_observables_gs.ctor default_obs converter 2 1 dump false
        rate_hz).d_current_measurements.map (fun m => m.PRN) = [0] ∧
      (rx_synch_observables_gs.general_work ops default_obs observe
        (rx_synch_observables_gs.ctor default_obs converter 2 1 dump false rate_hz)
        [[], [epoch_synchro]] [stale]).n_outputs = 1 ∧
      (rx_synch_observables_gs.general_work ops default_obs observe
        (rx_synch_observables_gs.ctor default_obs converter 2 1 dump false rate_hz)
        [[], [epoch_synchro]] [stale]).output_items = [stale] ∧
      (rx_synch_observables_gs.general_work ops default_obs observe
        (rx_synch_observables_gs.ctor default_obs converter 2 1 true false rate_hz)
        [[], [epoch_synchro]] [stale]).self.d_dump_file
        = rx_synch_observables_gs.dump_record ops stale := by
  have hh : ∀ d : Bool, (([[], [epoch_synchro]] : List (List (Gnss_Synchro R))).getD
      (rx_synch_observables_gs.ctor default_obs converter 2 1 d false
        rate_hz).epoch_channel []).head? = some epoch_synchro := fun _ => by
    show (([[], [epoch_synchro]] : List (List (Gnss_Synchro R))).getD
      ((2 + 4294967295) % 4294967296) []).head? = some epoch_synchro
    have h1 : (2 + 4294967295) % 4294967296 = 1 := by decide
    rw [h1]
    rfl
  have hloop : ∀ d : Bool,
      (rx_synch_observables_gs.measurement_loop observe
        (rx_synch_observables_gs.ctor default_obs converter 2 1 d false rate_hz).d_rx_id
        (rx_synch_observables_gs.ctor default_obs converter 2 1 d false rate_hz).d_rate_hz
        (TimePoint.MakeReceiver (rx_synch_observables_gs.sample_time ops epoch_synchro)
          (rx_synch_observables_gs.ctor default_obs converter 2 1 d false rate_hz).d_rx_id)
        (rx_synch_observables_gs.read_channels [[], [epoch_synchro]]
          (rx_synch_observables_gs.ctor default_obs converter 2 1 d false
            rate_hz).d_nchannels_out
          (rx_synch_observables_gs.ctor default_obs converter 2 1 d false
            rate_hz).d_current_measurements)
        ((rx_synch_observables_gs.ctor default_obs converter 2 1 d false rate_hz).converter,
          (rx_synch_observables_gs.ctor default_obs converter 2 1 d false
            rate_hz).d_rx_epoch_offset) [stale]).1.2 = [stale] := fun d => by
    have hn : (rx_synch_observables_gs.ctor default_obs converter 2 1 d false
        rate_hz).d_nchannels_out = 1 := rfl
    rw [hn, rx_synch_observables_gs.read_channels_none,
      rx_synch_observables_gs.ctor_measurements_one,
      rx_synch_observables_gs.measurement_loop_skip _ _ _ _ _ _ _ _ rfl]
    rfl
  have h1 := rx_synch_observables_gs.general_work_outputs ops default_obs observe
    (rx_synch_observables_gs.ctor default_obs converter 2 1 dump false rate_hz)
    [[], [epoch_synchro]] [stale] epoch_synchro (hh dump)
  have h2 := rx_synch_observables_gs.general_work_outputs ops default_obs observe
    (rx_synch_observables_gs.ctor default_obs converter 2 1 true false rate_hz)
    [[], [epoch_synchro]] [stale] epoch_synchro (hh true)
  refine ⟨rfl, h1.1, ?_, ?_⟩
  · rw [h1.2.1, hloop]
  · rw [h2.2.2, hloop]
    rfl

/-! ## The order of the leap table and of durations -/

/-- C37 fails on the code: `Seconds(1) - MilliSeconds(1)` is the pair `(1, -10^12)` and
`MilliSeconds(1) * 999` is the pair `(0, 999 * 10^12)`; both stand for the same
`999 * 10^12` femtoseconds, yet `operator==` returns false on them and `operator<` returns
true (the second before the first), although neither represents fewer femtoseconds. -/
theorem C37_comparison_of_equal_values :
    TimeInterval.Seconds 1 - TimeInterval.MilliSeconds_1 = ⟨1, -1000000000000⟩ ∧
      TimeInterval.MilliSeconds_1 * (999 : Int) = ⟨0, 999000000000000⟩ ∧
      TimeIntervalImpl.femtoseconds (TimeInterval.Seconds 1 - TimeInterval.MilliSeconds_1)
        = 999000000000000 ∧
      TimeIntervalImpl.femtoseconds (TimeInterval.MilliSeconds_1 * (999 : Int))
        = 999000000000000 ∧
      TimeIntervalImpl.eq (TimeInterval.Seconds 1 - TimeInterval.MilliSeconds_1)
        (TimeInterval.MilliSeconds_1 * (999 : Int)) = false ∧
      TimeIntervalImpl.lt (TimeInterval.MilliSeconds_1 * (999 : Int))
        (TimeInterval.Seconds 1 - TimeInterval.MilliSeconds_1) = true := by
  refine ⟨?_, ?_, ?_, ?_, ?_, ?_⟩ <;> decide

/-- C38 fails on the code: with `a = b = Seconds(0.5)` the sum `a + b` carries into the pair
`(1, 0)`, and `(a + b) - b` is the pair `(1, -5 * 10^14)`, which `operator==` tells apart
from `a = (0, 5 * 10^14)` although both stand for half a second. -/
theorem C38_subtraction_after_carry :
    TimeInterval.Seconds_half = ⟨0, 500000000000000⟩ ∧
      TimeInterval.Seconds_half + TimeInterval.Seconds_half = ⟨1, 0⟩ ∧
      (TimeInterval.Seconds_half + TimeInterval.Seconds_half) - TimeInterval.Seconds_half
        = ⟨1, -500000000000000⟩ ∧
      TimeIntervalImpl.eq
        ((TimeInterval.Seconds_half + TimeInterval.Seconds_half) - TimeInterval.Seconds_half)
        TimeInterval.Seconds_half = false ∧
      TimeIntervalImpl.femtoseconds
        ((TimeInterval.Seconds_half + TimeInterval.Seconds_half) - TimeInterval.Seconds_half)
        = TimeIntervalImpl.femtoseconds TimeInterval.Seconds_half := by
  refine ⟨?_, ?_, ?_, ?_, ?_⟩ <;> decide

/-! ## Round trips through UTC and clocks without an entry -/

/-- A whole-second shift and a leap count, applied and taken back. -/
theorem utc_leap_back (x : TimeIntervalImpl) (A B n : Int) (hv : x.Valid) :
    (x + (⟨wrap64 (A - B), 0⟩ : TimeIntervalImpl) - TimeInterval.Seconds n)
      + (⟨wrap64 (B - A), 0⟩ : TimeIntervalImpl) + TimeInterval.Seconds n = x := by
  obtain ⟨s, f⟩ := x
  obtain ⟨⟨hs1, hs2⟩, hf1, hf2⟩ := hv
  simp only at hs1 hs2 hf1 hf2
  have e1 : (⟨s, f⟩ : TimeIntervalImpl) + ⟨wrap64 (A - B), 0⟩
      = ⟨wrap64 (s + wrap64 (A - B)), f⟩ :=
    TimeIntervalImpl.add_whole ⟨s, f⟩ _ ⟨⟨hs1, hs2⟩, hf1, hf2⟩
  have e2 : (⟨wrap64 (s + wrap64 (A - B)), f⟩ : TimeIntervalImpl) - ⟨wrap64 n, 0⟩
      = ⟨wrap64 (wrap64 (s + wrap64 (A - B)) - wrap64 n), f⟩ :=
    TimeIntervalImpl.sub_whole _ _ (TimeIntervalImpl.valid_mk_wrap _ _ hf1 hf2)
  have e3 : (⟨wrap64 (wrap64 (s + wrap64 (A - B)) - wrap64 n), f⟩ : TimeIntervalImpl)
      + ⟨wrap64 (B - A), 0⟩
      = ⟨wrap64 (wrap64 (wrap64 (s + wrap64 (A - B)) - wrap64 n) + wrap64 (B - A)), f⟩ :=
    TimeIntervalImpl.add_whole _ _ (TimeIntervalImpl.valid_mk_wrap _ _ hf1 hf2)
  have e4 : (⟨wrap64 (wrap64 (wrap64 (s + wrap64 (A - B)) - wrap64 n) + wrap64 (B - A)),
      f⟩ : TimeIntervalImpl) + ⟨wrap64 n, 0⟩
      = ⟨wrap64 (wrap64 (wrap64 (wrap64 (s + wrap64 (A - B)) - wrap64 n) + wrap64 (B - A))
          + wrap64 n), f⟩ :=
    TimeIntervalImpl.add_whole _ _ (TimeIntervalImpl.valid_mk_wrap _ _ hf1 hf2)
  rw [Seconds_eq, e1, e2, e3, e4]
  congr 1
  unfold wrap64; omega

/-- A whole-second shift applied and taken back. -/
theorem utc_shift_back (x : TimeIntervalImpl) (A B : Int) (hv : x.Valid) :
    x + (⟨wrap64 (A - B), 0⟩ : TimeIntervalImpl) + (⟨wrap64 (B - A), 0⟩ : TimeIntervalImpl)
      = x := by
  obtain ⟨s, f⟩ := x
  obtain ⟨⟨hs1, hs2⟩, hf1, hf2⟩ := hv
  simp only at hs1 hs2 hf1 hf2
  have e1 : (⟨s, f⟩ : TimeIntervalImpl) + ⟨wrap64 (A - B), 0⟩
      = ⟨wrap64 (s + wrap64 (A - B)), f⟩ :=
    TimeIntervalImpl.add_whole ⟨s, f⟩ _ ⟨⟨hs1, hs2⟩, hf1, hf2⟩
  have e2 : (⟨wrap64 (s + wrap64 (A - B)), f⟩ : TimeIntervalImpl) + ⟨wrap64 (B - A), 0⟩
      = ⟨wrap64 (wrap64 (s + wrap64 (A - B)) + wrap64 (B - A)), f⟩ :=
    TimeIntervalImpl.add_whole _ _ (TimeIntervalImpl.valid_mk_wrap _ _ hf1 hf2)
  rw [e1, e2]
  congr 1
  unfold wrap64; omega

/-- The difference of two whole-second offsets of the constructor's table. -/
theorem whole_offset_sub (a b : TimeIntervalImpl) (ha : a.mFractionalSeconds = 0)
    (ha1 : 0 ≤ a.mSeconds) (ha2 : a.mSeconds < 4294967296) (hb : b.mFractionalSeconds = 0) :
    a - b = ⟨wrap64 (a.mSeconds - b.mSeconds), 0⟩ := by
  obtain ⟨sa, fa⟩ := a
  obtain ⟨sb, fb⟩ := b
  simp only at ha ha1 ha2 hb
  subst ha
  subst hb
  have hva : (⟨sa, 0⟩ : TimeIntervalImpl).Valid := by
    unfold TimeIntervalImpl.Valid InInt64
    rw [kOneSecondInternal_eq]
    simp only
    omega
  exact TimeIntervalImpl.sub_whole ⟨sa, 0⟩ sb hva

set_option maxRecDepth 8192 in
/-- C39 as stated fails.  In the fresh converter the BeiDou zero instant converts to UTC as
1136073600 s, and that converts back to BeiDou time as -1 s; the GPS instant 1167263982 s
(one second after the leap epoch 3692217600 s in its projection) converts to UTC as
1483228764 s and back as 1167263981 s.  The leap count found on the way out (33, 37) is not
the one found on the way back (32, 36). -/
theorem C39_utc_round_trip_counterexample :
    TimeConverterImpl.new.Convert (TimePoint.MakeGnss GnssSystem.kBeiDou (TimeInterval.Seconds 0))
        (ClockID.MakeUTC ClockID.kSystemClockID)
      = (true, ⟨⟨1136073600, 0⟩, ClockID.MakeUTC ClockID.kSystemClockID⟩) ∧
      TimeConverterImpl.new.Convert ⟨⟨1136073600, 0⟩, ClockID.MakeUTC ClockID.kSystemClockID⟩
        (ClockID.MakeGnss GnssSystem.kBeiDou ClockID.kSystemClockID)
      = (true, ⟨⟨-1, 0⟩, ClockID.MakeGnss GnssSystem.kBeiDou ClockID.kSystemClockID⟩) ∧
      TimeInterval.Seconds 0 ≠ ⟨-1, 0⟩ ∧
      TimeConverterImpl.new.Convert
        (TimePoint.MakeGnss GnssSystem.kGps (TimeInterval.Seconds 1167263982))
        (ClockID.MakeUTC ClockID.kSystemClockID)
      = (true, ⟨⟨1483228764, 0⟩, ClockID.MakeUTC ClockID.kSystemClockID⟩) ∧
      TimeConverterImpl.new.Convert ⟨⟨1483228764, 0⟩, ClockID.MakeUTC ClockID.kSystemClockID⟩
        (ClockID.MakeGnss GnssSystem.kGps ClockID.kSystemClockID)
      = (true, ⟨⟨1167263981, 0⟩, ClockID.MakeGnss GnssSystem.kGps ClockID.kSystemClockID⟩) := by
  refine ⟨?_, ?_, ?_, ?_, ?_⟩ <;> decide

/-- C39, amended: in every reachable converter (the fresh one included), for every duration
`x` in range and each of the GPS, Galileo and BeiDou system clocks, the instant `x` converts
to the UTC system clock, and the result converts back to exactly `x` on its clock, provided
that the leap entry found for the projection of the UTC result is the one found for the
projection of `x`. -/
theorem C39_utc_round_trip_amended (c : TimeConverterImpl) (hc : Reachable c)
    (sys : GnssSystem) (x : TimeInterval) (hv : x.Valid)
    (hsys : sys = GnssSystem.kGps ∨ sys = GnssSystem.kGalileo ∨ sys = GnssSystem.kBeiDou)
    (hleap :
      c.find_leap
          (c.ConvertNoLeaps
            (c.Convert (TimePoint.MakeGnss sys x) (ClockID.MakeUTC ClockID.kSystemClockID)).2
            (ClockID.MakeNTP ClockID.kSystemClockID)).2.mTimeSinceEpoch
        = c.find_leap
            (c.ConvertNoLeaps (TimePoint.MakeGnss sys x)
              (ClockID.MakeNTP ClockID.kSystemClockID)).2.mTimeSinceEpoch) :
    (c.Convert (TimePoint.MakeGnss sys x) (ClockID.MakeUTC ClockID.kSystemClockID)).1 = true ∧
      c.Convert
          (c.Convert (TimePoint.MakeGnss sys x) (ClockID.MakeUTC ClockID.kSystemClockID)).2
          (ClockID.MakeGnss sys ClockID.kSystemClockID)
        = (true, TimePoint.MakeGnss sys x) := by
  have inv := hc.offsets_inv
  have hb := TimeConverterImpl.find_offset_utc c inv
  have hrx : (ClockID.MakeGnss sys ClockID.kSystemClockID).d_sys ≠ eClockSystem.kReceiver := by
    cases sys <;> decide
  have hsome : ∃ a, c.find_offset (ClockID.MakeGnss sys ClockID.kSystemClockID) = some a := by
    rcases hsys with h | h | h
    · subst h; exact ⟨_, TimeConverterImpl.find_offset_gps c inv⟩
    · subst h; exact ⟨_, TimeConverterImpl.find_offset_galileo c inv⟩
    · subst h; exact ⟨_, TimeConverterImpl.find_offset_beidou c inv⟩
  obtain ⟨a, hi⟩ := hsome
  have hk1 : (TimePoint.MakeGnss sys x).mClockID.KeepsLeapSeconds ≠
      (ClockID.MakeUTC ClockID.kSystemClockID).KeepsLeapSeconds := by
    rcases hsys with h | h | h <;> subst h <;> exact Bool.false_ne_true
  have hk2 : (ClockID.MakeUTC ClockID.kSystemClockID).KeepsLeapSeconds ≠
      (ClockID.MakeGnss sys ClockID.kSystemClockID).KeepsLeapSeconds := by
    rcases hsys with h | h | h <;> subst h <;> decide
  have hw := TimeConverterImpl.find_offset_whole c inv _ hrx a hi
  have hab : a.offset - (⟨2208988800, 0⟩ : TimeIntervalImpl)
      = ⟨wrap64 (a.offset.mSeconds - 2208988800), 0⟩ :=
    whole_offset_sub _ _ hw.1 hw.2.1 hw.2.2 rfl
  have hba : (⟨2208988800, 0⟩ : TimeIntervalImpl) - a.offset
      = ⟨wrap64 (2208988800 - a.offset.mSeconds), 0⟩ :=
    whole_offset_sub _ _ rfl (by decide) (by decide) hw.1
  have hc1 := TimeConverterImpl.Convert_leap c inv (TimePoint.MakeGnss sys x)
    (ClockID.MakeUTC ClockID.kSystemClockID) a _ hv hi hb hk1
  have hq1 := TimeConverterImpl.ConvertNoLeaps_ntp c inv (TimePoint.MakeGnss sys x) a hv hi
  have hutc : (ClockID.MakeUTC ClockID.kSystemClockID).KeepsLeapSeconds = true := by decide
  have hg : (ClockID.MakeGnss sys ClockID.kSystemClockID).KeepsLeapSeconds = false := by
    rcases hsys with h | h | h <;> subst h <;> decide
  rw [hq1] at hleap
  simp only [TimePoint.MakeGnss, hutc, if_true, hab] at hc1 hleap hq1 ⊢
  rw [hc1] at hleap ⊢
  refine ⟨rfl, ?_⟩
  simp only at hleap ⊢
  cases hfl : c.find_leap (x + a.offset) with
  | none =>
    rw [hfl] at hleap
    simp only at hleap
    have hvu : (x + (⟨wrap64 (a.offset.mSeconds - 2208988800), 0⟩ : TimeIntervalImpl)).Valid :=
      TimeIntervalImpl.add_valid _ _
    have hq2 := TimeConverterImpl.ConvertNoLeaps_ntp c inv
      ⟨x + (⟨wrap64 (a.offset.mSeconds - 2208988800), 0⟩ : TimeIntervalImpl),
        ClockID.MakeUTC ClockID.kSystemClockID⟩ _ hvu hb
    rw [hq2] at hleap
    simp only at hleap
    have hc2 := TimeConverterImpl.Convert_leap c inv
      ⟨x + (⟨wrap64 (a.offset.mSeconds - 2208988800), 0⟩ : TimeIntervalImpl),
        ClockID.MakeUTC ClockID.kSystemClockID⟩
      (ClockID.MakeGnss sys ClockID.kSystemClockID) _ a hvu hb hi hk2
    simp only [hleap, hfl, hba] at hc2
    rw [hc2, utc_shift_back x _ _ hv]
  | some leap =>
    rw [hfl] at hleap
    simp only at hleap
    have hvu : (x + (⟨wrap64 (a.offset.mSeconds - 2208988800), 0⟩ : TimeIntervalImpl)
        - TimeInterval.Seconds leap.num_leap_seconds).Valid :=
      TimeIntervalImpl.sub_valid _ _
    have hq2 := TimeConverterImpl.ConvertNoLeaps_ntp c inv
      ⟨x + (⟨wrap64 (a.offset.mSeconds - 2208988800), 0⟩ : TimeIntervalImpl)
        - TimeInterval.Seconds leap.num_leap_seconds,
        ClockID.MakeUTC ClockID.kSystemClockID⟩ _ hvu hb
    rw [hq2] at hleap
    simp only at hleap
    have hc2 := TimeConverterImpl.Convert_leap c inv
      ⟨x + (⟨wrap64 (a.offset.mSeconds - 2208988800), 0⟩ : TimeIntervalImpl)
        - TimeInterval.Seconds leap.num_leap_seconds,
        ClockID.MakeUTC ClockID.kSystemClockID⟩
      (ClockID.MakeGnss sys ClockID.kSystemClockID) _ a hvu hb hi hk2
    simp only [hleap, hfl, hba, hg, Bool.false_eq_true, if_false] at hc2
    rw [hc2, utc_leap_back x _ _ _ hv]

set_option maxRecDepth 8192 in
/-- C39 (amended) at the fresh converter: the GPS zero instant goes to UTC and back, the leap
entry of 2524521600 s (count 19) being found both ways. -/
theorem C39_utc_round_trip_amended_witness :
    TimeConverterImpl.new.Convert
        (TimeConverterImpl.new.Convert
          (TimePoint.MakeGnss GnssSystem.kGps (TimeInterval.Seconds 0))
          (ClockID.MakeUTC ClockID.kSystemClockID)).2
        (ClockID.MakeGnss GnssSystem.kGps ClockID.kSystemClockID)
      = (true, TimePoint.MakeGnss GnssSystem.kGps (TimeInterval.Seconds 0)) :=
  (C39_utc_round_trip_amended TimeConverterImpl.new Reachable.ctor GnssSystem.kGps
    (TimeInterval.Seconds 0) (by decide) (Or.inl rfl) (by decide)).2

/-- The constructor's entries are for system clocks of GPS, Galileo, GLONASS, BeiDou, Unix,
UTC, NTP and TAI. -/
theorem initial_entry_clock {v : epoch_offset_entry_t}
    (h : v ∈ TimeConverterImpl.initial_epoch_offset_table) :
    v.sys.d_id = ClockID.kSystemClockID ∧ v.sys.d_sys ≠ eClockSystem.kIrnss ∧
      v.sys.d_sys ≠ eClockSystem.kQzss ∧ v.sys.d_sys ≠ eClockSystem.kSbas := by
  rw [TimeConverterImpl.initial_table_eq] at h
  simp only [List.mem_cons, List.mem_singleton, List.not_mem_nil, or_false] at h
  rcases h with h | h | h | h | h | h | h | h <;> subst h <;> decide

/-- In a converter of reachable shape the IRNSS, QZSS and SBAS clocks, and every clock other
than a receiver clock whose instance id is not the system id, have no entry. -/
theorem find_offset_none_of_no_entry (c : TimeConverterImpl) (hc : OffsetsInv c) (clk : ClockID)
    (hclk : clk.d_sys = eClockSystem.kIrnss ∨ clk.d_sys = eClockSystem.kQzss ∨
      clk.d_sys = eClockSystem.kSbas ∨
      (clk.d_sys ≠ eClockSystem.kReceiver ∧ clk.d_id ≠ ClockID.kSystemClockID)) :
    c.find_offset clk = none := by
  have hrx : clk.d_sys ≠ eClockSystem.kReceiver := by
    rcases hclk with h | h | h | h
    · rw [h]; decide
    · rw [h]; decide
    · rw [h]; decide
    · exact h.1
  rw [TimeConverterImpl.find_offset_other c hc clk hrx, List.find?_eq_none]
  intro v hv hs
  simp only [decide_eq_true_eq] at hs
  have h4 := initial_entry_clock hv
  rw [hs] at h4
  rcases hclk with h | h | h | h
  · exact h4.2.1 h
  · exact h4.2.2.1 h
  · exact h4.2.2.2 h
  · exact h.2 h4.1

/-- C40: in every reachable converter, the fresh one included, a clock `clk` that is an
IRNSS, QZSS or SBAS clock, or a clock other than a receiver clock whose instance id is not the
reserved system id, has no epoch-offset entry, and every conversion between two different
clocks of which one is `clk` returns `ok = false`.  In the fresh converter the clocks with an
entry are exactly the system clocks of GPS, Galileo, GLONASS, BeiDou, Unix, UTC, NTP and TAI.
So the bootstrap of the observables block fails for a measurement of IRNSS, QZSS or SBAS:
`SetReceiverEpoch` with an epoch on such a clock leaves the converter as it was, and when the
receiver conversion failed before, the retried conversion fails again. -/
theorem C40_clocks_without_entry (c : TimeConverterImpl) (hc : Reachable c) (clk : ClockID)
    (hclk : clk.d_sys = eClockSystem.kIrnss ∨ clk.d_sys = eClockSystem.kQzss ∨
      clk.d_sys = eClockSystem.kSbas ∨
      (clk.d_sys ≠ eClockSystem.kReceiver ∧ clk.d_id ≠ ClockID.kSystemClockID)) :
    c.find_offset clk = none ∧
      (∀ (inp : TimePoint) (out_clock : ClockID), inp.mClockID ≠ out_clock →
        (inp.mClockID = clk ∨ out_clock = clk) → (c.Convert inp out_clock).1 = false) ∧
      (∀ k : ClockID, (TimeConverterImpl.new.find_offset k).isSome = true ↔
        (k = ClockID.MakeGnss GnssSystem.kGps ClockID.kSystemClockID ∨
          k = ClockID.MakeGnss GnssSystem.kGalileo ClockID.kSystemClockID ∨
          k = ClockID.MakeGnss GnssSystem.kGlonass ClockID.kSystemClockID ∨
          k = ClockID.MakeGnss GnssSystem.kBeiDou ClockID.kSystemClockID ∨
          k = ClockID.MakeUnix ClockID.kSystemClockID ∨
          k = ClockID.MakeUTC ClockID.kSystemClockID ∨
          k = ClockID.MakeNTP ClockID.kSystemClockID ∨
          k = ClockID.MakeTAI ClockID.kSystemClockID)) ∧
      (∀ (sys : GnssSystem) (rx_id : Nat) (t_rx_epoch_nominal t_rx : TimeInterval),
        (sys = GnssSystem.kIrnss ∨ sys = GnssSystem.kQzss ∨ sys = GnssSystem.kSbas) →
        c.SetReceiverEpoch rx_id (TimePoint.MakeGnss sys t_rx_epoch_nominal) = c ∧
          ((c.SetReceiverEpoch rx_id (TimePoint.MakeGnss sys t_rx_epoch_nominal)).Convert
            (TimePoint.MakeReceiver t_rx rx_id)
            (ClockID.MakeGnss sys ClockID.kSystemClockID)).1 = false) := by
  have inv := hc.offsets_inv
  have hnone := find_offset_none_of_no_entry c inv clk hclk
  have hconv : ∀ (k : ClockID), c.find_offset k = none →
      ∀ (inp : TimePoint) (out_clock : ClockID), inp.mClockID ≠ out_clock →
        (inp.mClockID = k ∨ out_clock = k) → (c.Convert inp out_clock).1 = false := by
    intro k hk inp out_clock hne hone
    cases hr : (c.Convert inp out_clock).1 with
    | false => rfl
    | true =>
      rw [TimeConverterImpl.Convert_ok_iff c inv] at hr
      rcases hr with hr | ⟨h1, h2⟩
      · exact absurd hr hne
      · rcases hone with h | h
        · rw [h, hk] at h1; cases h1
        · rw [h, hk] at h2; cases h2
  refine ⟨hnone, hconv clk hnone, ?_, ?_⟩
  · intro k
    rw [TimeConverterImpl.find_offset_isSome_iff, TimeConverterImpl.new_offsets,
      TimeConverterImpl.initial_table_eq]
    constructor
    · rintro ⟨v, hv, rfl⟩
      simp only [List.mem_cons, List.mem_singleton, List.not_mem_nil, or_false] at hv
      rcases hv with h | h | h | h | h | h | h | h <;> subst h <;> decide
    · intro hk
      rcases hk with h | h | h | h | h | h | h | h <;> subst h <;> decide
  · intro sys rx_id e t_rx hsys
    have hsysclk : (ClockID.MakeGnss sys ClockID.kSystemClockID).d_sys = eClockSystem.kIrnss ∨
        (ClockID.MakeGnss sys ClockID.kSystemClockID).d_sys = eClockSystem.kQzss ∨
        (ClockID.MakeGnss sys ClockID.kSystemClockID).d_sys = eClockSystem.kSbas ∨
        ((ClockID.MakeGnss sys ClockID.kSystemClockID).d_sys ≠ eClockSystem.kReceiver ∧
          (ClockID.MakeGnss sys ClockID.kSystemClockID).d_id ≠ ClockID.kSystemClockID) := by
      rcases hsys with h | h | h <;> subst h
      · exact Or.inl rfl
      · exact Or.inr (Or.inl rfl)
      · exact Or.inr (Or.inr (Or.inl rfl))
    have hn2 := find_offset_none_of_no_entry c inv _ hsysclk
    have hfail : (c.Convert (TimePoint.MakeGnss sys e)
        (ClockID.MakeTAI ClockID.kSystemClockID)).1 = false := by
      apply hconv _ hn2
      · rcases hsys with h | h | h <;> subst h <;>
          simp [TimePoint.MakeGnss, ClockID.MakeGnss, ClockID.MakeTAI]
      · exact Or.inl rfl
    rw [TimeConverterImpl.SetReceiverEpoch_fail c rx_id _ hfail]
    refine ⟨rfl, ?_⟩
    apply hconv _ hn2
    · rcases hsys with h | h | h <;> subst h <;>
        simp [TimePoint.MakeReceiver, ClockID.MakeGnss, ClockID.MakeReceiver]
    · exact Or.inr rfl

/-- C40 at the fresh converter: an instant of the IRNSS system clock does not convert to the
GPS system clock. -/
theorem C40_clocks_without_entry_witness :
    (TimeConverterImpl.new.Convert (TimePoint.MakeGnss GnssSystem.kIrnss (TimeInterval.Seconds 5))
        (ClockID.MakeGnss GnssSystem.kGps ClockID.kSystemClockID)).1 = false :=
  (C40_clocks_without_entry TimeConverterImpl.new Reachable.ctor
    (ClockID.MakeGnss GnssSystem.kIrnss ClockID.kSystemClockID) (Or.inl rfl)).2.1
    (TimePoint.MakeGnss GnssSystem.kIrnss (TimeInterval.Seconds 5))
    (ClockID.MakeGnss GnssSystem.kGps ClockID.kSystemClockID) (by decide) (Or.inl rfl)

/-! ## The frequency table -/

/-- C35: `GetFrequency` returns the `double` `-1.0` for every unrecognised combination.  For a
system character outside 'R', 'C', 'G', 'E', 'S', 'J', 'I' the result is `-1.0` for every band
and frequency number.  For BeiDou, GPS, Galileo, SBAS, QZSS and IRNSS with a band whose first
character is none of the bands of that system the result is `-1.0`.  For GLONASS with a first
character other than '1', '2', '3' the result is `-1.0 + freq_num * 0.0`, which is `-1.0` for
every frequency number (the law `h0` of `double` arithmetic). -/
theorem C35_unrecognised_frequency (R : Type) (K : FrequencyConstants R) (System : Char)
    (Signal : List Char) (freq_num : Int)
    (h0 : ∀ n : Int, K.add_scaled K.minus_one n K.zero = K.minus_one) :
    ((System ≠ 'R' ∧ System ≠ 'C' ∧ System ≠ 'G' ∧ System ≠ 'E' ∧ System ≠ 'S' ∧
        System ≠ 'J' ∧ System ≠ 'I') →
        GetFrequency K System Signal freq_num = K.minus_one) ∧
      ((System = 'R' ∧ Signal.headD (Char.ofNat 0) ≠ '1' ∧ Signal.headD (Char.ofNat 0) ≠ '2' ∧
        Signal.headD (Char.ofNat 0) ≠ '3') →
        GetFrequency K System Signal freq_num = K.minus_one) ∧
      ((System = 'C' ∧ Signal.headD (Char.ofNat 0) ≠ '2' ∧ Signal.headD (Char.ofNat 0) ≠ '7' ∧
        Signal.headD (Char.ofNat 0) ≠ '6') →
        GetFrequency K System Signal freq_num = K.minus_one) ∧
      ((System = 'G' ∧ Signal.headD (Char.ofNat 0) ≠ '1' ∧ Signal.headD (Char.ofNat 0) ≠ '2' ∧
        Signal.headD (Char.ofNat 0) ≠ '5') →
        GetFrequency K System Signal freq_num = K.minus_one) ∧
      ((System = 'E' ∧ Signal.headD (Char.ofNat 0) ≠ '1' ∧ Signal.headD (Char.ofNat 0) ≠ '5' ∧
        Signal.headD (Char.ofNat 0) ≠ '7' ∧ Signal.headD (Char.ofNat 0) ≠ '8' ∧
        Signal.headD (Char.ofNat 0) ≠ '6') →
        GetFrequency K System Signal freq_num = K.minus_one) ∧
      ((System = 'S' ∧ Signal.headD (Char.ofNat 0) ≠ '1' ∧ Signal.headD (Char.ofNat 0) ≠ '5') →
        GetFrequency K System Signal freq_num = K.minus_one) ∧
      ((System = 'J' ∧ Signal.headD (Char.ofNat 0) ≠ '1' ∧ Signal.headD (Char.ofNat 0) ≠ '5' ∧
        Signal.headD (Char.ofNat 0) ≠ '2' ∧ Signal.headD (Char.ofNat 0) ≠ '6') →
        GetFrequency K System Signal freq_num = K.minus_one) ∧
      ((System = 'I' ∧ Signal.headD (Char.ofNat 0) ≠ '5' ∧ Signal.headD (Char.ofNat 0) ≠ '9') →
        GetFrequency K System Signal freq_num = K.minus_one) := by
  refine ⟨?_, ?_, ?_, ?_, ?_, ?_, ?_, ?_⟩
  · rintro ⟨h1, h2, h3, h4, h5, h6, h7⟩
    simp only [GetFrequency, if_neg h1, if_neg h2, if_neg h3, if_neg h4, if_neg h5, if_neg h6,
      if_neg h7]
  · rintro ⟨hs, h1, h2, h3⟩
    subst hs
    simp only [GetFrequency, if_true, if_neg h1, if_neg h2, if_neg h3]
    exact h0 freq_num
  · rintro ⟨hs, h1, h2, h3⟩
    subst hs
    unfold GetFrequency
    simp only []
    generalize Signal.headD (Char.ofNat 0) = s0 at *
    simp [h1, h2, h3]
  · rintro ⟨hs, h1, h2, h3⟩
    subst hs
    unfold GetFrequency
    simp only []
    generalize Signal.headD (Char.ofNat 0) = s0 at *
    simp [h1, h2, h3]
  · rintro ⟨hs, h1, h2, h3, h4, h5⟩
    subst hs
    unfold GetFrequency
    simp only []
    generalize Signal.headD (Char.ofNat 0) = s0 at *
    simp [h1, h2, h3, h4, h5]
  · rintro ⟨hs, h1, h2⟩
    subst hs
    unfold GetFrequency
    simp only []
    generalize Signal.headD (Char.ofNat 0) = s0 at *
    simp [h1, h2]
  · rintro ⟨hs, h1, h2, h3, h4⟩
    subst hs
    unfold GetFrequency
    simp only []
    generalize Signal.headD (Char.ofNat 0) = s0 at *
    simp [h1, h2, h3, h4]
  · rintro ⟨hs, h1, h2⟩
    subst hs
    unfold GetFrequency
    simp only []
    generalize Signal.headD (Char.ofNat 0) = s0 at *
    simp [h1, h2]

/-- C35 with frequencies in whole hertz: the GLONASS band '5' with frequency number 3 and the
system 'X' both give -1. -/
theorem C35_unrecognised_frequency_witness :
    GetFrequency
        (⟨1575420000, 1227600000, 1176450000, 1278750000, 1207140000, 1191795000, 2492028000,
          1602000000, 562500, 1246000000, 437500, 1202025000, 1561098000, 1207140000,
          1268520000, -1, 0, fun r n d => r + n * d⟩ : FrequencyConstants Int)
        'R' ['5', 'X'] 3 = -1 :=
  (C35_unrecognised_frequency Int
    ⟨1575420000, 1227600000, 1176450000, 1278750000, 1207140000, 1191795000, 2492028000,
      1602000000, 562500, 1246000000, 437500, 1202025000, 1561098000, 1207140000,
      1268520000, -1, 0, fun r n d => r + n * d⟩
    'R' ['5', 'X'] 3 (fun n => by simp)).2.1 ⟨rfl, by decide, by decide, by decide⟩

/-! ## The dump and its reader -/

/-- The reader on the sixteen values of one epoch of two channels. -/
theorem save_matfile_read_two (R : Type) (a0 a1 a2 a3 a4 a5 a6 a7 b0 b1 b2 b3 b4 b5 b6 b7 : R) :
    rx_synch_observables_gs.save_matfile_read 2
      [a0, a1, a2, a3, a4, a5, a6, a7, b0, b1, b2, b3, b4, b5, b6, b7]
      = [[a0, a1, a2, a3, a4, a5, a6], [a7, b0, b1, b2, b3, b4, b5]] := by
  have hw : wrap32 (8 * (7 : Nat) * (2 : Nat)) = 112 := by decide
  have hq : Int.tdiv (8 * ((16 : Nat) : Int)) 112 = 1 := by decide
  simp only [rx_synch_observables_gs.save_matfile_read, List.length_cons, List.length_nil]
  rw [hw]
  rw [hq]
  rfl


/-- C34 fails on the code: the dump loop writes eight `double`s for each output channel, the
eighth being `Tracking_sample_counter`, while `save_matfile` reads seven per channel.  For a
block with two output channels and the dump enabled, one epoch with the records `o0`, `o1`
in the output slots appends 16 values, the eight of `o0` then the eight of `o1`; the reader
computes one epoch and takes as the tuple of channel 1 the sample counter of `o0` followed by
the first six values of `o1`. -/
theorem C34_dump_record_width (R : Type) (ops : DoubleOps R) (default_obs : Gnss_Synchro R)
    (observe : Nat → R → TimePoint → TimeConverterImpl × TimeInterval → Gnss_Synchro R →
      (TimeConverterImpl × TimeInterval) × Gnss_Synchro R)
    (converter : TimeConverterImpl) (rate_hz : R) (o0 o1 epoch_synchro : Gnss_Synchro R) :
    (rx_synch_observables_gs.general_work ops default_obs observe
        (rx_synch_observables_gs.ctor default_obs converter 3 2 true true rate_hz)
        [[], [], [epoch_synchro]] [o0, o1]).output_items = [o0, o1] ∧
      (rx_synch_observables_gs.general_work ops default_obs observe
        (rx_synch_observables_gs.ctor default_obs converter 3 2 true true rate_hz)
        [[], [], [epoch_synchro]] [o0, o1]).self.d_dump_file
        = [o0.RX_time, ops.ofNat o0.TOW_at_current_symbol_ms, o0.Carrier_Doppler_hz,
           ops.cycles o0.Carrier_phase_rads, o0.Pseudorange_m, ops.ofNat o0.PRN,
           ops.ofBool o0.Flag_valid_pseudorange, ops.ofNat o0.Tracking_sample_counter,
           o1.RX_time, ops.ofNat o1.TOW_at_current_symbol_ms, o1.Carrier_Doppler_hz,
           ops.cycles o1.Carrier_phase_rads, o1.Pseudorange_m, ops.ofNat o1.PRN,
           ops.ofBool o1.Flag_valid_pseudorange, ops.ofNat o1.Tracking_sample_counter] ∧
      (rx_synch_observables_gs.general_work ops default_obs observe
        (rx_synch_observables_gs.ctor default_obs converter 3 2 true true rate_hz)
        [[], [], [epoch_synchro]] [o0, o1]).self.d_dump_file.length = 8 * 2 ∧
      rx_synch_observables_gs.save_matfile_read 2
        (rx_synch_observables_gs.general_work ops default_obs observe
          (rx_synch_observables_gs.ctor default_obs converter 3 2 true true rate_hz)
          [[], [], [epoch_synchro]] [o0, o1]).self.d_dump_file
        = [[o0.RX_time, ops.ofNat o0.TOW_at_current_symbol_ms, o0.Carrier_Doppler_hz,
            ops.cycles o0.Carrier_phase_rads, o0.Pseudorange_m, ops.ofNat o0.PRN,
            ops.ofBool o0.Flag_valid_pseudorange],
           [ops.ofNat o0.Tracking_sample_counter, o1.RX_time,
            ops.ofNat o1.TOW_at_current_symbol_ms, o1.Carrier_Doppler_hz,
            ops.cycles o1.Carrier_phase_rads, o1.Pseudorange_m, ops.ofNat o1.PRN]] := by
  have hh : (([[], [], [epoch_synchro]] : List (List (Gnss_Synchro R))).getD
      (rx_synch_observables_gs.ctor default_obs converter 3 2 true true
        rate_hz).epoch_channel []).head? = some epoch_synchro := by
    show (([[], [], [epoch_synchro]] : List (List (Gnss_Synchro R))).getD
      ((3 + 4294967295) % 4294967296) []).head? = some epoch_synchro
    have h1 : (3 + 4294967295) % 4294967296 = 2 := by decide
    rw [h1]
    rfl
  have hloop :
      (rx_synch_observables_gs.measurement_loop observe
        (rx_synch_observables_gs.ctor default_obs converter 3 2 true true rate_hz).d_rx_id
        (rx_synch_observables_gs.ctor default_obs converter 3 2 true true rate_hz).d_rate_hz
        (TimePoint.MakeReceiver (rx_synch_observables_gs.sample_time ops epoch_synchro)
          (rx_synch_observables_gs.ctor default_obs converter 3 2 true true rate_hz).d_rx_id)
        (rx_synch_observables_gs.read_channels [[], [], [epoch_synchro]]
          (rx_synch_observables_gs.ctor default_obs converter 3 2 true true
            rate_hz).d_nchannels_out
          (rx_synch_observables_gs.ctor default_obs converter 3 2 true true
            rate_hz).d_current_measurements)
        ((rx_synch_observables_gs.ctor default_obs converter 3 2 true true rate_hz).converter,
          (rx_synch_observables_gs.ctor default_obs converter 3 2 true true
            rate_hz).d_rx_epoch_offset) [o0, o1]).1.2 = [o0, o1] := by
    have hn : (rx_synch_observables_gs.ctor default_obs converter 3 2 true true
        rate_hz).d_nchannels_out = 2 := rfl
    have hr : ∀ cur : List (Gnss_Synchro R),
        rx_synch_observables_gs.read_channels [[], [], [epoch_synchro]] 2 cur = cur :=
      fun _ => rfl
    have hm : (rx_synch_observables_gs.ctor default_obs converter 3 2 true true
        rate_hz).d_current_measurements
        = [{ rx_synch_observables_gs.empty_obs default_obs with Channel_ID := 0 },
           { rx_synch_observables_gs.empty_obs default_obs with Channel_ID := 1 }] := rfl
    rw [hn, hr, hm, rx_synch_observables_gs.measurement_loop_skip _ _ _ _ _ _ _ _ rfl,
      rx_synch_observables_gs.measurement_loop_skip _ _ _ _ _ _ _ _ rfl]
    rfl
  have h1 := rx_synch_observables_gs.general_work_outputs ops default_obs observe
    (rx_synch_observables_gs.ctor default_obs converter 3 2 true true rate_hz)
    [[], [], [epoch_synchro]] [o0, o1] epoch_synchro hh
  have hd : (rx_synch_observables_gs.general_work ops default_obs observe
        (rx_synch_observables_gs.ctor default_obs converter 3 2 true true rate_hz)
        [[], [], [epoch_synchro]] [o0, o1]).self.d_dump_file
        = [o0.RX_time, ops.ofNat o0.TOW_at_current_symbol_ms, o0.Carrier_Doppler_hz,
           ops.cycles o0.Carrier_phase_rads, o0.Pseudorange_m, ops.ofNat o0.PRN,
           ops.ofBool o0.Flag_valid_pseudorange, ops.ofNat o0.Tracking_sample_counter,
           o1.RX_time, ops.ofNat o1.TOW_at_current_symbol_ms, o1.Carrier_Doppler_hz,
           ops.cycles o1.Carrier_phase_rads, o1.Pseudorange_m, ops.ofNat o1.PRN,
           ops.ofBool o1.Flag_valid_pseudorange, ops.ofNat o1.Tracking_sample_counter] := by
    rw [h1.2.2, hloop]
    rfl
  refine ⟨by rw [h1.2.1, hloop], hd, by rw [hd]; rfl, ?_⟩
  rw [hd]
  exact save_matfile_read_two R _ _ _ _ _ _ _ _ _ _ _ _ _ _ _ _

/-! ## The clock-correction handler -/

theorem TimeIntervalImpl.ctor_valid (weeks seconds fl fr : Int) :
    (TimeIntervalImpl.ctor weeks seconds fl fr).Valid := by
  unfold TimeIntervalImpl.ctor
  exact TimeIntervalImpl.Normalise_valid _ _

namespace rx_synch_observables_gs

variable {R : Type}

theorem handler_epoch_offset (obs : ObservableOps R) (self : rx_synch_observables_gs R)
    (clock_correction : R) :
    (msg_handler_pvt_to_observables obs self clock_correction).d_rx_epoch_offset =
      (self.d_rx_epoch_offset + TimeInterval.Seconds_double obs clock_correction).RemainderMod
        (TimeInterval.Seconds_double obs (obs.div obs.one self.d_rate_hz)) := rfl

theorem handler_converter (obs : ObservableOps R) (self : rx_synch_observables_gs R)
    (clock_correction : R) :
    (msg_handler_pvt_to_observables obs self clock_correction).converter =
      (if (self.converter.Convert (TimePoint.MakeReceiver (TimeInterval.Seconds 0) self.d_rx_id)
          (ClockID.MakeGnss GnssSystem.kGps ClockID.kSystemClockID)).1 = true then
        self.converter.SetReceiverEpoch self.d_rx_id
          ((self.converter.Convert
            (TimePoint.MakeReceiver (TimeInterval.Seconds 0) self.d_rx_id)
            (ClockID.MakeGnss GnssSystem.kGps ClockID.kSystemClockID)).2
            + TimeInterval.Seconds_double obs clock_correction)
      else self.converter) := rfl

end rx_synch_observables_gs

/-- C33: for every state of the block and every correction, whether or not a receiver epoch
is registered, when the update interval `Seconds(1.0 / d_rate_hz)` is a positive duration the
offset `r` left by the handler represents a value in `[0, update interval)`: it is not below
the zero duration and is below the update interval, also for `operator<`, and the sum
`d_rx_epoch_offset + Seconds(clock_correction)` formed by the handler differs from `r` by an
integer multiple of the update interval. -/
theorem C33_handler_epoch_offset (R : Type) (obs : ObservableOps R)
    (self : rx_synch_observables_gs R) (clock_correction : R)
    (hpos : 0 < TimeIntervalImpl.femtoseconds
      (TimeInterval.Seconds_double obs (obs.div obs.one self.d_rate_hz))) :
    0 ≤ TimeIntervalImpl.femtoseconds
        (rx_synch_observables_gs.msg_handler_pvt_to_observables obs self
          clock_correction).d_rx_epoch_offset ∧
      TimeIntervalImpl.femtoseconds
        (rx_synch_observables_gs.msg_handler_pvt_to_observables obs self
          clock_correction).d_rx_epoch_offset
        < TimeIntervalImpl.femtoseconds
          (TimeInterval.Seconds_double obs (obs.div obs.one self.d_rate_hz)) ∧
      (∃ k : Int,
        TimeIntervalImpl.femtoseconds
            (self.d_rx_epoch_offset + TimeInterval.Seconds_double obs clock_correction)
          - TimeIntervalImpl.femtoseconds
            (rx_synch_observables_gs.msg_handler_pvt_to_observables obs self
              clock_correction).d_rx_epoch_offset
          = k * TimeIntervalImpl.femtoseconds
            (TimeInterval.Seconds_double obs (obs.div obs.one self.d_rate_hz))) ∧
      TimeIntervalImpl.lt
        (rx_synch_observables_gs.msg_handler_pvt_to_observables obs self
          clock_correction).d_rx_epoch_offset ⟨0, 0⟩ = false ∧
      TimeIntervalImpl.lt
        (rx_synch_observables_gs.msg_handler_pvt_to_observables obs self
          clock_correction).d_rx_epoch_offset
        (TimeInterval.Seconds_double obs (obs.div obs.one self.d_rate_hz)) = true := by
  rw [rx_synch_observables_gs.handler_epoch_offset]
  generalize self.d_rx_epoch_offset + TimeInterval.Seconds_double obs clock_correction = t
  have hmv : (TimeInterval.Seconds_double obs (obs.div obs.one self.d_rate_hz)).Valid :=
    TimeIntervalImpl.ctor_valid _ _ _ _
  generalize TimeInterval.Seconds_double obs (obs.div obs.one self.d_rate_hz) = m at *
  have hr := TimeIntervalImpl.femtoseconds_RemainderMod t m
  have h0 : 0 ≤ t.femtoseconds % m.femtoseconds := Int.emod_nonneg _ (by omega)
  have h1 : t.femtoseconds % m.femtoseconds < m.femtoseconds := Int.emod_lt_of_pos _ hpos
  have hk : t.femtoseconds - t.femtoseconds % m.femtoseconds
      = (t.femtoseconds / m.femtoseconds) * m.femtoseconds := by
    have := Int.emod_add_ediv t.femtoseconds m.femtoseconds
    rw [Int.mul_comm] at this
    omega
  refine ⟨by rw [hr]; exact h0, by rw [hr]; exact h1, ⟨_, by rw [hr]; exact hk⟩, ?_, ?_⟩
  · cases hlt : TimeIntervalImpl.lt (t.RemainderMod m) ⟨0, 0⟩ with
    | false => rfl
    | true =>
      rw [TimeIntervalImpl.lt_iff] at hlt
      simp only [TimeIntervalImpl.RemainderMod, kOneSecondInternal_eq] at hlt
      generalize t.femtoseconds % m.femtoseconds = q at *
      omega
  · rw [TimeIntervalImpl.lt_iff]
    obtain ⟨_, hm1, hm2⟩ := hmv
    simp only [TimeIntervalImpl.femtoseconds, kOneSecondInternal_eq] at h1 hm1 hm2
    simp only [TimeIntervalImpl.RemainderMod, kOneSecondInternal_eq]
    simp only [TimeIntervalImpl.femtoseconds, kOneSecondInternal_eq] at h0 ⊢
    generalize (t.mSeconds * 1000000000000000 + t.mFractionalSeconds)
      % (m.mSeconds * 1000000000000000 + m.mFractionalSeconds) = q at *
    omega

/-- C33 on a block at 50 Hz, `double` read as a count of femtoseconds: the offset left after a
correction of 0.123 s is below the update interval of 20 ms. -/
theorem C33_handler_epoch_offset_witness :
    TimeIntervalImpl.lt
      (rx_synch_observables_gs.msg_handler_pvt_to_observables
        (⟨fun a b => a + b, fun a b => a - b, fun a b => a * b / 1000000000000000,
          fun a b => a * 1000000000000000 / b, fun n => n * 1000000000000000,
          1000000000000000, 1000000000000, fun x => x / 1000000000000000,
          fun x => x % 1000000000000000, fun x => Int.tdiv x 1000000000000000,
          fun x => ((x + 500000000000000) / 1000000000000000).toNat,
          299792458000000000000000, 299792458000000000000, 6283185307179586⟩ :
          ObservableOps Int)
        (rx_synch_observables_gs.ctor
          ⟨'G', [], 0, 0, false, 0, 0, 0, 0, 0, 0, false, 0, 0, 0, 0, false⟩
          TimeConverterImpl.new 2 1 false false 50000000000000000)
        123000000000000).d_rx_epoch_offset
      (TimeInterval.Seconds_double
        (⟨fun a b => a + b, fun a b => a - b, fun a b => a * b / 1000000000000000,
          fun a b => a * 1000000000000000 / b, fun n => n * 1000000000000000,
          1000000000000000, 1000000000000, fun x => x / 1000000000000000,
          fun x => x % 1000000000000000, fun x => Int.tdiv x 1000000000000000,
          fun x => ((x + 500000000000000) / 1000000000000000).toNat,
          299792458000000000000000, 299792458000000000000, 6283185307179586⟩ :
          ObservableOps Int)
        20000000000000) = true :=
  (C33_handler_epoch_offset Int
    ⟨fun a b => a + b, fun a b => a - b, fun a b => a * b / 1000000000000000,
      fun a b => a * 1000000000000000 / b, fun n => n * 1000000000000000,
      1000000000000000, 1000000000000, fun x => x / 1000000000000000,
      fun x => x % 1000000000000000, fun x => Int.tdiv x 1000000000000000,
      fun x => ((x + 500000000000000) / 1000000000000000).toNat,
      299792458000000000000000, 299792458000000000000, 6283185307179586⟩
    (rx_synch_observables_gs.ctor
      ⟨'G', [], 0, 0, false, 0, 0, 0, 0, 0, 0, false, 0, 0, 0, 0, false⟩
      TimeConverterImpl.new 2 1 false false 50000000000000000)
    123000000000000 (by decide)).2.2.2.2

theorem congr_of_difference (x y z w : Int)
    (h1 : (x - (y + z)) % 18446744073709551616000000000000000 = 0)
    (h2 : (w - (x - y)) % 18446744073709551616000000000000000 = 0) :
    (w - z) % 18446744073709551616000000000000000 = 0 := by
  omega

/-- The value of a registered receiver epoch moved by a correction: the conversion of a
receiver instant to GPS time before and after. -/
theorem receiver_shift_congr (r o d : TimeIntervalImpl) (hr : r.Valid) (ho : o.Valid)
    (hd : d.Valid) :
    (TimeIntervalImpl.femtoseconds
        (r + (((TimeInterval.Seconds 0 + (o - (⟨2524953619, 0⟩ : TimeIntervalImpl))) + d
          + ((⟨2524953619, 0⟩ : TimeIntervalImpl) - ⟨0, 0⟩))
          - (⟨2524953619, 0⟩ : TimeIntervalImpl)))
      - (TimeIntervalImpl.femtoseconds (r + (o - (⟨2524953619, 0⟩ : TimeIntervalImpl)))
          + TimeIntervalImpl.femtoseconds d))
      % 18446744073709551616000000000000000 = 0 := by
  have hA : (⟨2524953619, 0⟩ : TimeIntervalImpl).Valid := by decide
  have hZ : (⟨0, 0⟩ : TimeIntervalImpl).Valid := by decide
  have hS : (TimeInterval.Seconds 0).Valid := Seconds_valid 0
  have hS0 : TimeIntervalImpl.femtoseconds (TimeInterval.Seconds 0) = 0 := by decide
  have hAf : TimeIntervalImpl.femtoseconds (⟨2524953619, 0⟩ : TimeIntervalImpl)
      = 2524953619000000000000000 := by decide
  have hZf : TimeIntervalImpl.femtoseconds (⟨0, 0⟩ : TimeIntervalImpl) = 0 := by decide
  have h1 := TimeIntervalImpl.femtoseconds_sub o ⟨2524953619, 0⟩ ho hA
  have h2 := TimeIntervalImpl.femtoseconds_add (TimeInterval.Seconds 0)
    (o - (⟨2524953619, 0⟩ : TimeIntervalImpl)) hS (TimeIntervalImpl.sub_valid _ _)
  have h3 := TimeIntervalImpl.femtoseconds_add
    (TimeInterval.Seconds 0 + (o - (⟨2524953619, 0⟩ : TimeIntervalImpl))) d
    (TimeIntervalImpl.add_valid _ _) hd
  have h4 := TimeIntervalImpl.femtoseconds_sub (⟨2524953619, 0⟩ : TimeIntervalImpl) ⟨0, 0⟩ hA hZ
  have h5 := TimeIntervalImpl.femtoseconds_add
    ((TimeInterval.Seconds 0 + (o - (⟨2524953619, 0⟩ : TimeIntervalImpl))) + d)
    ((⟨2524953619, 0⟩ : TimeIntervalImpl) - ⟨0, 0⟩)
    (TimeIntervalImpl.add_valid _ _) (TimeIntervalImpl.sub_valid _ _)
  have h6 := TimeIntervalImpl.femtoseconds_sub
    ((TimeInterval.Seconds 0 + (o - (⟨2524953619, 0⟩ : TimeIntervalImpl))) + d
      + ((⟨2524953619, 0⟩ : TimeIntervalImpl) - ⟨0, 0⟩))
    (⟨2524953619, 0⟩ : TimeIntervalImpl)
    (TimeIntervalImpl.add_valid _ _) hA
  have h7 := TimeIntervalImpl.femtoseconds_add r
    (((TimeInterval.Seconds 0 + (o - (⟨2524953619, 0⟩ : TimeIntervalImpl))) + d
      + ((⟨2524953619, 0⟩ : TimeIntervalImpl) - ⟨0, 0⟩))
      - (⟨2524953619, 0⟩ : TimeIntervalImpl)) hr (TimeIntervalImpl.sub_valid _ _)
  have h8 := TimeIntervalImpl.femtoseconds_add r (o - (⟨2524953619, 0⟩ : TimeIntervalImpl)) hr
    (TimeIntervalImpl.sub_valid _ _)
  rw [hS0] at h2
  rw [hAf] at h1 h4 h6
  rw [hZf] at h4
  omega

/-- C32: in every reachable state of the converter.  When the receiver clock of the block has
an epoch-offset entry, the conversion to GPS time of every receiver instant `r` (in range) of
that clock succeeds before and after the handler, and the result after represents the result
before plus the duration `Seconds(clock_correction)`, up to the 64-bit wrap of the seconds
member; the same holds for the difference of the two results formed with `operator-`.  When
the receiver clock has no entry, the handler leaves the converter as it was. -/
theorem C32_handler_shifts_receiver (R : Type) (obs : ObservableOps R)
    (self : rx_synch_observables_gs R) (clock_correction : R)
    (hc : Reachable self.converter) :
    (∀ e_rx : epoch_offset_entry_t,
        self.converter.find_offset (ClockID.MakeReceiver self.d_rx_id) = some e_rx →
        ∀ r : TimeInterval, r.Valid →
          (self.converter.Convert (TimePoint.MakeReceiver r self.d_rx_id)
            (ClockID.MakeGnss GnssSystem.kGps ClockID.kSystemClockID)).1 = true ∧
          ((rx_synch_observables_gs.msg_handler_pvt_to_observables obs self
            clock_correction).converter.Convert (TimePoint.MakeReceiver r self.d_rx_id)
            (ClockID.MakeGnss GnssSystem.kGps ClockID.kSystemClockID)).1 = true ∧
          (TimeIntervalImpl.femtoseconds
              ((rx_synch_observables_gs.msg_handler_pvt_to_observables obs self
                clock_correction).converter.Convert (TimePoint.MakeReceiver r self.d_rx_id)
                (ClockID.MakeGnss GnssSystem.kGps ClockID.kSystemClockID)).2.mTimeSinceEpoch
            - (TimeIntervalImpl.femtoseconds
                (self.converter.Convert (TimePoint.MakeReceiver r self.d_rx_id)
                  (ClockID.MakeGnss GnssSystem.kGps
                    ClockID.kSystemClockID)).2.mTimeSinceEpoch
              + TimeIntervalImpl.femtoseconds
                (TimeInterval.Seconds_double obs clock_correction)))
            % 18446744073709551616000000000000000 = 0 ∧
          (TimeIntervalImpl.femtoseconds
              (((rx_synch_observables_gs.msg_handler_pvt_to_observables obs self
                clock_correction).converter.Convert (TimePoint.MakeReceiver r self.d_rx_id)
                (ClockID.MakeGnss GnssSystem.kGps ClockID.kSystemClockID)).2.mTimeSinceEpoch
              - (self.converter.Convert (TimePoint.MakeReceiver r self.d_rx_id)
                  (ClockID.MakeGnss GnssSystem.kGps
                    ClockID.kSystemClockID)).2.mTimeSinceEpoch)
            - TimeIntervalImpl.femtoseconds
                (TimeInterval.Seconds_double obs clock_correction))
            % 18446744073709551616000000000000000 = 0) ∧
      (self.converter.find_offset (ClockID.MakeReceiver self.d_rx_id) = none →
        (rx_synch_observables_gs.msg_handler_pvt_to_observables obs self
          clock_correction).converter = self.converter) := by
  have inv := hc.offsets_inv
  have hgps := TimeConverterImpl.find_offset_gps self.converter inv
  have htai := TimeConverterImpl.find_offset_tai self.converter inv
  have hne : ClockID.MakeReceiver self.d_rx_id
      ≠ ClockID.MakeGnss GnssSystem.kGps ClockID.kSystemClockID := by
    simp [ClockID.MakeReceiver, ClockID.MakeGnss]
  have hne2 : ClockID.MakeGnss GnssSystem.kGps ClockID.kSystemClockID
      ≠ ClockID.MakeTAI ClockID.kSystemClockID := by decide
  rw [rx_synch_observables_gs.handler_converter]
  constructor
  · intro e_rx hrx r hr
    have ho := TimeConverterImpl.find_offset_valid self.converter inv _ e_rx hrx
    have hd : (TimeInterval.Seconds_double obs clock_correction).Valid :=
      TimeIntervalImpl.ctor_valid _ _ _ _
    have hconv : ∀ t : TimeInterval,
        self.converter.Convert (TimePoint.MakeReceiver t self.d_rx_id)
          (ClockID.MakeGnss GnssSystem.kGps ClockID.kSystemClockID)
        = (true, ⟨t + (e_rx.offset - (⟨2524953619, 0⟩ : TimeIntervalImpl)),
            ClockID.MakeGnss GnssSystem.kGps ClockID.kSystemClockID⟩) := fun t =>
      TimeConverterImpl.Convert_shift self.converter t (ClockID.MakeReceiver self.d_rx_id)
        (ClockID.MakeGnss GnssSystem.kGps ClockID.kSystemClockID) e_rx
        ⟨ClockID.MakeGnss GnssSystem.kGps ClockID.kSystemClockID, ⟨2524953619, 0⟩⟩
        rfl hne hrx hgps
    rw [hconv (TimeInterval.Seconds 0), hconv r]
    simp only [if_true]
    have hset : (self.converter.Convert
        ((⟨TimeInterval.Seconds 0 + (e_rx.offset - (⟨2524953619, 0⟩ : TimeIntervalImpl)),
            ClockID.MakeGnss GnssSystem.kGps ClockID.kSystemClockID⟩ : TimePoint)
          + TimeInterval.Seconds_double obs clock_correction)
        (ClockID.MakeTAI ClockID.kSystemClockID))
        = (true, ⟨(TimeInterval.Seconds 0
              + (e_rx.offset - (⟨2524953619, 0⟩ : TimeIntervalImpl)))
            + TimeInterval.Seconds_double obs clock_correction
            + ((⟨2524953619, 0⟩ : TimeIntervalImpl) - ⟨0, 0⟩),
            ClockID.MakeTAI ClockID.kSystemClockID⟩) :=
      TimeConverterImpl.Convert_shift self.converter _
        (ClockID.MakeGnss GnssSystem.kGps ClockID.kSystemClockID)
        (ClockID.MakeTAI ClockID.kSystemClockID)
        ⟨ClockID.MakeGnss GnssSystem.kGps ClockID.kSystemClockID, ⟨2524953619, 0⟩⟩
        ⟨ClockID.MakeTAI ClockID.kSystemClockID, ⟨0, 0⟩⟩ rfl hne2 hgps htai
    have hfind := TimeConverterImpl.find_offset_set_same self.converter self.d_rx_id
      ((⟨TimeInterval.Seconds 0 + (e_rx.offset - (⟨2524953619, 0⟩ : TimeIntervalImpl)),
          ClockID.MakeGnss GnssSystem.kGps ClockID.kSystemClockID⟩ : TimePoint)
        + TimeInterval.Seconds_double obs clock_correction) (by rw [hset])
    rw [hset] at hfind
    have hgps2 := TimeConverterImpl.find_offset_set_other self.converter self.d_rx_id
      ((⟨TimeInterval.Seconds 0 + (e_rx.offset - (⟨2524953619, 0⟩ : TimeIntervalImpl)),
          ClockID.MakeGnss GnssSystem.kGps ClockID.kSystemClockID⟩ : TimePoint)
        + TimeInterval.Seconds_double obs clock_correction)
      (ClockID.MakeGnss GnssSystem.kGps ClockID.kSystemClockID) (fun h => hne h.symm)
    rw [hgps] at hgps2
    have hafter := TimeConverterImpl.Convert_shift _ r (ClockID.MakeReceiver self.d_rx_id)
      (ClockID.MakeGnss GnssSystem.kGps ClockID.kSystemClockID) _
      ⟨ClockID.MakeGnss GnssSystem.kGps ClockID.kSystemClockID, ⟨2524953619, 0⟩⟩
      rfl hne hfind hgps2
    have hafter2 : (self.converter.SetReceiverEpoch self.d_rx_id
        ((⟨TimeInterval.Seconds 0 + (e_rx.offset - (⟨2524953619, 0⟩ : TimeIntervalImpl)),
          ClockID.MakeGnss GnssSystem.kGps ClockID.kSystemClockID⟩ : TimePoint)
        + TimeInterval.Seconds_double obs clock_correction)).Convert
          (TimePoint.MakeReceiver r self.d_rx_id)
          (ClockID.MakeGnss GnssSystem.kGps ClockID.kSystemClockID) = _ := hafter
    rw [hafter2]
    simp only
    have hcong := receiver_shift_congr r e_rx.offset
      (TimeInterval.Seconds_double obs clock_correction) hr ho hd
    have hsub := TimeIntervalImpl.femtoseconds_sub
      (r + (((TimeInterval.Seconds 0 + (e_rx.offset - (⟨2524953619, 0⟩ : TimeIntervalImpl)))
          + TimeInterval.Seconds_double obs clock_correction
          + ((⟨2524953619, 0⟩ : TimeIntervalImpl) - ⟨0, 0⟩))
          - (⟨2524953619, 0⟩ : TimeIntervalImpl)))
      (r + (e_rx.offset - (⟨2524953619, 0⟩ : TimeIntervalImpl)))
      (TimeIntervalImpl.add_valid _ _) (TimeIntervalImpl.add_valid _ _)
    exact ⟨trivial, trivial, hcong, congr_of_difference _ _ _ _ hcong hsub⟩
  · intro hnone
    have hfail : (self.converter.Convert
        (TimePoint.MakeReceiver (TimeInterval.Seconds 0) self.d_rx_id)
        (ClockID.MakeGnss GnssSystem.kGps ClockID.kSystemClockID)).1 = false := by
      cases hr : (self.converter.Convert
        (TimePoint.MakeReceiver (TimeInterval.Seconds 0) self.d_rx_id)
        (ClockID.MakeGnss GnssSystem.kGps ClockID.kSystemClockID)).1 with
      | false => rfl
      | true =>
        rw [TimeConverterImpl.Convert_ok_iff self.converter inv] at hr
        rcases hr with hr | ⟨h1, _⟩
        · exact absurd hr hne
        · have : (TimePoint.MakeReceiver (TimeInterval.Seconds 0) self.d_rx_id).mClockID
              = ClockID.MakeReceiver self.d_rx_id := rfl
          rw [this, hnone] at h1
          cases h1
    rw [hfail]
    simp

set_option maxRecDepth 8192 in
/-- C32 on a block whose receiver 0 was registered at the GPS zero instant, `double` read as
a count of femtoseconds: after a correction of 0.123 s the receiver instant 5 s still
converts to GPS time. -/
theorem C32_handler_shifts_receiver_witness :
    ((rx_synch_observables_gs.msg_handler_pvt_to_observables
        (⟨fun a b => a + b, fun a b => a - b, fun a b => a * b / 1000000000000000,
          fun a b => a * 1000000000000000 / b, fun n => n * 1000000000000000,
          1000000000000000, 1000000000000, fun x => x / 1000000000000000,
          fun x => x % 1000000000000000, fun x => Int.tdiv x 1000000000000000,
          fun x => ((x + 500000000000000) / 1000000000000000).toNat,
          299792458000000000000000, 299792458000000000000, 6283185307179586⟩ :
          ObservableOps Int)
        (rx_synch_observables_gs.ctor
          ⟨'G', [], 0, 0, false, 0, 0, 0, 0, 0, 0, false, 0, 0, 0, 0, false⟩
          (TimeConverterImpl.new.SetReceiverEpoch 0
            (TimePoint.MakeGnss GnssSystem.kGps (TimeInterval.Seconds 0)))
          2 1 false false 50000000000000000)
        123000000000000).converter.Convert
      (TimePoint.MakeReceiver (TimeInterval.Seconds 5) 0)
      (ClockID.MakeGnss GnssSystem.kGps ClockID.kSystemClockID)).1 = true :=
  ((C32_handler_shifts_receiver Int
    ⟨fun a b => a + b, fun a b => a - b, fun a b => a * b / 1000000000000000,
      fun a b => a * 1000000000000000 / b, fun n => n * 1000000000000000,
      1000000000000000, 1000000000000, fun x => x / 1000000000000000,
      fun x => x % 1000000000000000, fun x => Int.tdiv x 1000000000000000,
      fun x => ((x + 500000000000000) / 1000000000000000).toNat,
      299792458000000000000000, 299792458000000000000, 6283185307179586⟩
    (rx_synch_observables_gs.ctor
      ⟨'G', [], 0, 0, false, 0, 0, 0, 0, 0, 0, false, 0, 0, 0, 0, false⟩
      (TimeConverterImpl.new.SetReceiverEpoch 0
        (TimePoint.MakeGnss GnssSystem.kGps (TimeInterval.Seconds 0)))
      2 1 false false 50000000000000000)
    123000000000000
    (Reachable.setEpoch TimeConverterImpl.new 0
      (TimePoint.MakeGnss GnssSystem.kGps (TimeInterval.Seconds 0)) Reachable.ctor
      (by decide))).1
    ⟨ClockID.MakeReceiver 0, ⟨2524953619, 0⟩⟩ (by decide) (TimeInterval.Seconds 5)
    (by decide)).2.1

/-! ## The bootstrap of the receiver epoch -/

namespace rx_synch_observables_gs

variable {R : Type}

/-- The result of `measure` when the first conversion fails, the transmit time is valid and
the conversion retried after `SetReceiverEpoch` succeeds. -/
theorem measure_bootstrap (ops : DoubleOps R) (obs : ObservableOps R) (d_rx_id : Nat)
    (d_rate_hz : R) (st : TimeConverterImpl × TimeInterval) (m : Gnss_Synchro R)
    (hword : m.Flag_valid_word = true)
    (hfirst : (st.1.Convert (TimePoint.MakeReceiver (sample_time ops m) d_rx_id)
      (ClockID.MakeGnss_cast m.System ClockID.kSystemClockID)).1 = false)
    (hretry : ((st.1.SetReceiverEpoch d_rx_id
        ((⟨transmit_time ops obs m,
            ClockID.MakeGnss_cast m.System ClockID.kSystemClockID⟩ : TimePoint)
          + TimeInterval.MilliSeconds_70 - sample_time ops m)).Convert
        (TimePoint.MakeReceiver (sample_time ops m) d_rx_id)
        (ClockID.MakeGnss_cast m.System ClockID.kSystemClockID)).1 = true) :
    (measure ops obs d_rx_id d_rate_hz st m).1.1 =
        st.1.SetReceiverEpoch d_rx_id
          ((⟨transmit_time ops obs m,
              ClockID.MakeGnss_cast m.System ClockID.kSystemClockID⟩ : TimePoint)
            + TimeInterval.MilliSeconds_70 - sample_time ops m) ∧
      (measure ops obs d_rx_id d_rate_hz st m).2.Flag_valid_pseudorange = true ∧
      (measure ops obs d_rx_id d_rate_hz st m).2.Pseudorange_m =
        obs.mul
          (TimeIntervalImpl.AsSeconds obs
            ((((st.1.SetReceiverEpoch d_rx_id
                ((⟨transmit_time ops obs m,
                    ClockID.MakeGnss_cast m.System ClockID.kSystemClockID⟩ : TimePoint)
                  + TimeInterval.MilliSeconds_70 - sample_time ops m)).Convert
                (TimePoint.MakeReceiver (sample_time ops m) d_rx_id)
                (ClockID.MakeGnss_cast m.System ClockID.kSystemClockID)).2.mTimeSinceEpoch
              - transmit_time ops obs m).RemainderMod (TimeInterval.Weeks 1)))
          obs.GPS_C_M_S := by
  have hretry2 : ((st.1.SetReceiverEpoch
        (TimePoint.MakeReceiver (sample_time ops m) d_rx_id).GetClockID.GetId
        ((⟨transmit_time ops obs m,
            ClockID.MakeGnss_cast m.System ClockID.kSystemClockID⟩ : TimePoint)
          + TimeInterval.MilliSeconds_70
          - (TimePoint.MakeReceiver (sample_time ops m) d_rx_id).TimeSinceEpoch)).Convert
        (TimePoint.MakeReceiver (sample_time ops m) d_rx_id)
        (ClockID.MakeGnss_cast m.System ClockID.kSystemClockID)).1 = true := hretry
  unfold measure
  simp only [hword, hfirst, hretry2, and_self, if_true]
  exact ⟨rfl, trivial, rfl⟩

end rx_synch_observables_gs

theorem TimeIntervalImpl.femtoseconds_bounds (d : TimeIntervalImpl) (hv : d.Valid) :
    -9223372036854776808000000000000000 < d.femtoseconds ∧
      d.femtoseconds < 9223372036854775808000000000000000 := by
  obtain ⟨⟨h1, h2⟩, h3, h4⟩ := hv
  rw [kOneSecondInternal_eq] at h3 h4
  simp only [TimeIntervalImpl.femtoseconds, kOneSecondInternal_eq]
  omega

/-- The transit time read back after the bootstrap: with the receiver epoch registered as
`t_tx + 70 ms - t_rx` on a clock of offset `o`, the receive time converted to that clock is
exactly 70 ms after `t_tx` in represented value. -/
theorem bootstrap_transit (t_tx t_rx o : TimeIntervalImpl) (h1 : t_tx.Valid) (h2 : t_rx.Valid)
    (h3 : o.Valid) :
    TimeIntervalImpl.femtoseconds
      ((t_rx + ((((t_tx + TimeInterval.MilliSeconds_70) - t_rx)
          + (o - (⟨0, 0⟩ : TimeIntervalImpl))) - o)) - t_tx) = 70000000000000 := by
  have hZ : (⟨0, 0⟩ : TimeIntervalImpl).Valid := by decide
  have hM : TimeInterval.MilliSeconds_70.Valid := by decide
  have hMf : TimeIntervalImpl.femtoseconds TimeInterval.MilliSeconds_70 = 70000000000000 := by
    decide
  have hZf : TimeIntervalImpl.femtoseconds (⟨0, 0⟩ : TimeIntervalImpl) = 0 := by decide
  have e1 := TimeIntervalImpl.femtoseconds_add t_tx TimeInterval.MilliSeconds_70 h1 hM
  have e2 := TimeIntervalImpl.femtoseconds_sub (t_tx + TimeInterval.MilliSeconds_70) t_rx
    (TimeIntervalImpl.add_valid _ _) h2
  have e3 := TimeIntervalImpl.femtoseconds_sub o (⟨0, 0⟩ : TimeIntervalImpl) h3 hZ
  have e4 := TimeIntervalImpl.femtoseconds_add ((t_tx + TimeInterval.MilliSeconds_70) - t_rx)
    (o - (⟨0, 0⟩ : TimeIntervalImpl)) (TimeIntervalImpl.sub_valid _ _)
    (TimeIntervalImpl.sub_valid _ _)
  have e5 := TimeIntervalImpl.femtoseconds_sub
    (((t_tx + TimeInterval.MilliSeconds_70) - t_rx) + (o - (⟨0, 0⟩ : TimeIntervalImpl))) o
    (TimeIntervalImpl.add_valid _ _) h3
  have e6 := TimeIntervalImpl.femtoseconds_add t_rx
    ((((t_tx + TimeInterval.MilliSeconds_70) - t_rx) + (o - (⟨0, 0⟩ : TimeIntervalImpl))) - o)
    h2 (TimeIntervalImpl.sub_valid _ _)
  have e7 := TimeIntervalImpl.femtoseconds_sub
    (t_rx + ((((t_tx + TimeInterval.MilliSeconds_70) - t_rx)
      + (o - (⟨0, 0⟩ : TimeIntervalImpl))) - o)) t_tx (TimeIntervalImpl.add_valid _ _) h1
  have hb := TimeIntervalImpl.femtoseconds_bounds
    ((t_rx + ((((t_tx + TimeInterval.MilliSeconds_70) - t_rx)
      + (o - (⟨0, 0⟩ : TimeIntervalImpl))) - o)) - t_tx) (TimeIntervalImpl.sub_valid _ _)
  rw [hMf] at e1
  rw [hZf] at e3
  omega

/-- A duration that stands for 70 ms, taken modulo one week, is the pair `(0, 7 * 10^13)`. -/
theorem remainder_week_of_transit (d : TimeIntervalImpl)
    (h : TimeIntervalImpl.femtoseconds d = 70000000000000) :
    d.RemainderMod (TimeInterval.Weeks 1) = ⟨0, 70000000000000⟩ := by
  have hw : TimeIntervalImpl.femtoseconds (TimeInterval.Weeks 1)
      = 604800000000000000000 := by decide
  simp only [TimeIntervalImpl.RemainderMod, h, hw, kOneSecondInternal_eq]
  decide

/-- The converter side of the bootstrap, for a clock `g` that keeps no leap seconds and has
an entry `a`, in a converter in which the receiver clock has none. -/
theorem bootstrap_conversions (c : TimeConverterImpl) (inv : OffsetsInv c) (rx_id : Nat)
    (g : ClockID) (a : epoch_offset_entry_t) (t_tx t_rx : TimeInterval)
    (hg : c.find_offset g = some a) (hk : g.KeepsLeapSeconds = false)
    (hgrx : g.d_sys ≠ eClockSystem.kReceiver)
    (hgtai : g ≠ ClockID.MakeTAI ClockID.kSystemClockID)
    (hnone : c.find_offset (ClockID.MakeReceiver rx_id) = none) :
    (c.Convert (TimePoint.MakeReceiver t_rx rx_id) g).1 = false ∧
      (c.SetReceiverEpoch rx_id
          ((⟨t_tx, g⟩ : TimePoint) + TimeInterval.MilliSeconds_70 - t_rx)).Convert
        (TimePoint.MakeReceiver t_rx rx_id) g
        = (true, ⟨t_rx + ((((t_tx + TimeInterval.MilliSeconds_70) - t_rx)
            + (a.offset - (⟨0, 0⟩ : TimeIntervalImpl))) - a.offset), g⟩) := by
  have hne : ClockID.MakeReceiver rx_id ≠ g := fun h => (ne_receiver g hgrx rx_id) h.symm
  have htai := TimeConverterImpl.find_offset_tai c inv
  constructor
  · cases hr : (c.Convert (TimePoint.MakeReceiver t_rx rx_id) g).1 with
    | false => rfl
    | true =>
      rw [TimeConverterImpl.Convert_ok_iff c inv] at hr
      rcases hr with hr | ⟨h1, _⟩
      · exact absurd hr hne
      · have : (TimePoint.MakeReceiver t_rx rx_id).mClockID = ClockID.MakeReceiver rx_id := rfl
        rw [this, hnone] at h1
        cases h1
  · have hset : c.Convert ((⟨t_tx, g⟩ : TimePoint) + TimeInterval.MilliSeconds_70 - t_rx)
        (ClockID.MakeTAI ClockID.kSystemClockID)
        = (true, ⟨((t_tx + TimeInterval.MilliSeconds_70) - t_rx)
            + (a.offset - (⟨0, 0⟩ : TimeIntervalImpl)),
            ClockID.MakeTAI ClockID.kSystemClockID⟩) :=
      TimeConverterImpl.Convert_shift c ((t_tx + TimeInterval.MilliSeconds_70) - t_rx) g
        (ClockID.MakeTAI ClockID.kSystemClockID) a
        ⟨ClockID.MakeTAI ClockID.kSystemClockID, ⟨0, 0⟩⟩ (by rw [hk]; rfl) hgtai hg htai
    have hfind := TimeConverterImpl.find_offset_set_same c rx_id
      ((⟨t_tx, g⟩ : TimePoint) + TimeInterval.MilliSeconds_70 - t_rx) (by rw [hset])
    rw [hset] at hfind
    have hg2 := TimeConverterImpl.find_offset_set_other c rx_id
      ((⟨t_tx, g⟩ : TimePoint) + TimeInterval.MilliSeconds_70 - t_rx) g
      (fun h => hne h.symm)
    rw [hg] at hg2
    have hkr : (ClockID.MakeReceiver rx_id).KeepsLeapSeconds = g.KeepsLeapSeconds := by
      rw [hk]; rfl
    have h := TimeConverterImpl.Convert_shift
      (c.SetReceiverEpoch rx_id ((⟨t_tx, g⟩ : TimePoint) + TimeInterval.MilliSeconds_70 - t_rx))
      t_rx (ClockID.MakeReceiver rx_id) g
      ⟨ClockID.MakeReceiver rx_id,
        ((t_tx + TimeInterval.MilliSeconds_70) - t_rx)
          + (a.offset - (⟨0, 0⟩ : TimeIntervalImpl))⟩
      a hkr hne hfind hg2
    exact h

/-- C31: in every reachable state of the converter in which the receiver clock of the block
has no entry, for a measurement of system 'G', 'E' or 'C' with `Flag_valid_word` set: the
first conversion of `t_rx` to the clock of the constellation fails; the bootstrap leaves the
converter with the receiver epoch registered as `t_tx + 70 ms - t_rx`; the retried conversion
succeeds, on the clock of `t_tx`; the difference `t_rx_gnss - t_tx` does not throw and
represents exactly `7 * 10^13` femtoseconds; `Flag_valid_pseudorange` is set, also after the
propagation; and the pseudorange before the propagation is `AsSeconds` of the pair
`(0, 7 * 10^13)` (the `double` 0.07) times `GPS_C_M_S`. -/
theorem C31_bootstrap (R : Type) (ops : DoubleOps R) (obs : ObservableOps R)
    (K : FrequencyConstants R) (d_rx_id : Nat) (d_rate_hz : R) (d_receiver_time : TimePoint)
    (st : TimeConverterImpl × TimeInterval) (m : Gnss_Synchro R)
    (hc : Reachable st.1)
    (hnone : st.1.find_offset (ClockID.MakeReceiver d_rx_id) = none)
    (hsys : m.System = 'G' ∨ m.System = 'E' ∨ m.System = 'C')
    (hword : m.Flag_valid_word = true) :
    (st.1.Convert (TimePoint.MakeReceiver (rx_synch_observables_gs.sample_time ops m) d_rx_id)
        (ClockID.MakeGnss_cast m.System ClockID.kSystemClockID)).1 = false ∧
      (rx_synch_observables_gs.measure ops obs d_rx_id d_rate_hz st m).1.1 =
        st.1.SetReceiverEpoch d_rx_id
          ((⟨rx_synch_observables_gs.transmit_time ops obs m,
              ClockID.MakeGnss_cast m.System ClockID.kSystemClockID⟩ : TimePoint)
            + TimeInterval.MilliSeconds_70 - rx_synch_observables_gs.sample_time ops m) ∧
      ((rx_synch_observables_gs.measure ops obs d_rx_id d_rate_hz st m).1.1.Convert
        (TimePoint.MakeReceiver (rx_synch_observables_gs.sample_time ops m) d_rx_id)
        (ClockID.MakeGnss_cast m.System ClockID.kSystemClockID)).1 = true ∧
      (∃ d : TimeInterval,
        TimePoint.sub
            ((rx_synch_observables_gs.measure ops obs d_rx_id d_rate_hz st m).1.1.Convert
              (TimePoint.MakeReceiver (rx_synch_observables_gs.sample_time ops m) d_rx_id)
              (ClockID.MakeGnss_cast m.System ClockID.kSystemClockID)).2
            ⟨rx_synch_observables_gs.transmit_time ops obs m,
              ClockID.MakeGnss_cast m.System ClockID.kSystemClockID⟩
          = Except.ok d ∧
        TimeIntervalImpl.femtoseconds d = 70000000000000) ∧
      (rx_synch_observables_gs.measure ops obs d_rx_id d_rate_hz st
        m).2.Flag_valid_pseudorange = true ∧
      (rx_synch_observables_gs.measure ops obs d_rx_id d_rate_hz st m).2.Pseudorange_m =
        obs.mul (TimeIntervalImpl.AsSeconds obs ⟨0, 70000000000000⟩) obs.GPS_C_M_S ∧
      (rx_synch_observables_gs.compute_observable ops obs K d_rx_id d_rate_hz d_receiver_time
        st m).2.Flag_valid_pseudorange = true ∧
      (rx_synch_observables_gs.compute_observable ops obs K d_rx_id d_rate_hz d_receiver_time
        st m).1.1 = (rx_synch_observables_gs.measure ops obs d_rx_id d_rate_hz st m).1.1 := by
  have inv := hc.offsets_inv
  have hgen : ∃ a : epoch_offset_entry_t,
      st.1.find_offset (ClockID.MakeGnss_cast m.System ClockID.kSystemClockID) = some a ∧
      (ClockID.MakeGnss_cast m.System ClockID.kSystemClockID).KeepsLeapSeconds = false ∧
      (ClockID.MakeGnss_cast m.System ClockID.kSystemClockID).d_sys ≠ eClockSystem.kReceiver ∧
      ClockID.MakeGnss_cast m.System ClockID.kSystemClockID
        ≠ ClockID.MakeTAI ClockID.kSystemClockID := by
    rcases hsys with h | h | h <;> rw [h]
    · exact ⟨_, TimeConverterImpl.find_offset_gps st.1 inv, by decide, by decide, by decide⟩
    · exact ⟨_, TimeConverterImpl.find_offset_galileo st.1 inv, by decide, by decide,
        by decide⟩
    · exact ⟨_, TimeConverterImpl.find_offset_beidou st.1 inv, by decide, by decide,
        by decide⟩
  obtain ⟨a, hg, hk, hgrx, hgtai⟩ := hgen
  have hva := TimeConverterImpl.find_offset_valid st.1 inv _ a hg
  have htx : (rx_synch_observables_gs.transmit_time ops obs m).Valid :=
    TimeIntervalImpl.sub_valid _ _
  have hrx : (rx_synch_observables_gs.sample_time ops m).Valid :=
    TimeIntervalImpl.add_valid _ _
  obtain ⟨hfirst, hretry⟩ := bootstrap_conversions st.1 inv d_rx_id
    (ClockID.MakeGnss_cast m.System ClockID.kSystemClockID) a
    (rx_synch_observables_gs.transmit_time ops obs m)
    (rx_synch_observables_gs.sample_time ops m) hg hk hgrx hgtai hnone
  obtain ⟨hm1, hm2, hm3⟩ := rx_synch_observables_gs.measure_bootstrap ops obs d_rx_id d_rate_hz
    st m hword hfirst (by rw [hretry])
  have hfs := bootstrap_transit (rx_synch_observables_gs.transmit_time ops obs m)
    (rx_synch_observables_gs.sample_time ops m) a.offset htx hrx hva
  refine ⟨hfirst, hm1, by rw [hm1, hretry], ?_, hm2, ?_, hm2, rfl⟩
  · rw [hm1, hretry]
    exact ⟨_, by simp [TimePoint.sub], hfs⟩
  · rw [hm3, hretry]
    simp only
    rw [remainder_week_of_transit _ hfs]

/-- C31 on the measurement of the bootstrap scenario (GPS, week 2048, TOW 604500000 ms, code
phase 0, 4 MHz, sample counter 0) and the fresh converter, `double` read as a count of
femtoseconds: the pseudorange flag is set. -/
theorem C31_bootstrap_witness :
    (rx_synch_observables_gs.measure
        (⟨fun n => (n : Int) * 1000000000000000, fun b => if b then 1000000000000000 else 0,
          fun x => x * 1000000000000000 / 6283185307179586,
          fun r f => (0, r * 1000000000000000 / f)⟩ : DoubleOps Int)
        (⟨fun a b => a + b, fun a b => a - b, fun a b => a * b / 1000000000000000,
          fun a b => a * 1000000000000000 / b, fun n => n * 1000000000000000,
          1000000000000000, 1000000000000, fun x => x / 1000000000000000,
          fun x => x % 1000000000000000, fun x => Int.tdiv x 1000000000000000,
          fun x => ((x + 500000000000000) / 1000000000000000).toNat,
          299792458000000000000000, 299792458000000000000, 6283185307179586⟩ :
          ObservableOps Int)
        0 50000000000000000 (TimeConverterImpl.new, TimeInterval.Seconds 0)
        ⟨'G', ['1', 'C'], 5, 0, true, 4000000, 0, 0, 0, 0, 1, true, 604500000, 2048, 0, 0,
          false⟩).2.Flag_valid_pseudorange = true :=
  (C31_bootstrap Int
    ⟨fun n => (n : Int) * 1000000000000000, fun b => if b then 1000000000000000 else 0,
      fun x => x * 1000000000000000 / 6283185307179586,
      fun r f => (0, r * 1000000000000000 / f)⟩
    ⟨fun a b => a + b, fun a b => a - b, fun a b => a * b / 1000000000000000,
      fun a b => a * 1000000000000000 / b, fun n => n * 1000000000000000,
      1000000000000000, 1000000000000, fun x => x / 1000000000000000,
      fun x => x % 1000000000000000, fun x => Int.tdiv x 1000000000000000,
      fun x => ((x + 500000000000000) / 1000000000000000).toNat,
      299792458000000000000000, 299792458000000000000, 6283185307179586⟩
    ⟨1575420000, 1227600000, 1176450000, 1278750000, 1207140000, 1191795000, 2492028000,
      1602000000, 562500, 1246000000, 437500, 1202025000, 1561098000, 1207140000,
      1268520000, -1, 0, fun r n d => r + n * d⟩
    0 50000000000000000 (TimePoint.MakeReceiver (TimeInterval.Seconds 0) 0)
    (TimeConverterImpl.new, TimeInterval.Seconds 0)
    ⟨'G', ['1', 'C'], 5, 0, true, 4000000, 0, 0, 0, 0, 1, true, 604500000, 2048, 0, 0, false⟩
    Reachable.ctor (TimeConverterImpl.new_find_receiver 0) (Or.inl rfl) rfl).2.2.2.2.1

end GnssSdr
